import Mathlib

/-!
# Appointment scheduling of the telemedicine backend

A shallow embedding of `backend/models/Appointment.js` and of the four handlers of
`backend/routes/appointments.js` (availability, book, cancel, clinical update).

Modelling conventions.

* A JavaScript `Date` is its integer number of milliseconds since the epoch. The server's
  local time zone is a fixed offset `tz` in minutes east of UTC (no daylight-saving change).
* Object ids are natural numbers. The `Appointment` collection is the list of its documents in
  insertion order; documents are never removed, and a new document takes an id that no
  stored document has.
* The handlers are modelled after the `authenticateToken` / `requireRole` middleware has
  run: `req.user` is an input.
* Request fields whose check is inside a library (`isMongoId`, `isBoolean`) are `Option`s:
  `none` is a value failing the check, `some v` a value passing it, already converted. The
  `date` of a request is a `DateText`: a text failing `isISO8601`, a text passing it that
  `new Date` turns into Invalid Date, or the instant `new Date(date)`; a calendar date
  `YYYY-MM-DD` is the instant of its midnight in UTC. Fields checked on their text stay
  strings.
* `createdAt` / `updatedAt`, the `error` detail of a 500 answer and console output are left
  out.
* Calls to the database and to the socket layer fail only in the ways modelled: a validation
  error, a duplicate key, or a populated reference that is `null`. The outcome of the email
  service is an input.
-/

namespace AiMicroscopy

/-! ## Data model (`models/Appointment.js`, `models/User.js`) -/

/-- The `status` enum of the Appointment schema. -/
inductive Status where
  | scheduled
  | confirmed
  | completed
  | cancelled
  | noShow
  deriving DecidableEq, Repr

/-- The text of a status as stored and sent by clients. -/
def Status.toString : Status → String
  | .scheduled => "scheduled"
  | .confirmed => "confirmed"
  | .completed => "completed"
  | .cancelled => "cancelled"
  | .noShow => "no-show"

/-- Casting a client string to the status enum. -/
def Status.ofString (s : String) : Option Status :=
  if s = "scheduled" then some .scheduled
  else if s = "confirmed" then some .confirmed
  else if s = "completed" then some .completed
  else if s = "cancelled" then some .cancelled
  else if s = "no-show" then some .noShow
  else none

/-- The filter `status: { $in: ['scheduled', 'confirmed'] }`. -/
def Status.isActive : Status → Bool
  | .scheduled => true
  | .confirmed => true
  | _ => false

/-- The `role` of a user document; `unset` is a user without a role. -/
inductive Role where
  | patient
  | doctor
  | unset
  deriving DecidableEq, Repr

/-- The text of a role, as interpolated into messages. -/
def Role.toString : Role → String
  | .patient => "patient"
  | .doctor => "doctor"
  | .unset => "undefined"

/-- The fields of a user document that the appointment handlers read. -/
structure User where
  id : Nat
  role : Role
  isActive : Bool
  fullName : String
  email : String
  deriving DecidableEq, Repr

/-- An Appointment document. -/
structure Appointment where
  id : Nat
  patient : Nat
  doctor : Nat
  date : Int
  timeSlot : String
  status : Status
  reason : String
  notes : String
  diagnosis : String
  prescription : String
  followUpRequired : Bool
  followUpDate : Option Int
  emailSent : Bool
  deriving DecidableEq, Repr

/-- The Appointment collection. -/
abbrev Store := List Appointment

/-- The `enum` of the `timeSlot` path of the Appointment schema. -/
def timeSlotEnum : List String :=
  ["09:00-09:15", "09:15-09:30", "09:30-09:45", "09:45-10:00",
   "10:00-10:15", "10:15-10:30", "10:30-10:45", "10:45-11:00",
   "11:00-11:15", "11:15-11:30", "11:30-11:45", "11:45-12:00",
   "14:00-14:15", "14:15-14:30", "14:30-14:45", "14:45-15:00",
   "15:00-15:15", "15:15-15:30", "15:30-15:45", "15:45-16:00",
   "16:00-16:15", "16:15-16:30", "16:30-16:45", "16:45-17:00"]

/-- The `allTimeSlots` literal of the availability handler. -/
def allTimeSlots : List String :=
  ["09:00-09:15", "09:15-09:30", "09:30-09:45", "09:45-10:00",
   "10:00-10:15", "10:15-10:30", "10:30-10:45", "10:45-11:00",
   "11:00-11:15", "11:15-11:30", "11:30-11:45", "11:45-12:00",
   "14:00-14:15", "14:15-14:30", "14:30-14:45", "14:45-15:00",
   "15:00-15:15", "15:15-15:30", "15:30-15:45", "15:45-16:00",
   "16:00-16:15", "16:15-16:30", "16:30-16:45", "16:45-17:00"]

/-- The `maxPatientsPerSlot` constant of the availability handler. -/
def maxPatientsPerSlot : Nat := 1

/-- The `weekdays` literal of the availability and book handlers. -/
def weekdays : List String := ["monday", "tuesday", "wednesday", "thursday", "friday"]

/-! ## Dates and strings -/

/-- Milliseconds in a day. -/
def msPerDay : Int := 86400000

/-- Local wall-clock milliseconds of the instant `t` in the zone `tz` minutes east of UTC. -/
def toLocal (tz t : Int) : Int := t + tz * 60000

/-- The effect of `d.setHours(h, m, 0, 0)`: same local calendar day, given time of day. -/
def setHours (tz t : Int) (h m : Nat) : Int :=
  let l := toLocal tz t
  (l - l % msPerDay) + (h : Int) * 3600000 + (m : Int) * 60000 - tz * 60000

/-- Lower-cased English names of the days, indexed as `Date.prototype.getDay`. -/
def dayNames : List String :=
  ["sunday", "monday", "tuesday", "wednesday", "thursday", "friday", "saturday"]

/-- The index `getDay()` of the local day of `t` (0 is Sunday; 1 January 1970 was a Thursday). -/
def getDay (tz t : Int) : Nat := ((toLocal tz t / msPerDay + 4) % 7).toNat

/-- The value of `d.toLocaleDateString('en-US', { weekday: 'long' }).toLowerCase()`. -/
def dayOfWeek (tz t : Int) : String := dayNames.getD (getDay tz t) ""

/-- The part of a string before the first occurrence of `sep`: `s.split(sep)[0]`. -/
def firstPart (sep : Char) : List Char → List Char
  | [] => []
  | c :: cs => if c = sep then [] else c :: firstPart sep cs

/-- What follows the first occurrence of `sep` (`none` when there is none). -/
def afterSep (sep : Char) : List Char → Option (List Char)
  | [] => none
  | c :: cs => if c = sep then some cs else afterSep sep cs

/-- The leading decimal digits of a text read as a number, as `parseInt` does for a text that
starts with a digit. -/
def parseDigits : Nat → List Char → Nat
  | acc, [] => acc
  | acc, c :: cs => if c.isDigit then parseDigits (acc * 10 + (c.toNat - 48)) cs else acc

/-- The `parseInt` of a text of digits. -/
def parseInt (cs : List Char) : Nat := parseDigits 0 cs

/-- The pair `(parseInt(hour), parseInt(minute))` obtained from
`const [startTime] = timeSlot.split('-'); const [hour, minute] = startTime.split(':')`. -/
def slotStart (timeSlot : String) : Nat × Nat :=
  let startTime := firstPart '-' timeSlot.data
  let hour := firstPart ':' startTime
  let minute := match afterSep ':' startTime with
    | some rest => firstPart ':' rest
    | none => []
  (parseInt hour, parseInt minute)

/-- The check `/^\d{2}:\d{2}-\d{2}:\d{2}$/` of the book validators. -/
def matchesTimeSlotFormat (s : String) : Bool :=
  match s.data with
  | [a, b, c, d, e, f, g, h, i, j, k] =>
    a.isDigit && b.isDigit && c == ':' && d.isDigit && e.isDigit && f == '-' &&
    g.isDigit && h.isDigit && i == ':' && j.isDigit && k.isDigit
  | _ => false

/-- The `length` of a JavaScript string: UTF-16 code units. -/
def utf16Length (s : String) : Nat :=
  (s.data.map fun c => if c.toNat < 65536 then 1 else 2).sum

/-- The length that the `isLength` check of the validators compares with its bounds:
`str.length` minus the number of variation selectors U+FE0E / U+FE0F and minus the number of
surrogate pairs. -/
def validatorLength (s : String) : Nat :=
  utf16Length s - (s.data.filter fun c => c.toNat == 65039 || c.toNat == 65038).length -
    (s.data.filter fun c => decide (65536 ≤ c.toNat)).length

/-- The value of `slot.replace('-', ' - ')`: the first hyphen is spaced out. -/
def formatSlot (s : String) : String :=
  match afterSep '-' s.data with
  | some rest => String.mk (firstPart '-' s.data ++ [' ', '-', ' '] ++ rest)
  | none => s

/-- Midnight UTC of the civil date `y`-`m`-`d`, the value of `new Date('YYYY-MM-DD')`. -/
def utcDate (y m d : Nat) : Int :=
  let y1 : Int := if m ≤ 2 then (y : Int) - 1 else y
  let era : Int := y1 / 400
  let yoe : Int := y1 - era * 400
  let mp : Int := if m ≤ 2 then (m : Int) + 9 else (m : Int) - 3
  let doy : Int := (153 * mp + 2) / 5 + (d : Int) - 1
  let doe : Int := yoe * 365 + yoe / 4 - yoe / 100 + doy
  (era * 146097 + doe - 719468) * msPerDay

/-! ## The model layer: validation hooks and the unique index -/

/-- The virtual `appointmentDateTime` of the Appointment schema. -/
def appointmentDateTime (tz : Int) (a : Appointment) : Int :=
  setHours tz a.date (slotStart a.timeSlot).1 (slotStart a.timeSlot).2

/-- The method `isPast` of the Appointment schema, at clock reading `now`. -/
def isPast (tz now : Int) (a : Appointment) : Bool :=
  decide (appointmentDateTime tz a < now)

/-- An error thrown by `save()`. Only `duplicateKey` carries a `code`. -/
inductive SaveError where
  | hook (message : String)
  | validation
  | duplicateKey
  deriving DecidableEq, Repr

/-- The `code` property of a thrown error. -/
def SaveError.code : SaveError → Option Nat
  | .duplicateKey => some 11000
  | _ => none

/-- The `message` property of a thrown error; the text of the two errors raised by the library
is abridged. -/
def SaveError.message : SaveError → String
  | .hook message => message
  | .validation => "Appointment validation failed"
  | .duplicateKey => "E11000 duplicate key error"

/-- The `pre('validate')` hook: `true` when it calls `next()` without an error. -/
def preValidate (tz validateNow : Int) (isNew : Bool) (a : Appointment) : Bool :=
  !(isNew && decide (appointmentDateTime tz a < validateNow))

/-- The validators declared in the schema: `required` (a required string must be non-empty),
`enum` and `maxlength` (which compares the JavaScript `length`). -/
def schemaValid (a : Appointment) : Bool :=
  timeSlotEnum.contains a.timeSlot &&
  a.reason != "" && decide (utf16Length a.reason ≤ 500) &&
  decide (utf16Length a.notes ≤ 1000) &&
  decide (utf16Length a.diagnosis ≤ 1000) &&
  decide (utf16Length a.prescription ≤ 1000)

/-- Two documents collide in the index `{ doctor: 1, date: 1, timeSlot: 1 }, { unique: true }`. -/
def sameKey (a b : Appointment) : Bool :=
  a.doctor == b.doctor && a.date == b.date && a.timeSlot == b.timeSlot

/-- The call `save()` on a new document: hook, validators, then the insert, which the unique
index may reject. -/
def insertDoc (tz validateNow : Int) (s : Store) (a : Appointment) : Except SaveError Store :=
  if !preValidate tz validateNow true a then
    .error (.hook "Cannot book appointments in the past")
  else if !schemaValid a then .error .validation
  else if s.any (fun b => sameKey b a) then .error .duplicateKey
  else .ok (s ++ [a])

/-- The call `save()` on a loaded document `old` changed into `new`: validators, then the
update of the document with that id; the unique index is consulted when the key changed. -/
def updateDoc (s : Store) (old new : Appointment) : Except SaveError Store :=
  if !schemaValid new then .error .validation
  else if !sameKey old new && s.any (fun b => sameKey b new) then .error .duplicateKey
  else .ok (s.map fun b => if b.id = old.id then new else b)

/-! ## Requests, environment and answers -/

/-- What the email service call yields. -/
inductive EmailOutcome where
  | sent
  | failed (error : String)
  | threw (message : String)
  deriving DecidableEq, Repr

/-- What a handler reads besides the request and the Appointment collection. -/
structure Env where
  users : List User
  tz : Int
  now : Int
  validateNow : Int
  socket : Bool
  email : EmailOutcome
  deriving Repr

/-- A socket room. -/
inductive Room where
  | doctor (id : Nat)
  | patient (id : Nat)
  deriving DecidableEq, Repr

/-- An outgoing notification: a socket event, or a mail handed to the email service. -/
inductive Notification where
  | emit (room : Room) (event : String)
  | mail (recipient : Option User) (kind : String)
  deriving DecidableEq, Repr

/-- The fields shared by every JSON answer. -/
structure Reply where
  status : Nat
  success : Bool
  message : Option String
  errors : List String
  deriving DecidableEq, Repr

/-- An answer `res.status(code).json({ success: false, message })`. -/
def failure (code : Nat) (message : String) : Reply :=
  ⟨code, false, some message, []⟩

/-- The answer to a request that fails the express validators. -/
def validationFailed (errors : List String) : Reply :=
  ⟨400, false, some "Validation failed", errors⟩

/-- The query `User.findOne({ _id: doctorId, role: 'doctor', isActive: true })`. -/
def findDoctor (users : List User) (doctorId : Nat) : Option User :=
  users.find? fun u => u.id == doctorId && u.role == Role.doctor && u.isActive

/-- The query `User.findById(id)`, also what `populate` puts in place of a reference. -/
def findById (users : List User) (id : Nat) : Option User :=
  users.find? fun u => u.id == id

/-! ## `GET /doctors/:doctorId/availability` -/

/-- The `date` text of a request: `malformed` fails `isISO8601`; `invalidDate` passes it but
`new Date(date)` is Invalid Date (a week date such as `2025-W25`); `instant t` passes it and
`new Date(date)` is the instant `t`. -/
inductive DateText where
  | malformed
  | invalidDate
  | instant (t : Int)
  deriving DecidableEq, Repr

/-- The check `isISO8601` on the date text. -/
def DateText.isISO8601 : DateText → Bool
  | .malformed => false
  | _ => true

/-- The lower-cased text that `toLocaleDateString` yields for Invalid Date. -/
def invalidDateText : String := "invalid date"

/-- The query string and route parameter of an availability request. -/
structure AvailabilityRequest where
  doctorId : Option Nat
  date : DateText
  deriving DecidableEq, Repr

/-- An entry of `availableSlots`. -/
structure SlotInfo where
  timeSlot : String
  formattedTime : String
  availableSpots : Int
  totalSpots : Nat
  deriving DecidableEq, Repr

/-- The `doctorInfo` object of the answer. -/
structure DoctorInfo where
  name : String
  specialization : String
  maxPatientsPerSlot : Nat
  deriving DecidableEq, Repr

/-- The answer of the availability handler. -/
structure AvailabilityResult where
  reply : Reply
  availableSlots : List SlotInfo
  doctorInfo : Option DoctorInfo
  deriving DecidableEq, Repr

/-- The object `slotCounts` after one more appointment: the counter under its time slot is
created at 1 or incremented. -/
def bump (counts : List (String × Nat)) (slot : String) : List (String × Nat) :=
  match counts with
  | [] => [(slot, 1)]
  | (k, n) :: rest => if k = slot then (k, n + 1) :: rest else (k, n) :: bump rest slot

/-- The object `slotCounts` built by the `forEach` over the fetched appointments. -/
def slotCounts (existingAppointments : List String) : List (String × Nat) :=
  existingAppointments.foldl bump []

/-- The read `slotCounts[slot] || 0`. -/
def countOf (counts : List (String × Nat)) (slot : String) : Nat :=
  match counts with
  | [] => 0
  | (k, n) :: rest => if k = slot then n else countOf rest slot

/-- The `filter(...).map(...)` producing `availableSlots` from the time slots of the fetched
appointments. -/
def availableSlots (existingAppointments : List String) : List SlotInfo :=
  (allTimeSlots.filter fun slot =>
      decide (countOf (slotCounts existingAppointments) slot < maxPatientsPerSlot)).map
    fun slot =>
      { timeSlot := slot
        formattedTime := formatSlot slot
        availableSpots :=
          (maxPatientsPerSlot : Int) - (countOf (slotCounts existingAppointments) slot : Int)
        totalSpots := maxPatientsPerSlot }

/-- The result of `Appointment.find({ doctor, date, status: { $in: [...] } }).select('timeSlot')`. -/
def existingAppointments (s : Store) (doctorId : Nat) (requestedDate : Int) : List String :=
  (s.filter fun a =>
    a.doctor == doctorId && a.date == requestedDate && a.status.isActive).map (·.timeSlot)

/-- The validation errors of an availability request. -/
def availabilityErrors (req : AvailabilityRequest) : List String :=
  (if req.doctorId.isNone then ["Invalid doctor ID"] else []) ++
  (if req.date.isISO8601 then [] else ["Date must be in YYYY-MM-DD format"])

/-- The availability handler. With Invalid Date the comparison `requestedDate < today` is
false and the weekday text is "invalid date", which is not in `weekdays`. -/
def availability (env : Env) (req : AvailabilityRequest) (s : Store) : AvailabilityResult :=
  match req.doctorId, req.date with
  | some doctorId, .invalidDate =>
    match findDoctor env.users doctorId with
    | none => ⟨failure 404 "Doctor not found", [], none⟩
    | some doctor =>
      ⟨⟨200, true, some ("Dr. " ++ doctor.fullName ++ " is not available on " ++
          invalidDateText ++ "s"), []⟩, [], none⟩
  | some doctorId, .instant requestedDate =>
    match findDoctor env.users doctorId with
    | none => ⟨failure 404 "Doctor not found", [], none⟩
    | some doctor =>
      let today := setHours env.tz env.now 0 0
      if requestedDate < today then
        ⟨failure 400 "Cannot check availability for past dates", [], none⟩
      else if !weekdays.contains (dayOfWeek env.tz requestedDate) then
        ⟨⟨200, true, some ("Dr. " ++ doctor.fullName ++ " is not available on " ++
            dayOfWeek env.tz requestedDate ++ "s"), []⟩, [], none⟩
      else
        ⟨⟨200, true, none, []⟩,
          availableSlots (existingAppointments s doctorId requestedDate),
          some ⟨doctor.fullName, "General Practice", maxPatientsPerSlot⟩⟩
  | _, _ => ⟨validationFailed (availabilityErrors req), [], none⟩

/-! ## `POST /book` -/

/-- The body of a booking request, with `req.user._id`. -/
structure BookRequest where
  user : Nat
  doctorId : Option Nat
  date : DateText
  timeSlot : String
  reason : String
  deriving DecidableEq, Repr

/-- The `appointment` object of the 201 answer. -/
structure BookSummary where
  id : Nat
  doctor : Option User
  date : Int
  timeSlot : String
  reason : String
  status : Status
  emailSent : Bool
  deriving DecidableEq, Repr

/-- What a booking request produces: the answer, the notifications and the collection. -/
structure BookResult where
  reply : Reply
  appointment : Option BookSummary
  warning : Option String
  sent : List Notification
  store : Store
  deriving DecidableEq, Repr

/-- The validation errors of a booking request, in the order of the validator chain. -/
def bookErrors (req : BookRequest) : List String :=
  (if req.doctorId.isNone then ["Invalid doctor ID"] else []) ++
  (if req.date.isISO8601 then [] else ["Date must be in YYYY-MM-DD format"]) ++
  (if matchesTimeSlotFormat req.timeSlot then [] else ["Invalid time slot format"]) ++
  (if 10 ≤ validatorLength req.reason ∧ validatorLength req.reason ≤ 500 then []
   else ["Reason must be between 10 and 500 characters"])

/-- The value of `appointmentDate` after `setHours`: the start of the requested slot. -/
def bookingStart (tz date : Int) (timeSlot : String) : Int :=
  setHours tz date (slotStart timeSlot).1 (slotStart timeSlot).2

/-- The value of `existingAppointmentsCount`. -/
def existingAppointmentsCount (s : Store) (doctorId : Nat) (appointmentDate : Int)
    (timeSlot : String) : Nat :=
  (s.filter fun a => a.doctor == doctorId && a.date == appointmentDate &&
    a.timeSlot == timeSlot && a.status.isActive).length

/-- The value of `conflictingAppointment`. -/
def conflictingAppointment (s : Store) (patientId : Nat) (appointmentDate : Int)
    (timeSlot : String) : Option Appointment :=
  s.find? fun a => a.patient == patientId && a.date == appointmentDate &&
    a.timeSlot == timeSlot && a.status.isActive

/-- The id given to a new document: one that no stored document has. -/
def freshId (s : Store) : Nat := (s.map (·.id)).foldr max 0 + 1

/-- The document `new Appointment({ patient, doctor, date, timeSlot, reason, status })`, the
other paths at their schema defaults. -/
def newAppointment (id patientId doctorId : Nat) (appointmentDate : Int)
    (timeSlot reason : String) : Appointment :=
  { id := id, patient := patientId, doctor := doctorId, date := appointmentDate,
    timeSlot := timeSlot, status := Status.scheduled, reason := reason, notes := "",
    diagnosis := "", prescription := "", followUpRequired := false, followUpDate := none,
    emailSent := false }

/-- The outcome of `sendAppointmentConfirmation`, which reports a missing patient or patient
email as a failure before it contacts the mail server. -/
def confirmationOutcome (env : Env) (patient : Option User) : EmailOutcome :=
  match patient with
  | none => .failed "Patient email is required"
  | some p => if p.email = "" then .failed "Patient email is required" else env.email

/-- What follows a successful first `save()` in the book handler: populate, socket event,
confirmation email, second `save()` and the 201 answer. -/
def afterBooked (env : Env) (doctorId : Nat) (appointment : Appointment) (s1 : Store) :
    BookResult :=
  let patientDoc := findById env.users appointment.patient
  let doctorDoc := findById env.users appointment.doctor
  if env.socket && (patientDoc.isNone || doctorDoc.isNone) then
    ⟨failure 500 "Error booking appointment", none, none, [], s1⟩
  else
    let emits := if env.socket then [Notification.emit (.doctor doctorId) "new-appointment"]
      else []
    let sent := emits ++ [Notification.mail patientDoc "confirmation"]
    let summary (a : Appointment) : BookSummary :=
      ⟨a.id, doctorDoc, a.date, a.timeSlot, a.reason, a.status, a.emailSent⟩
    let warned (w : String) : BookResult :=
      ⟨⟨201, true, some "Appointment booked successfully (email delivery pending)", []⟩,
        some (summary appointment), some w, sent, s1⟩
    match confirmationOutcome env patientDoc with
    | .sent =>
      let marked := { appointment with emailSent := true }
      match updateDoc s1 appointment marked with
      | .ok s2 =>
        ⟨⟨201, true, some "Appointment booked successfully", []⟩, some (summary marked), none,
          sent, s2⟩
      | .error e =>
        ⟨⟨201, true, some "Appointment booked successfully (email delivery pending)", []⟩,
          some (summary marked),
          some ("Appointment booked but email service error: " ++ e.message), sent, s1⟩
    | .failed error => warned ("Appointment booked but confirmation email failed: " ++ error)
    | .threw message => warned ("Appointment booked but email service error: " ++ message)

/-- The message of the answer to a booking that the unique index rejected. -/
def raceMessage : String :=
  "This time slot was just booked by another patient. Please choose a different time."

/-- The book handler from the past-date check on, for the doctor found and the parsed date.
The collection is the one read by `countDocuments` (`sCount`), the one read by `findOne`
(`sFind`) and the one written by `save()` (`s`): other requests may run between these awaits. -/
def bookChecked (env : Env) (req : BookRequest) (doctorId : Nat) (date : Int) (doctor : User)
    (sCount sFind s : Store) : BookResult :=
  let appointmentDate := bookingStart env.tz date req.timeSlot
  if appointmentDate < env.now then
    ⟨failure 400 "Cannot book appointments in the past", none, none, [], s⟩
  else if !weekdays.contains (dayOfWeek env.tz appointmentDate) then
    ⟨failure 400 ("Dr. " ++ doctor.fullName ++ " is not available on " ++
      dayOfWeek env.tz appointmentDate ++ "s"), none, none, [], s⟩
  else if existingAppointmentsCount sCount doctorId appointmentDate req.timeSlot ≥ 1 then
    ⟨failure 400 "This time slot is fully booked", none, none, [], s⟩
  else if (conflictingAppointment sFind req.user appointmentDate req.timeSlot).isSome then
    ⟨failure 400 "You already have an appointment at this time", none, none, [], s⟩
  else
    let appointment :=
      newAppointment (freshId s) req.user doctorId appointmentDate req.timeSlot req.reason
    match insertDoc env.tz env.validateNow s appointment with
    | .ok s1 => afterBooked env doctorId appointment s1
    | .error e =>
      if e.code = some 11000 then
        ⟨failure 400 raceMessage, none, none, [], s⟩
      else ⟨failure 500 "Error booking appointment", none, none, [], s⟩

/-- The book handler, with the three collections of `bookChecked`. With Invalid Date,
`setHours` leaves the date invalid, the comparison `appointmentDate < now` is false and the
weekday text is "invalid date", which is not in `weekdays`. -/
def bookWith (env : Env) (req : BookRequest) (sCount sFind s : Store) : BookResult :=
  match req.doctorId, req.date with
  | some doctorId, .invalidDate =>
    if bookErrors req ≠ [] then ⟨validationFailed (bookErrors req), none, none, [], s⟩
    else
      match findDoctor env.users doctorId with
      | none => ⟨failure 404 "Doctor not found", none, none, [], s⟩
      | some doctor =>
        ⟨failure 400 ("Dr. " ++ doctor.fullName ++ " is not available on " ++
          invalidDateText ++ "s"), none, none, [], s⟩
  | some doctorId, .instant date =>
    if bookErrors req ≠ [] then ⟨validationFailed (bookErrors req), none, none, [], s⟩
    else
      match findDoctor env.users doctorId with
      | none => ⟨failure 404 "Doctor not found", none, none, [], s⟩
      | some doctor => bookChecked env req doctorId date doctor sCount sFind s
  | _, _ => ⟨validationFailed (bookErrors req), none, none, [], s⟩

/-- The book handler run without interleaving: all three accesses see the same collection. -/
def book (env : Env) (req : BookRequest) (s : Store) : BookResult :=
  bookWith env req s s s

/-! ## `PATCH /:appointmentId/cancel` -/

/-- A cancellation request: `req.user`, the route parameter and the optional `reason` of the
body (`none` when the body has no reason). -/
structure CancelRequest where
  userId : Nat
  userRole : Role
  appointmentId : Option Nat
  reason : Option String
  deriving DecidableEq, Repr

/-- What a cancel or update request produces. -/
structure ChangeResult where
  reply : Reply
  appointment : Option Appointment
  sent : List Notification
  store : Store
  deriving DecidableEq, Repr

/-- The validation errors of a cancellation request. -/
def cancelErrors (req : CancelRequest) : List String :=
  (if req.appointmentId.isNone then ["Invalid appointment ID"] else []) ++
  (match req.reason with
   | some r =>
     if validatorLength r ≤ 500 then [] else ["Reason cannot exceed 500 characters"]
   | none => [])

/-- The value of `canCancel`; `none` when evaluating it throws because the populated user it
dereferences is `null`. -/
def canCancel (req : CancelRequest) (appointment : Appointment)
    (patientDoc doctorDoc : Option User) : Option Bool :=
  match req.userRole with
  | .patient =>
    match patientDoc with
    | none => none
    | some _ => some (appointment.patient == req.userId)
  | .doctor =>
    match doctorDoc with
    | none => none
    | some _ => some (appointment.doctor == req.userId)
  | .unset => some false

/-- The document after the two assignments of the cancel handler. -/
def cancelled (req : CancelRequest) (appointment : Appointment) : Appointment :=
  { appointment with
    status := Status.cancelled
    notes := match req.reason with
      | some r =>
        if r ≠ "" then "Cancelled by " ++ req.userRole.toString ++ ": " ++ r
        else appointment.notes
      | none => appointment.notes }

/-- The cancel handler. -/
def cancel (env : Env) (req : CancelRequest) (s : Store) : ChangeResult :=
  match req.appointmentId with
  | none => ⟨validationFailed (cancelErrors req), none, [], s⟩
  | some appointmentId =>
    if cancelErrors req ≠ [] then ⟨validationFailed (cancelErrors req), none, [], s⟩
    else
      match s.find? fun a => a.id == appointmentId with
      | none => ⟨failure 404 "Appointment not found", none, [], s⟩
      | some appointment =>
        let patientDoc := findById env.users appointment.patient
        let doctorDoc := findById env.users appointment.doctor
        match canCancel req appointment patientDoc doctorDoc with
        | none => ⟨failure 500 "Error cancelling appointment", none, [], s⟩
        | some false =>
          ⟨failure 403 "You are not authorized to cancel this appointment", none, [], s⟩
        | some true =>
          if appointment.status = Status.cancelled then
            ⟨failure 400 "Appointment is already cancelled", none, [], s⟩
          else if appointment.status = Status.completed then
            ⟨failure 400 "Cannot cancel a completed appointment", none, [], s⟩
          else
            match updateDoc s appointment (cancelled req appointment) with
            | .error _ => ⟨failure 500 "Error cancelling appointment", none, [], s⟩
            | .ok s1 =>
              if env.socket && (patientDoc.isNone || doctorDoc.isNone) then
                ⟨failure 500 "Error cancelling appointment", none, [], s1⟩
              else
                let emits :=
                  if env.socket then
                    if req.userRole = Role.patient then
                      [Notification.emit (.doctor appointment.doctor) "appointment-cancelled"]
                    else
                      [Notification.emit (.patient appointment.patient) "appointment-cancelled"]
                  else []
                ⟨⟨200, true, some "Appointment cancelled successfully", []⟩,
                  some (cancelled req appointment),
                  emits ++ [Notification.mail patientDoc "cancellation"], s1⟩

/-! ## `PATCH /:appointmentId` -/

/-- An optional request field checked inside a library: missing, present with a value failing
the check, or present with a value passing it. -/
inductive Field (α : Type) where
  | absent
  | invalid
  | value (v : α)
  deriving DecidableEq, Repr

/-- The body of a clinical update. The handler copies every key of the body onto the document,
so the body is modelled with every path of the schema; `none` is a key that is not in the
body. Keys outside the schema and values of a wrong type are not modelled. -/
structure UpdateBody where
  status : Option String
  notes : Option String
  diagnosis : Option String
  prescription : Option String
  followUpRequired : Field Bool
  followUpDate : Field Int
  patient : Option Nat
  doctor : Option Nat
  date : Option Int
  timeSlot : Option String
  reason : Option String
  emailSent : Option Bool
  deriving DecidableEq, Repr

/-- A clinical update request: `req.user._id`, the route parameter and the body. -/
structure UpdateRequest where
  doctorId : Nat
  appointmentId : Option Nat
  body : UpdateBody
  deriving DecidableEq, Repr

/-- The error of an optional text limited to `max` characters. -/
def tooLong (max : Nat) (message : String) : Option String → List String
  | some t => if validatorLength t ≤ max then [] else [message]
  | none => []

/-- The validation errors of a clinical update request. -/
def updateErrors (req : UpdateRequest) : List String :=
  (if req.appointmentId.isNone then ["Invalid appointment ID"] else []) ++
  (match req.body.status with
   | some t =>
     if ["scheduled", "confirmed", "completed", "no-show"].contains t then []
     else ["Invalid status"]
   | none => []) ++
  tooLong 1000 "Notes cannot exceed 1000 characters" req.body.notes ++
  tooLong 1000 "Diagnosis cannot exceed 1000 characters" req.body.diagnosis ++
  tooLong 1000 "Prescription cannot exceed 1000 characters" req.body.prescription ++
  (if req.body.followUpRequired = Field.invalid then ["Follow up required must be boolean"]
   else []) ++
  (if req.body.followUpDate = Field.invalid then ["Follow up date must be valid"] else [])

/-- The document after `Object.keys(updates).forEach(key => appointment[key] = updates[key])`. -/
def applyUpdates (b : UpdateBody) (a : Appointment) : Appointment :=
  { id := a.id
    patient := b.patient.getD a.patient
    doctor := b.doctor.getD a.doctor
    date := b.date.getD a.date
    timeSlot := b.timeSlot.getD a.timeSlot
    status := match b.status with
      | some t => (Status.ofString t).getD a.status
      | none => a.status
    reason := b.reason.getD a.reason
    notes := b.notes.getD a.notes
    diagnosis := b.diagnosis.getD a.diagnosis
    prescription := b.prescription.getD a.prescription
    followUpRequired := match b.followUpRequired with
      | .value v => v
      | _ => a.followUpRequired
    followUpDate := match b.followUpDate with
      | .value v => some v
      | _ => a.followUpDate
    emailSent := b.emailSent.getD a.emailSent }

/-- The clinical update handler. -/
def update (req : UpdateRequest) (s : Store) : ChangeResult :=
  match req.appointmentId with
  | none => ⟨validationFailed (updateErrors req), none, [], s⟩
  | some appointmentId =>
    if updateErrors req ≠ [] then ⟨validationFailed (updateErrors req), none, [], s⟩
    else
      match s.find? fun a => a.id == appointmentId && a.doctor == req.doctorId with
      | none =>
        ⟨failure 404 "Appointment not found or you are not authorized to update it", none, [],
          s⟩
      | some appointment =>
        match updateDoc s appointment (applyUpdates req.body appointment) with
        | .error _ => ⟨failure 500 "Error updating appointment", none, [], s⟩
        | .ok s1 =>
          ⟨⟨200, true, some "Appointment updated successfully", []⟩,
            some (applyUpdates req.body appointment), [], s1⟩

/-! ## Reachable states -/

/-- One request served: the collection before and after. A booking may have read the
collection at earlier moments (`sCount`, `sFind`) than the one at which it writes. -/
inductive Step : Store → Store → Prop where
  | book (env : Env) (req : BookRequest) (sCount sFind s : Store) :
      Step s (bookWith env req sCount sFind s).store
  | cancel (env : Env) (req : CancelRequest) (s : Store) : Step s (cancel env req s).store
  | update (req : UpdateRequest) (s : Store) : Step s (update req s).store

/-- The collections reachable from the empty one. -/
inductive Reachable : Store → Prop where
  | empty : Reachable []
  | step {s t : Store} : Reachable s → Step s t → Reachable t

/-- One request served without interleaving: a booking reads and writes the same collection. -/
inductive SeqStep : Store → Store → Prop where
  | book (env : Env) (req : BookRequest) (s : Store) : SeqStep s (book env req s).store
  | cancel (env : Env) (req : CancelRequest) (s : Store) : SeqStep s (cancel env req s).store
  | update (req : UpdateRequest) (s : Store) : SeqStep s (update req s).store

/-- The collections reachable from the empty one by requests served one after the other. -/
inductive SeqReachable : Store → Prop where
  | empty : SeqReachable []
  | step {s t : Store} : SeqReachable s → SeqStep s t → SeqReachable t

/-- The key of a document in the unique index. -/
def keyOf (a : Appointment) : Nat × Int × String := (a.doctor, a.date, a.timeSlot)

/-- The collection obeys its unique indexes: no two documents share an `_id` or a key
`(doctor, date, timeSlot)`. -/
def IndexInv (s : Store) : Prop :=
  s.Pairwise fun a b => a.id ≠ b.id ∧ keyOf a ≠ keyOf b

/-- The number of the calendar day of the instant `t` in the server's time zone (days since
1 January 1970), the day that `getDay`, `setHours` and `toLocaleDateString` work with. -/
def localDay (tz t : Int) : Int := toLocal tz t / msPerDay

/-! ## The slot catalog in the words of the specification -/

/-- The literal list of the 24 slot labels given by the specification. -/
def specSlotCatalog : List String :=
  ["09:00-09:15", "09:15-09:30", "09:30-09:45", "09:45-10:00", "10:00-10:15", "10:15-10:30",
   "10:30-10:45", "10:45-11:00", "11:00-11:15", "11:15-11:30", "11:30-11:45", "11:45-12:00",
   "14:00-14:15", "14:15-14:30", "14:30-14:45", "14:45-15:00", "15:00-15:15", "15:15-15:30",
   "15:30-15:45", "15:45-16:00", "16:00-16:15", "16:15-16:30", "16:30-16:45", "16:45-17:00"]

/-- A number below 100 written with two digits. -/
def twoDigits (n : Nat) : String := String.mk [Char.ofNat (48 + n / 10), Char.ofNat (48 + n % 10)]

/-- The time of day `HH:MM` that is `minutes` after midnight. -/
def clockLabel (minutes : Nat) : String :=
  twoDigits (minutes / 60) ++ ":" ++ twoDigits (minutes % 60)

/-- The label of the 15-minute interval starting `start` minutes after midnight. -/
def quarterLabel (start : Nat) : String := clockLabel start ++ "-" ++ clockLabel (start + 15)

/-- Twelve consecutive 15-minute intervals from `fromHour` o'clock. -/
def shiftLabels (fromHour : Nat) : List String :=
  (List.range 12).map fun i => quarterLabel (fromHour * 60 + 15 * i)

/-! ## `getNext30Days` of the frontend `AppointmentService` -/

/-- An entry of the list returned by `getNext30Days`, without its `displayDate` text. The
`date` text `YYYY-MM-DD` is represented by the instant `new Date(date)` it denotes. -/
structure DayOption where
  date : Int
  dayOfWeek : String
  isToday : Bool
  isTomorrow : Bool
  deriving DecidableEq, Repr

/-- The method `formatDate`, `toISOString().split('T')[0]`: the UTC day of an instant, as the
instant of its midnight. -/
def formatDate (t : Int) : Int := t / msPerDay * msPerDay

/-- The `date` of iteration `i`: a copy of `today` after `setDate(today.getDate() + i)`. -/
def dayAfter (today : Int) (i : Nat) : Int := today + (i : Int) * msPerDay

/-- The method `getNext30Days`, for a browser in the zone `tz` at the instant `today`. -/
def getNext30Days (tz today : Int) : List DayOption :=
  ((List.range 30).filter fun i => getDay tz (dayAfter today i) != 0).map fun i =>
    { date := formatDate (dayAfter today i)
      dayOfWeek := dayOfWeek tz (dayAfter today i)
      isToday := formatDate (dayAfter today i) == formatDate today
      isTomorrow := formatDate (dayAfter today i) == formatDate (today + 24 * 60 * 60 * 1000) }

/-! ## The answers that carry a fixed message -/

/-- The answers of the availability handler other than a validation failure and the answer
for a non-operating day. -/
def availabilityReplies : List Reply :=
  [failure 404 "Doctor not found", failure 400 "Cannot check availability for past dates",
   ⟨200, true, none, []⟩]

/-- The answers of the book handler other than a validation failure and the answer for a
non-operating day. -/
def bookReplies : List Reply :=
  [failure 404 "Doctor not found", failure 400 "Cannot book appointments in the past",
   failure 400 "This time slot is fully booked",
   failure 400 "You already have an appointment at this time", failure 400 raceMessage,
   failure 500 "Error booking appointment",
   ⟨201, true, some "Appointment booked successfully", []⟩,
   ⟨201, true, some "Appointment booked successfully (email delivery pending)", []⟩]

/-- The answers of the cancel handler other than a validation failure. -/
def cancelReplies : List Reply :=
  [failure 404 "Appointment not found", failure 500 "Error cancelling appointment",
   failure 403 "You are not authorized to cancel this appointment",
   failure 400 "Appointment is already cancelled",
   failure 400 "Cannot cancel a completed appointment",
   ⟨200, true, some "Appointment cancelled successfully", []⟩]

/-- The answers of the update handler other than a validation failure. -/
def updateReplies : List Reply :=
  [failure 404 "Appointment not found or you are not authorized to update it",
   failure 500 "Error updating appointment",
   ⟨200, true, some "Appointment updated successfully", []⟩]

/-- The message of the answer for a non-operating day. -/
def closedMessage (name day : String) : String :=
  "Dr. " ++ name ++ " is not available on " ++ day ++ "s"

/-! ## The slot start in the words of the specification -/

/-- The slot start timestamp in the words of the specification, the date combined with the
start time of the slot: the instant at which a clock `tz` minutes east of UTC shows the
calendar date whose UTC midnight is `date` and the start time written in `timeSlot`. -/
def specSlotStart (tz date : Int) (timeSlot : String) : Int :=
  date - tz * 60000 + ((slotStart timeSlot).1 : Int) * 3600000 +
    ((slotStart timeSlot).2 : Int) * 60000

/-! ## Concrete data used in the examples -/

/-- A doctor, a second doctor and two patients. -/
def sampleUsers : List User :=
  [⟨1, Role.doctor, true, "Asha Rao", "asha@clinic.test"⟩,
   ⟨2, Role.patient, true, "Pat One", "pat@mail.test"⟩,
   ⟨3, Role.patient, true, "Quinn Two", "quinn@mail.test"⟩,
   ⟨4, Role.doctor, true, "Bo Lin", "bo@clinic.test"⟩]

/-- Monday 16 June 2025, as `new Date('2025-06-16')`. -/
def monday : Int := utcDate 2025 6 16

/-- A server in UTC on 10 June 2025, with the socket layer up and a working mail server. -/
def sampleEnv : Env :=
  ⟨sampleUsers, 0, utcDate 2025 6 10, utcDate 2025 6 10, true, EmailOutcome.sent⟩

/-- Patient 2 asks for the first slot of doctor 1 on Monday 16 June 2025. -/
def sampleRequest : BookRequest :=
  ⟨2, some 1, DateText.instant monday, "09:00-09:15", "Annual checkup visit"⟩

/-- Patient 3 asks for the same slot of doctor 1. -/
def secondRequest : BookRequest :=
  ⟨3, some 1, DateText.instant monday, "09:00-09:15", "Second opinion visit"⟩

/-- Patient 2 asks for the same slot with doctor 4. -/
def otherDoctorRequest : BookRequest :=
  ⟨2, some 4, DateText.instant monday, "09:00-09:15", "Follow-up consultation"⟩

/-- The user document of doctor 1. -/
def doctorOne : User := ⟨1, Role.doctor, true, "Asha Rao", "asha@clinic.test"⟩

/-- The user document of doctor 4. -/
def doctorFour : User := ⟨4, Role.doctor, true, "Bo Lin", "bo@clinic.test"⟩

/-- The appointment stored by `sampleRequest` on an empty collection. -/
def bookedAppointment : Appointment :=
  ⟨1, 2, 1, monday + 32400000, "09:00-09:15", Status.scheduled, "Annual checkup visit", "", "",
    "", false, none, true⟩

/-- Patient 3 asks for the second slot of doctor 1. -/
def nextSlotRequest : BookRequest :=
  ⟨3, some 1, DateText.instant monday, "09:15-09:30", "Second opinion visit"⟩

/-- Patient 2 asks for a slot that has the format of a time slot but is not in the catalog. -/
def offCatalogRequest : BookRequest :=
  ⟨2, some 1, DateText.instant monday, "08:00-08:15", "Annual checkup visit"⟩

/-- The server of `sampleEnv` at the very start of the first slot of Monday 16 June 2025. -/
def boundaryEnv : Env :=
  ⟨sampleUsers, 0, monday + 32400000, monday + 32400000, true, EmailOutcome.sent⟩

/-- An active appointment of doctor 1 stored under midnight of Monday 16 June 2025. -/
def midnightStore : Store :=
  [⟨0, 2, 1, monday, "09:00-09:15", Status.scheduled, "Annual checkup visit", "", "", "",
    false, none, false⟩]

/-- The server of `boundaryEnv` when `save()` runs five milliseconds after the handler read the
clock. -/
def boundaryLaterEnv : Env :=
  ⟨sampleUsers, 0, monday + 32400000, monday + 32400005, true, EmailOutcome.sent⟩

/-- The server of `sampleEnv` on 17 June 2025, after the requested slot. -/
def lateEnv : Env :=
  ⟨sampleUsers, 0, utcDate 2025 6 17, utcDate 2025 6 17, true, EmailOutcome.sent⟩

/-- Patient 2 cancels appointment 1. -/
def patientCancel : CancelRequest := ⟨2, Role.patient, some 1, some "Schedule conflict"⟩

/-- The appointment `bookedAppointment` after `patientCancel`. -/
def cancelledAppointment : Appointment :=
  ⟨1, 2, 1, monday + 32400000, "09:00-09:15", Status.cancelled, "Annual checkup visit",
    "Cancelled by patient: Schedule conflict", "", "", false, none, true⟩

/-- The appointment stored by `otherDoctorRequest` after `cancelledAppointment`. -/
def otherDoctorAppointment : Appointment :=
  ⟨2, 2, 4, monday + 32400000, "09:00-09:15", Status.scheduled, "Follow-up consultation", "",
    "", "", false, none, true⟩

/-- Doctor 1 sets the status of appointment 1 to `scheduled`. -/
def reactivate : UpdateRequest :=
  ⟨1, some 1, ⟨some "scheduled", none, none, none, Field.absent, Field.absent, none, none,
    none, none, none, none⟩⟩

/-- Saturday 14 June 2025, as `new Date('2025-06-14')`. -/
def saturday : Int := utcDate 2025 6 14

/-- Patient 2 asks for Saturday 14 June 2025 with a slot label whose start is 48:00. -/
def rolledRequest : BookRequest :=
  ⟨2, some 1, DateText.instant saturday, "48:00-48:15", "Annual checkup visit"⟩

/-- Patient 2 asks for the first slot of doctor 1 on Saturday 14 June 2025. -/
def saturdayRequest : BookRequest :=
  ⟨2, some 1, DateText.instant saturday, "09:00-09:15", "Annual checkup visit"⟩

/-- The server of `sampleEnv` with a mail server that refuses connections. -/
def mailDownEnv : Env :=
  ⟨sampleUsers, 0, utcDate 2025 6 10, utcDate 2025 6 10, true,
    EmailOutcome.failed "connect ECONNREFUSED"⟩

/-- The user document of patient 2. -/
def patientTwo : User := ⟨2, Role.patient, true, "Pat One", "pat@mail.test"⟩

/-- Patient 3, who has no part in appointment 1, asks to cancel it. -/
def strangerCancel : CancelRequest := ⟨3, Role.patient, some 1, none⟩

/-- Doctor 1 cancels appointment 1. -/
def doctorCancel : CancelRequest := ⟨1, Role.doctor, some 1, some "Clinic closed"⟩

/-- The appointment `bookedAppointment` after doctor 1 marked it completed. -/
def completedAppointment : Appointment :=
  ⟨1, 2, 1, monday + 32400000, "09:00-09:15", Status.completed, "Annual checkup visit", "", "",
    "", false, none, true⟩

/-- The appointment `bookedAppointment` with a note written by doctor 1. -/
def notedAppointment : Appointment :=
  ⟨1, 2, 1, monday + 32400000, "09:00-09:15", Status.scheduled, "Annual checkup visit",
    "Bring previous reports", "", "", false, none, true⟩

/-- The appointment `bookedAppointment` after doctor 1 marked it as a no-show. -/
def noShowAppointment : Appointment :=
  ⟨1, 2, 1, monday + 32400000, "09:00-09:15", Status.noShow, "Annual checkup visit", "", "",
    "", false, none, true⟩

/-- Patient 2 cancels appointment 1 without giving a reason. -/
def quietCancel : CancelRequest := ⟨2, Role.patient, some 1, none⟩

/-- The body of a clinical update that has the key `status` and no other key. -/
def statusOnly (t : String) : UpdateBody :=
  ⟨some t, none, none, none, Field.absent, Field.absent, none, none, none, none, none, none⟩

/-- Doctor 1 asks to set the status of appointment 1 to `cancelled`. -/
def cancelByUpdate : UpdateRequest := ⟨1, some 1, statusOnly "cancelled"⟩

/-- Doctor 4, who is not the doctor of appointment 1, sends a note for it. -/
def foreignUpdate : UpdateRequest :=
  ⟨4, some 1, ⟨none, some "Seen by Dr. Lin", none, none, Field.absent, Field.absent, none, none,
    none, none, none, none⟩⟩

/-- Doctor 1 sends a body that names the patient, the time slot and the reason of
appointment 1. -/
def reassignUpdate : UpdateRequest :=
  ⟨1, some 1, ⟨none, none, none, none, Field.absent, Field.absent, some 3, none, none,
    some "10:00-10:15", some "Rewritten by the doctor", none⟩⟩

/-- Doctor 1 confirms appointment 1 and writes a diagnosis. -/
def clinicalUpdate : UpdateRequest :=
  ⟨1, some 1, ⟨some "confirmed", none, some "Seasonal allergy", none, Field.absent,
    Field.absent, none, none, none, none, none, none⟩⟩

/-- Saturday 21 June 2025, as `new Date('2025-06-21')`. -/
def nextSaturday : Int := utcDate 2025 6 21

/-- Patient 2 asks for the first slot of doctor 1 on Saturday 21 June 2025. -/
def nextSaturdayRequest : BookRequest :=
  ⟨2, some 1, DateText.instant nextSaturday, "09:00-09:15", "Annual checkup visit"⟩

/-- The server of `sampleEnv` without the socket layer and with an email service that throws. -/
def mailThrowsEnv : Env :=
  ⟨sampleUsers, 0, utcDate 2025 6 10, utcDate 2025 6 10, false,
    EmailOutcome.threw "socket hang up"⟩

/-- The appointment `bookedAppointment` after doctor 1 confirmed it. -/
def confirmedAppointment : Appointment :=
  ⟨1, 2, 1, monday + 32400000, "09:00-09:15", Status.confirmed, "Annual checkup visit", "", "",
    "", false, none, true⟩

/-- A server seven hours west of UTC on 10 June 2025. -/
def westEnv : Env :=
  ⟨sampleUsers, -420, utcDate 2025 6 10, utcDate 2025 6 10, true, EmailOutcome.sent⟩

/-- A server seven hours west of UTC at 19:00 UTC on Monday 16 June 2025, which is noon of
that Monday on its own clock. -/
def westNoonEnv : Env :=
  ⟨sampleUsers, -420, monday + 68400000, monday + 68400000, true, EmailOutcome.sent⟩

/-- A server five and a half hours east of UTC on 10 June 2025. -/
def eastEnv : Env :=
  ⟨sampleUsers, 330, utcDate 2025 6 10, utcDate 2025 6 10, true, EmailOutcome.sent⟩

/-- The server of `eastEnv` on 17 June 2025. -/
def eastLateEnv : Env :=
  ⟨sampleUsers, 330, utcDate 2025 6 17, utcDate 2025 6 17, true, EmailOutcome.sent⟩

/-- A reason made of 500 emoji (U+1F600), each of them two UTF-16 code units. -/
def emojiReason : String := String.mk (List.replicate 500 (Char.ofNat 128512))

/-- Patient 2 cancels appointment 1 with `emojiReason`. -/
def emojiCancel : CancelRequest := ⟨2, Role.patient, some 1, some emojiReason⟩

example : monday = 1750032000000 := by decide
example : quarterLabel 540 = "09:00-09:15" := by decide
example : (getNext30Days 0 monday).length = 26 := by decide
example : dayOfWeek 0 saturday = "saturday" := by decide
example : (cancel sampleEnv patientCancel [bookedAppointment]).store = [cancelledAppointment] := by
  decide
example : (book sampleEnv otherDoctorRequest [cancelledAppointment]).store =
    [cancelledAppointment, otherDoctorAppointment] := by decide
example : (book sampleEnv sampleRequest []).store = [bookedAppointment] := by decide
example : dayOfWeek 0 monday = "monday" := by decide
example : slotStart "09:15-09:30" = (9, 15) := by decide
example : matchesTimeSlotFormat "09:15-09:30" = true := by decide
example : formatSlot "09:15-09:30" = "09:15 - 09:30" := by decide
example : setHours 0 monday 9 15 = monday + 33300000 := by decide
example : bookErrors sampleRequest = [] := by decide
example : (book sampleEnv sampleRequest []).reply.status = 201 := by decide
example : (book sampleEnv sampleRequest []).store.length = 1 := by decide

/-! ## Availability computation -/

theorem countOf_bump (counts : List (String × Nat)) (y x : String) :
    countOf (bump counts y) x = countOf counts x + (if y = x then 1 else 0) := by
  induction counts with
  | nil =>
    by_cases h : y = x <;> simp [bump, countOf, h]
  | cons p rest ih =>
    obtain ⟨k, n⟩ := p
    by_cases hk : k = y
    · subst hk
      by_cases hx : k = x
      · simp [bump, countOf, hx]
      · simp [bump, countOf, hx]
    · by_cases hx : k = x
      · subst hx
        have hy : ¬ y = k := fun h => hk h.symm
        simp [bump, countOf, hk, hy]
      · simp [bump, countOf, hk, hx, ih]

theorem countOf_foldl_bump (l : List String) (acc : List (String × Nat)) (x : String) :
    countOf (l.foldl bump acc) x = countOf acc x + l.count x := by
  induction l generalizing acc with
  | nil => simp
  | cons y ys ih =>
    rw [List.foldl_cons, ih, countOf_bump, List.count_cons]
    by_cases h : y = x
    · simp [h]; omega
    · simp [h]

theorem countOf_slotCounts (l : List String) (x : String) :
    countOf (slotCounts l) x = l.count x := by
  simp [slotCounts, countOf_foldl_bump, countOf]

theorem allTimeSlots_nodup : allTimeSlots.Nodup := by decide

/-- The time slots listed by `availableSlots`. -/
theorem availableSlots_timeSlots (fetched : List String) :
    (availableSlots fetched).map (·.timeSlot) =
      allTimeSlots.filter fun slot => decide (fetched.count slot < 1) := by
  unfold availableSlots
  rw [List.map_map]
  have h : ((fun e : SlotInfo => e.timeSlot) ∘ fun slot : String =>
      ({ timeSlot := slot, formattedTime := formatSlot slot,
         availableSpots := (maxPatientsPerSlot : Int) - (countOf (slotCounts fetched) slot : Int),
         totalSpots := maxPatientsPerSlot } : SlotInfo)) = id := by
    funext slot; rfl
  rw [h, List.map_id]
  congr 1
  funext slot
  simp [countOf_slotCounts, maxPatientsPerSlot]

theorem availability_slots (env : Env) (req : AvailabilityRequest) (s : Store)
    (doctorId : Nat) (requestedDate : Int) (doctor : User)
    (hid : req.doctorId = some doctorId) (hdate : req.date = DateText.instant requestedDate)
    (hdoc : findDoctor env.users doctorId = some doctor)
    (hpast : ¬ requestedDate < setHours env.tz env.now 0 0)
    (hday : weekdays.contains (dayOfWeek env.tz requestedDate) = true) :
    (availability env req s).availableSlots =
      availableSlots (existingAppointments s doctorId requestedDate) := by
  unfold availability
  simp only [hid, hdate, hdoc]
  rw [if_neg hpast]
  have hmem : dayOfWeek env.tz requestedDate ∈ weekdays := by simpa using hday
  simp [hmem]

/-- The entries of `availableSlots`, written out with the capacity 1. -/
theorem availableSlots_entries (fetched : List String) :
    availableSlots fetched =
      (allTimeSlots.filter fun slot => decide (fetched.count slot < 1)).map fun slot =>
        ⟨slot, formatSlot slot, (1 : Int) - (fetched.count slot : Int), 1⟩ := by
  unfold availableSlots
  have hf : (fun slot => decide (countOf (slotCounts fetched) slot < maxPatientsPerSlot)) =
      fun slot => decide (fetched.count slot < 1) := by
    funext slot
    simp [countOf_slotCounts, maxPatientsPerSlot]
  rw [hf]
  apply List.map_congr_left
  intro slot _
  simp [countOf_slotCounts, maxPatientsPerSlot]

/-- C5. For the list `fetched` of the time slots of the active appointments found for a doctor
and a date, the availability handler answers 200 with, for each catalog slot that occurs fewer
than 1 time in `fetched` and for no other slot, one entry made of the slot, the slot with its
hyphen spaced out, `availableSpots` equal to 1 minus its number of occurrences and
`totalSpots = 1`; the entries
are in catalog order and without duplicates, a catalog slot that does not occur in `fetched`
is returned with one spot, a slot that occurs in `fetched` is not returned, and `doctorInfo`
carries the capacity 1. -/
theorem availability_computation (env : Env) (req : AvailabilityRequest) (s : Store)
    (doctorId : Nat) (requestedDate : Int) (doctor : User) (fetched : List String)
    (hid : req.doctorId = some doctorId) (hdate : req.date = DateText.instant requestedDate)
    (hdoc : findDoctor env.users doctorId = some doctor)
    (hpast : ¬ requestedDate < setHours env.tz env.now 0 0)
    (hday : weekdays.contains (dayOfWeek env.tz requestedDate) = true)
    (hfetch : existingAppointments s doctorId requestedDate = fetched) :
    (availability env req s).reply = ⟨200, true, none, []⟩ ∧
    (availability env req s).doctorInfo = some ⟨doctor.fullName, "General Practice", 1⟩ ∧
    ((availability env req s).availableSlots =
      (allTimeSlots.filter fun slot => decide (fetched.count slot < 1)).map fun slot =>
        ⟨slot, formatSlot slot, (1 : Int) - (fetched.count slot : Int), 1⟩) ∧
    ((availability env req s).availableSlots.map (·.timeSlot) =
        allTimeSlots.filter fun slot => decide (fetched.count slot < 1)) ∧
    ((availability env req s).availableSlots.map (·.timeSlot)).Nodup ∧
    (∀ e ∈ (availability env req s).availableSlots,
      e.availableSpots = (1 : Int) - (fetched.count e.timeSlot : Int) ∧ e.totalSpots = 1) ∧
    (∀ slot ∈ allTimeSlots, fetched.count slot = 0 →
      (⟨slot, formatSlot slot, 1, 1⟩ : SlotInfo) ∈ (availability env req s).availableSlots) ∧
    (∀ slot, 1 ≤ fetched.count slot →
      ∀ e ∈ (availability env req s).availableSlots, e.timeSlot ≠ slot) := by
  have hmem : dayOfWeek env.tz requestedDate ∈ weekdays := by simpa using hday
  have hreply : (availability env req s).reply = ⟨200, true, none, []⟩ := by
    unfold availability
    simp only [hid, hdate, hdoc]
    rw [if_neg hpast]
    simp [hmem]
  have hinfo : (availability env req s).doctorInfo =
      some ⟨doctor.fullName, "General Practice", 1⟩ := by
    unfold availability
    simp only [hid, hdate, hdoc]
    rw [if_neg hpast]
    simp [hmem, maxPatientsPerSlot]
  rw [availability_slots env req s doctorId requestedDate doctor hid hdate hdoc hpast hday,
    hfetch]
  refine ⟨hreply, hinfo, availableSlots_entries fetched, availableSlots_timeSlots fetched,
    ?_, ?_, ?_, ?_⟩
  · rw [availableSlots_timeSlots]
    exact allTimeSlots_nodup.filter _
  · intro e he
    rw [availableSlots_entries] at he
    obtain ⟨slot, -, rfl⟩ := List.mem_map.mp he
    exact ⟨rfl, rfl⟩
  · intro slot hslot hzero
    rw [availableSlots_entries]
    refine List.mem_map.mpr ⟨slot, ?_, ?_⟩
    · simp [hslot, hzero]
    · simp [hzero]
  · intro slot hone e he hslot
    rw [availableSlots_entries] at he
    obtain ⟨slot0, hmem0, rfl⟩ := List.mem_map.mp he
    have h0 := (List.mem_filter.mp hmem0).2
    simp only [decide_eq_true_eq] at h0
    simp only at hslot
    rw [hslot] at h0
    omega

theorem availability_computation_witness :
    existingAppointments midnightStore 1 monday = ["09:00-09:15"] ∧
    (availability sampleEnv ⟨some 1, DateText.instant monday⟩ midnightStore).availableSlots.length
      = 23 ∧
    (⟨"09:15-09:30", "09:15 - 09:30", 1, 1⟩ : SlotInfo) ∈
      (availability sampleEnv ⟨some 1, DateText.instant monday⟩ midnightStore).availableSlots ∧
    ((availability sampleEnv ⟨some 1, DateText.instant monday⟩ midnightStore).reply =
        ⟨200, true, none, []⟩ ∧
    (availability sampleEnv ⟨some 1, DateText.instant monday⟩ midnightStore).doctorInfo =
        some ⟨"Asha Rao", "General Practice", 1⟩ ∧
    ((availability sampleEnv ⟨some 1, DateText.instant monday⟩ midnightStore).availableSlots =
      (allTimeSlots.filter fun slot => decide (["09:00-09:15"].count slot < 1)).map fun slot =>
        ⟨slot, formatSlot slot, (1 : Int) - (["09:00-09:15"].count slot : Int), 1⟩) ∧
    ((availability sampleEnv ⟨some 1, DateText.instant monday⟩ midnightStore).availableSlots.map
        (·.timeSlot) =
      allTimeSlots.filter fun slot => decide (["09:00-09:15"].count slot < 1)) ∧
    ((availability sampleEnv ⟨some 1, DateText.instant monday⟩ midnightStore).availableSlots.map
        (·.timeSlot)).Nodup ∧
    (∀ e ∈ (availability sampleEnv ⟨some 1, DateText.instant monday⟩ midnightStore).availableSlots,
      e.availableSpots = (1 : Int) - (["09:00-09:15"].count e.timeSlot : Int) ∧
        e.totalSpots = 1) ∧
    (∀ slot ∈ allTimeSlots, ["09:00-09:15"].count slot = 0 →
      (⟨slot, formatSlot slot, 1, 1⟩ : SlotInfo) ∈
        (availability sampleEnv ⟨some 1, DateText.instant monday⟩ midnightStore).availableSlots) ∧
    (∀ slot, 1 ≤ ["09:00-09:15"].count slot →
      ∀ e ∈ (availability sampleEnv ⟨some 1, DateText.instant monday⟩
        midnightStore).availableSlots, e.timeSlot ≠ slot)) :=
  ⟨by decide, by decide, by decide,
    availability_computation sampleEnv ⟨some 1, DateText.instant monday⟩ midnightStore 1 monday
      ⟨1, Role.doctor, true, "Asha Rao", "asha@clinic.test"⟩ ["09:00-09:15"] rfl rfl
      (by decide) (by decide) (by decide) (by decide)⟩

/-! ## Booking -/

theorem bookWith_eq_bookChecked (env : Env) (req : BookRequest) (sCount sFind s : Store)
    (doctorId : Nat) (date : Int) (doctor : User)
    (hid : req.doctorId = some doctorId) (hdate : req.date = DateText.instant date)
    (herr : bookErrors req = [])
    (hdoc : findDoctor env.users doctorId = some doctor) :
    bookWith env req sCount sFind s =
      bookChecked env req doctorId date doctor sCount sFind s := by
  unfold bookWith
  simp only [hid, hdate, hdoc, herr, ne_eq, not_true_eq_false, if_false]

theorem existingAppointmentsCount_pos (s : Store) (doctorId : Nat) (d : Int) (slot : String)
    (a : Appointment) (ha : a ∈ s) (hdoc : a.doctor = doctorId) (hd : a.date = d)
    (hs : a.timeSlot = slot) (hact : a.status.isActive = true) :
    1 ≤ existingAppointmentsCount s doctorId d slot := by
  unfold existingAppointmentsCount
  apply List.length_pos_of_mem (a := a)
  simp [List.mem_filter, ha, hdoc, hd, hs, hact]

/-- C7. For a valid booking request for an active doctor at a future weekday slot, when the
collection already holds an active (scheduled or confirmed) appointment of that doctor stored
under the same slot start and time slot, `book` answers 400 "This time slot is fully booked",
sends nothing and leaves the collection unchanged. -/
theorem book_slot_full (env : Env) (req : BookRequest) (s : Store)
    (doctorId : Nat) (date : Int) (doctor : User) (a : Appointment)
    (hid : req.doctorId = some doctorId) (hdate : req.date = DateText.instant date)
    (herr : bookErrors req = [])
    (hdoc : findDoctor env.users doctorId = some doctor)
    (hfuture : ¬ bookingStart env.tz date req.timeSlot < env.now)
    (hday : weekdays.contains (dayOfWeek env.tz (bookingStart env.tz date req.timeSlot)) = true)
    (ha : a ∈ s) (hadoc : a.doctor = doctorId)
    (hadate : a.date = bookingStart env.tz date req.timeSlot)
    (haslot : a.timeSlot = req.timeSlot) (hact : a.status.isActive = true) :
    (book env req s).reply = failure 400 "This time slot is fully booked" ∧
    (book env req s).appointment = none ∧
    (book env req s).sent = [] ∧
    (book env req s).store = s := by
  have hc := existingAppointmentsCount_pos s doctorId _ _ a ha hadoc hadate haslot hact
  unfold book
  rw [bookWith_eq_bookChecked env req s s s doctorId date doctor hid hdate herr hdoc]
  unfold bookChecked
  simp only [if_neg hfuture, hday, Bool.not_true, Bool.false_eq_true, if_false, ge_iff_le, hc,
    if_true, and_self]

theorem book_slot_full_witness :
    bookedAppointment ∈ [bookedAppointment] ∧
    bookedAppointment.status.isActive = true ∧
    (book sampleEnv secondRequest [bookedAppointment]).reply =
      failure 400 "This time slot is fully booked" ∧
    (book sampleEnv secondRequest [bookedAppointment]).appointment = none ∧
    (book sampleEnv secondRequest [bookedAppointment]).sent = [] ∧
    (book sampleEnv secondRequest [bookedAppointment]).store = [bookedAppointment] :=
  ⟨by decide, by decide,
    book_slot_full sampleEnv secondRequest [bookedAppointment] 1 monday doctorOne
      bookedAppointment rfl rfl (by decide) (by decide) (by decide) (by decide) (by decide)
      rfl (by decide) rfl (by decide)⟩

/-- C8. For a valid booking request for an active doctor at a future weekday slot that no
active appointment of the doctor occupies, when the requesting patient already has an active
appointment (with any doctor) stored under the same slot start and time slot, `book` answers
400 "You already have an appointment at this time", sends nothing and leaves the collection
unchanged. -/
theorem book_patient_conflict (env : Env) (req : BookRequest) (s : Store)
    (doctorId : Nat) (date : Int) (doctor : User) (a : Appointment)
    (hid : req.doctorId = some doctorId) (hdate : req.date = DateText.instant date)
    (herr : bookErrors req = [])
    (hdoc : findDoctor env.users doctorId = some doctor)
    (hfuture : ¬ bookingStart env.tz date req.timeSlot < env.now)
    (hday : weekdays.contains (dayOfWeek env.tz (bookingStart env.tz date req.timeSlot)) = true)
    (hfree : existingAppointmentsCount s doctorId (bookingStart env.tz date req.timeSlot)
      req.timeSlot = 0)
    (ha : a ∈ s) (hapat : a.patient = req.user)
    (hadate : a.date = bookingStart env.tz date req.timeSlot)
    (haslot : a.timeSlot = req.timeSlot) (hact : a.status.isActive = true) :
    (book env req s).reply = failure 400 "You already have an appointment at this time" ∧
    (book env req s).appointment = none ∧
    (book env req s).sent = [] ∧
    (book env req s).store = s := by
  have hc : (conflictingAppointment s req.user (bookingStart env.tz date req.timeSlot)
      req.timeSlot).isSome = true := by
    unfold conflictingAppointment
    rw [List.find?_isSome]
    exact ⟨a, ha, by simp [hapat, hadate, haslot, hact]⟩
  unfold book
  rw [bookWith_eq_bookChecked env req s s s doctorId date doctor hid hdate herr hdoc]
  unfold bookChecked
  simp only [if_neg hfuture, hday, Bool.not_true, Bool.false_eq_true, if_false, ge_iff_le,
    hfree, hc, if_true, and_self]
  simp

theorem book_patient_conflict_witness :
    existingAppointmentsCount [bookedAppointment] 4
      (bookingStart sampleEnv.tz monday otherDoctorRequest.timeSlot)
      otherDoctorRequest.timeSlot = 0 ∧
    bookedAppointment.patient = otherDoctorRequest.user ∧
    (book sampleEnv otherDoctorRequest [bookedAppointment]).reply =
      failure 400 "You already have an appointment at this time" ∧
    (book sampleEnv otherDoctorRequest [bookedAppointment]).appointment = none ∧
    (book sampleEnv otherDoctorRequest [bookedAppointment]).sent = [] ∧
    (book sampleEnv otherDoctorRequest [bookedAppointment]).store = [bookedAppointment] :=
  ⟨by decide, by decide,
    book_patient_conflict sampleEnv otherDoctorRequest [bookedAppointment] 4 monday doctorFour
      bookedAppointment rfl rfl (by decide) (by decide) (by decide) (by decide) (by decide)
      (by decide) rfl (by decide) rfl (by decide)⟩

/-- C10. Whenever the book handler, its own checks passed on the collections it read, has its
`save()` rejected by the unique index (error code 11000) on the collection at the time of
writing, it answers 400 with the message "This time slot was just booked by another patient.
Please choose a different time.", never the 500 "Error booking appointment", and stores
nothing. -/
theorem book_race_translation (env : Env) (req : BookRequest) (sCount sFind s : Store)
    (doctorId : Nat) (date : Int) (doctor : User) (e : SaveError)
    (hid : req.doctorId = some doctorId) (hdate : req.date = DateText.instant date)
    (herr : bookErrors req = [])
    (hdoc : findDoctor env.users doctorId = some doctor)
    (hfuture : ¬ bookingStart env.tz date req.timeSlot < env.now)
    (hday : weekdays.contains (dayOfWeek env.tz (bookingStart env.tz date req.timeSlot)) = true)
    (hfree : existingAppointmentsCount sCount doctorId
      (bookingStart env.tz date req.timeSlot) req.timeSlot = 0)
    (hnone : conflictingAppointment sFind req.user (bookingStart env.tz date req.timeSlot)
      req.timeSlot = none)
    (hsave : insertDoc env.tz env.validateNow s
      (newAppointment (freshId s) req.user doctorId (bookingStart env.tz date req.timeSlot)
        req.timeSlot req.reason) = .error e)
    (hcode : e.code = some 11000) :
    (bookWith env req sCount sFind s).reply = failure 400 raceMessage ∧
    (bookWith env req sCount sFind s).reply ≠ failure 500 "Error booking appointment" ∧
    (bookWith env req sCount sFind s).reply.message ≠ some "Error booking appointment" ∧
    (bookWith env req sCount sFind s).store = s := by
  have h : bookWith env req sCount sFind s = ⟨failure 400 raceMessage, none, none, [], s⟩ := by
    rw [bookWith_eq_bookChecked env req sCount sFind s doctorId date doctor hid hdate herr hdoc]
    unfold bookChecked
    simp only [if_neg hfuture, hday, Bool.not_true, Bool.false_eq_true, if_false, ge_iff_le,
      hfree, hnone, Option.isSome_none, hsave, hcode, if_true]
    simp
  rw [h]
  refine ⟨rfl, ?_, ?_, rfl⟩
  · show failure 400 raceMessage ≠ failure 500 "Error booking appointment"
    decide
  · show (failure 400 raceMessage).message ≠ some "Error booking appointment"
    decide

theorem book_race_translation_witness :
    existingAppointmentsCount [] 1 (bookingStart sampleEnv.tz monday secondRequest.timeSlot)
      secondRequest.timeSlot = 0 ∧
    insertDoc sampleEnv.tz sampleEnv.validateNow [bookedAppointment]
      (newAppointment (freshId [bookedAppointment]) secondRequest.user 1
        (bookingStart sampleEnv.tz monday secondRequest.timeSlot) secondRequest.timeSlot
        secondRequest.reason) = .error SaveError.duplicateKey ∧
    (bookWith sampleEnv secondRequest [] [] [bookedAppointment]).reply =
      failure 400 raceMessage ∧
    (bookWith sampleEnv secondRequest [] [] [bookedAppointment]).reply ≠
      failure 500 "Error booking appointment" ∧
    (bookWith sampleEnv secondRequest [] [] [bookedAppointment]).reply.message ≠
      some "Error booking appointment" ∧
    (bookWith sampleEnv secondRequest [] [] [bookedAppointment]).store = [bookedAppointment] :=
  ⟨by decide, rfl,
    book_race_translation sampleEnv secondRequest [] [] [bookedAppointment] 1 monday doctorOne
      SaveError.duplicateKey rfl rfl (by decide) (by decide) (by decide) (by decide) (by decide)
      (by decide) rfl rfl⟩

theorem foldr_max_ge (l : List Nat) (x : Nat) (hx : x ∈ l) : x ≤ l.foldr max 0 := by
  induction l with
  | nil => cases hx
  | cons y ys ih =>
    rw [List.foldr_cons]
    rcases List.mem_cons.mp hx with h | h
    · subst h; exact le_max_left _ _
    · exact le_trans (ih h) (le_max_right _ _)

theorem id_lt_freshId (s : Store) (b : Appointment) (hb : b ∈ s) : b.id < freshId s := by
  unfold freshId
  exact Nat.lt_succ_of_le (foldr_max_ge _ _ (List.mem_map_of_mem _ hb))

theorem setHours_setHours (tz t : Int) (h m : Nat)
    (hin : h * 3600000 + m * 60000 < 86400000) :
    setHours tz (setHours tz t h m) h m = setHours tz t h m := by
  unfold setHours toLocal msPerDay
  simp only
  omega

theorem enum_slot_in_day :
    ∀ slot ∈ timeSlotEnum,
      (slotStart slot).1 * 3600000 + (slotStart slot).2 * 60000 < 86400000 := by
  decide

theorem appointmentDateTime_new (tz date : Int) (id patientId doctorId : Nat)
    (timeSlot reason : String) (hslot : timeSlot ∈ timeSlotEnum) :
    appointmentDateTime tz
        (newAppointment id patientId doctorId (bookingStart tz date timeSlot) timeSlot reason) =
      bookingStart tz date timeSlot := by
  unfold appointmentDateTime bookingStart newAppointment
  exact setHours_setHours tz date _ _ (enum_slot_in_day timeSlot hslot)

theorem utf16Length_empty : utf16Length "" = 0 := by decide

theorem schemaValid_new (id patientId doctorId : Nat) (d : Int) (timeSlot reason : String)
    (hslot : timeSlot ∈ timeSlotEnum) (hne : reason ≠ "") (hlen : utf16Length reason ≤ 500) :
    schemaValid (newAppointment id patientId doctorId d timeSlot reason) = true := by
  unfold schemaValid newAppointment
  simp [hslot, hne, hlen, utf16Length_empty]

theorem reason_ne_empty (req : BookRequest) (herr : bookErrors req = []) : req.reason ≠ "" := by
  intro h
  have hz : validatorLength "" = 0 := by decide
  unfold bookErrors at herr
  rw [h] at herr
  simp [hz] at herr

theorem updateDoc_mark (s1 : Store) (a : Appointment) (hv : schemaValid a = true) :
    updateDoc s1 a { a with emailSent := true } =
      .ok (s1.map fun b => if b.id = a.id then { a with emailSent := true } else b) := by
  have hv2 : schemaValid { a with emailSent := true } = true := hv
  have hk : sameKey a { a with emailSent := true } = true := by simp [sameKey]
  unfold updateDoc
  simp [hv2, hk]

theorem afterBooked_store (env : Env) (doctorId : Nat) (a : Appointment) (s1 : Store)
    (hv : schemaValid a = true) :
    (afterBooked env doctorId a s1).store = s1 ∨
    (afterBooked env doctorId a s1).store =
      s1.map fun b => if b.id = a.id then { a with emailSent := true } else b := by
  unfold afterBooked
  simp only
  split
  · exact Or.inl rfl
  · split
    · rw [updateDoc_mark s1 a hv]
      exact Or.inr rfl
    · exact Or.inl rfl
    · exact Or.inl rfl

theorem map_mark_append (s : Store) (a m : Appointment) (hfresh : ∀ b ∈ s, b.id ≠ a.id) :
    (s ++ [a]).map (fun b => if b.id = a.id then m else b) = s ++ [m] := by
  rw [List.map_append]
  congr 1
  · conv_rhs => rw [← List.map_id s]
    apply List.map_congr_left
    intro b hb
    simp [hfresh b hb]
  · simp

theorem insertDoc_new (tz validateNow : Int) (s : Store) (patientId doctorId : Nat) (date : Int)
    (timeSlot reason : String)
    (hsave : ¬ bookingStart tz date timeSlot < validateNow)
    (hslot : timeSlot ∈ timeSlotEnum) (hne : reason ≠ "") (hlen : utf16Length reason ≤ 500)
    (hkey : ∀ b ∈ s, ¬ (b.doctor = doctorId ∧ b.date = bookingStart tz date timeSlot ∧
      b.timeSlot = timeSlot)) :
    insertDoc tz validateNow s
        (newAppointment (freshId s) patientId doctorId (bookingStart tz date timeSlot) timeSlot
          reason) =
      .ok (s ++ [newAppointment (freshId s) patientId doctorId (bookingStart tz date timeSlot)
        timeSlot reason]) := by
  have hany : s.any (fun b => sameKey b
      (newAppointment (freshId s) patientId doctorId (bookingStart tz date timeSlot) timeSlot
        reason)) = false := by
    rw [List.any_eq_false]
    intro b hb
    have := hkey b hb
    simpa [sameKey, newAppointment, and_assoc] using this
  unfold insertDoc preValidate
  rw [appointmentDateTime_new tz date _ _ _ _ _ hslot,
    schemaValid_new _ _ _ _ _ _ hslot hne hlen, hany]
  simp [hsave]

/-- C9, as amended. For a validated booking request for an active doctor whose time slot is a
catalog slot and whose reason has at most 500 UTF-16 code units, whose slot start is before
neither the request time nor the time of saving, on a weekday, when no stored appointment of
any status has the same doctor, slot start and time slot and the patient has no active
appointment at that slot start and time slot: exactly one appointment is appended to the
collection, with status `scheduled` and with patient, doctor, time slot and reason equal to
the request's (its date is the slot start), and the stored appointments are unchanged. -/
theorem book_success (env : Env) (req : BookRequest) (s : Store)
    (doctorId : Nat) (date : Int) (doctor : User)
    (hid : req.doctorId = some doctorId) (hdate : req.date = DateText.instant date)
    (herr : bookErrors req = [])
    (hdoc : findDoctor env.users doctorId = some doctor)
    (hfuture : ¬ bookingStart env.tz date req.timeSlot < env.now)
    (hsave : ¬ bookingStart env.tz date req.timeSlot < env.validateNow)
    (hday : weekdays.contains (dayOfWeek env.tz (bookingStart env.tz date req.timeSlot)) = true)
    (hslot : req.timeSlot ∈ timeSlotEnum) (hlen : utf16Length req.reason ≤ 500)
    (hkey : ∀ b ∈ s, ¬ (b.doctor = doctorId ∧
      b.date = bookingStart env.tz date req.timeSlot ∧ b.timeSlot = req.timeSlot))
    (hpatient : ∀ b ∈ s, ¬ (b.patient = req.user ∧
      b.date = bookingStart env.tz date req.timeSlot ∧ b.timeSlot = req.timeSlot ∧
      b.status.isActive = true)) :
    ∃ a : Appointment, (book env req s).store = s ++ [a] ∧
      a.status = Status.scheduled ∧ a.patient = req.user ∧ a.doctor = doctorId ∧
      a.timeSlot = req.timeSlot ∧ a.reason = req.reason ∧
      a.date = bookingStart env.tz date req.timeSlot ∧ ∀ b ∈ s, b.id ≠ a.id := by
  have hfree : existingAppointmentsCount s doctorId (bookingStart env.tz date req.timeSlot)
      req.timeSlot = 0 := by
    unfold existingAppointmentsCount
    rw [List.length_eq_zero, List.filter_eq_nil_iff]
    intro b hb hb2
    apply hkey b hb
    simp only [Bool.and_eq_true, beq_iff_eq] at hb2
    exact ⟨hb2.1.1.1, hb2.1.1.2, hb2.1.2⟩
  have hnone : conflictingAppointment s req.user (bookingStart env.tz date req.timeSlot)
      req.timeSlot = none := by
    unfold conflictingAppointment
    rw [List.find?_eq_none]
    intro b hb hb2
    apply hpatient b hb
    simp only [Bool.and_eq_true, beq_iff_eq] at hb2
    exact ⟨hb2.1.1.1, hb2.1.1.2, hb2.1.2, hb2.2⟩
  have hne := reason_ne_empty req herr
  have hfresh : ∀ b ∈ s, b.id ≠ freshId s := fun b hb => Nat.ne_of_lt (id_lt_freshId s b hb)
  have hv := schemaValid_new (freshId s) req.user doctorId
    (bookingStart env.tz date req.timeSlot) req.timeSlot req.reason hslot hne hlen
  have hbook : (book env req s).store =
      (afterBooked env doctorId
        (newAppointment (freshId s) req.user doctorId (bookingStart env.tz date req.timeSlot)
          req.timeSlot req.reason)
        (s ++ [newAppointment (freshId s) req.user doctorId
          (bookingStart env.tz date req.timeSlot) req.timeSlot req.reason])).store := by
    unfold book
    rw [bookWith_eq_bookChecked env req s s s doctorId date doctor hid hdate herr hdoc]
    unfold bookChecked
    simp only [if_neg hfuture, hday, Bool.not_true, Bool.false_eq_true, if_false, ge_iff_le,
      hfree, hnone, Option.isSome_none,
      insertDoc_new env.tz env.validateNow s req.user doctorId date req.timeSlot req.reason
        hsave hslot hne hlen hkey]
    simp
  rw [hbook]
  rcases afterBooked_store env doctorId _ _ hv with h | h
  · exact ⟨_, h, rfl, rfl, rfl, rfl, rfl, rfl, hfresh⟩
  · rw [map_mark_append s _ _ hfresh] at h
    exact ⟨_, h, rfl, rfl, rfl, rfl, rfl, rfl, hfresh⟩

theorem book_success_witness :
    (∀ b ∈ [bookedAppointment], ¬ (b.doctor = 1 ∧
      b.date = bookingStart sampleEnv.tz monday nextSlotRequest.timeSlot ∧
      b.timeSlot = nextSlotRequest.timeSlot)) ∧
    ∃ a : Appointment, (book sampleEnv nextSlotRequest [bookedAppointment]).store =
        [bookedAppointment] ++ [a] ∧
      a.status = Status.scheduled ∧ a.patient = nextSlotRequest.user ∧ a.doctor = 1 ∧
      a.timeSlot = nextSlotRequest.timeSlot ∧ a.reason = nextSlotRequest.reason ∧
      a.date = bookingStart sampleEnv.tz monday nextSlotRequest.timeSlot ∧
      ∀ b ∈ [bookedAppointment], b.id ≠ a.id :=
  ⟨by decide,
    book_success sampleEnv nextSlotRequest [bookedAppointment] 1 monday doctorOne rfl rfl
      (by decide) (by decide) (by decide) (by decide) (by decide) (by decide) (by decide)
      (by decide) (by decide)⟩

/-- C9 as stated fails: a request for "08:00-08:15" passes the validators and every check of
the handler (active doctor, future start, weekday, free doctor slot, free patient slot), yet
the answer is 500 "Error booking appointment" and nothing is stored. -/
theorem book_success_counterexample :
    bookErrors offCatalogRequest = [] ∧
    findDoctor sampleEnv.users 1 = some doctorOne ∧
    ¬ bookingStart sampleEnv.tz monday offCatalogRequest.timeSlot < sampleEnv.now ∧
    weekdays.contains
      (dayOfWeek sampleEnv.tz (bookingStart sampleEnv.tz monday offCatalogRequest.timeSlot)) =
        true ∧
    existingAppointmentsCount [] 1
      (bookingStart sampleEnv.tz monday offCatalogRequest.timeSlot)
      offCatalogRequest.timeSlot = 0 ∧
    conflictingAppointment [] 2 (bookingStart sampleEnv.tz monday offCatalogRequest.timeSlot)
      offCatalogRequest.timeSlot = none ∧
    (book sampleEnv offCatalogRequest []).reply = failure 500 "Error booking appointment" ∧
    (book sampleEnv offCatalogRequest []).store = [] := by
  decide

/-! ## The past-slot check -/

theorem doctor_message_ne (x : String) (rest : String) :
    "Dr. " ++ x ++ rest ≠ "Cannot book appointments in the past" := by
  intro h
  have h2 := congrArg String.data h
  simp only [String.data_append] at h2
  have h3 := congrArg List.head? h2
  simp at h3

theorem afterBooked_status (env : Env) (doctorId : Nat) (a : Appointment) (s1 : Store) :
    (afterBooked env doctorId a s1).reply.status ≠ 400 := by
  unfold afterBooked
  simp only
  split
  · simp [failure]
  · split
    · split <;> simp
    · simp
    · simp

theorem bookChecked_not_past (env : Env) (req : BookRequest) (doctorId : Nat) (date : Int)
    (doctor : User) (sCount sFind s : Store)
    (hfuture : ¬ bookingStart env.tz date req.timeSlot < env.now) :
    (bookChecked env req doctorId date doctor sCount sFind s).reply ≠
      failure 400 "Cannot book appointments in the past" := by
  unfold bookChecked
  simp only [if_neg hfuture]
  split
  · intro h
    have h2 := congrArg Reply.message h
    simp only [failure, Option.some.injEq] at h2
    exact doctor_message_ne _ _ (by simpa [String.append_assoc] using h2)
  · split
    · simp [failure]
    · split
      · simp [failure]
      · split
        · intro h
          exact afterBooked_status _ _ _ _ (by rw [h]; rfl)
        · split
          · simp [failure, raceMessage]
          · simp [failure]

/-- The past check of `book` in terms of the value the handler computes for the slot start. -/
theorem book_past_of_bookingStart (env : Env) (req : BookRequest) (s : Store)
    (doctorId : Nat) (date : Int) (doctor : User)
    (hid : req.doctorId = some doctorId) (hdate : req.date = DateText.instant date)
    (herr : bookErrors req = [])
    (hdoc : findDoctor env.users doctorId = some doctor) :
    ((book env req s).reply = failure 400 "Cannot book appointments in the past" ↔
      bookingStart env.tz date req.timeSlot < env.now) ∧
    (bookingStart env.tz date req.timeSlot < env.now →
      (book env req s).appointment = none ∧ (book env req s).store = s) ∧
    (bookingStart env.tz date req.timeSlot = env.now →
      (book env req s).reply ≠ failure 400 "Cannot book appointments in the past") := by
  have hb : book env req s = bookChecked env req doctorId date doctor s s s := by
    unfold book
    exact bookWith_eq_bookChecked env req s s s doctorId date doctor hid hdate herr hdoc
  have hpast : bookingStart env.tz date req.timeSlot < env.now →
      bookChecked env req doctorId date doctor s s s =
        ⟨failure 400 "Cannot book appointments in the past", none, none, [], s⟩ := by
    intro h
    unfold bookChecked
    simp only [if_pos h]
  rw [hb]
  refine ⟨⟨?_, ?_⟩, ?_, ?_⟩
  · intro h
    by_contra hn
    exact bookChecked_not_past env req doctorId date doctor s s s hn h
  · intro h
    rw [hpast h]
  · intro h
    rw [hpast h]
    exact ⟨rfl, rfl⟩
  · intro h
    exact bookChecked_not_past env req doctorId date doctor s s s (by omega)

/-- On a server at or east of UTC the handler computes the slot start of a calendar date as
the specification describes it. -/
theorem bookingStart_calendar (tz date : Int) (timeSlot : String)
    (hcal : date % msPerDay = 0) (hz0 : 0 ≤ tz) (hz1 : tz < 1440) :
    bookingStart tz date timeSlot = specSlotStart tz date timeSlot := by
  unfold bookingStart specSlotStart setHours toLocal
  unfold msPerDay at *
  simp only
  omega

/-- On a server west of UTC the handler computes the slot start of a calendar date one day
early. -/
theorem bookingStart_west (tz date : Int) (timeSlot : String)
    (hcal : date % msPerDay = 0) (hz0 : -1440 < tz) (hz1 : tz < 0) :
    bookingStart tz date timeSlot = specSlotStart tz date timeSlot - msPerDay := by
  unfold bookingStart specSlotStart setHours toLocal
  unfold msPerDay at *
  simp only
  omega

/-- On a server at or east of UTC the server-local weekday of the UTC midnight of a calendar
date is the weekday of that date. -/
theorem dayOfWeek_calendar (tz date : Int)
    (hcal : date % msPerDay = 0) (hz0 : 0 ≤ tz) (hz1 : tz < 1440) :
    dayOfWeek tz date = dayOfWeek 0 date := by
  have hq : toLocal tz date / msPerDay = toLocal 0 date / msPerDay := by
    unfold toLocal
    unfold msPerDay at *
    omega
  unfold dayOfWeek getDay
  rw [hq]

/-- C6, as amended. For a validated booking request naming an existing active doctor and a
calendar date, on a server less than a day away from UTC: when the slot start (the date
combined with the start time of the slot, on the server's clock) is strictly before the
request time `now`, `book` answers 400 "Cannot book appointments in the past" and stores
nothing; on a server at or east of UTC that answer is
given exactly when the slot start is strictly before `now`, and a slot start equal to `now`
is not rejected as past. -/
theorem book_past_rejection (env : Env) (req : BookRequest) (s : Store)
    (doctorId : Nat) (date : Int) (doctor : User)
    (hid : req.doctorId = some doctorId) (hdate : req.date = DateText.instant date)
    (herr : bookErrors req = [])
    (hdoc : findDoctor env.users doctorId = some doctor)
    (hcal : date % msPerDay = 0) (hz0 : -1440 < env.tz) (hz1 : env.tz < 1440) :
    (specSlotStart env.tz date req.timeSlot < env.now →
      (book env req s).reply = failure 400 "Cannot book appointments in the past" ∧
      (book env req s).appointment = none ∧ (book env req s).store = s) ∧
    (0 ≤ env.tz →
      ((book env req s).reply = failure 400 "Cannot book appointments in the past" ↔
        specSlotStart env.tz date req.timeSlot < env.now) ∧
      (specSlotStart env.tz date req.timeSlot = env.now →
        (book env req s).reply ≠ failure 400 "Cannot book appointments in the past")) := by
  have hold := book_past_of_bookingStart env req s doctorId date doctor hid hdate herr hdoc
  refine ⟨?_, ?_⟩
  · intro hlt
    have hb : bookingStart env.tz date req.timeSlot < env.now := by
      by_cases h0 : 0 ≤ env.tz
      · rw [bookingStart_calendar _ _ _ hcal h0 hz1]
        exact hlt
      · rw [bookingStart_west _ _ _ hcal hz0 (by omega)]
        unfold msPerDay
        omega
    exact ⟨hold.1.mpr hb, hold.2.1 hb⟩
  · intro h0
    rw [← bookingStart_calendar _ _ _ hcal h0 hz1]
    exact ⟨hold.1, hold.2.2⟩

theorem book_past_rejection_witness :
    specSlotStart eastLateEnv.tz monday sampleRequest.timeSlot < eastLateEnv.now ∧
    (book eastLateEnv sampleRequest [bookedAppointment]).reply =
      failure 400 "Cannot book appointments in the past" ∧
    (book eastLateEnv sampleRequest [bookedAppointment]).store = [bookedAppointment] ∧
    specSlotStart boundaryEnv.tz monday sampleRequest.timeSlot = boundaryEnv.now ∧
    (book boundaryEnv sampleRequest []).reply ≠
      failure 400 "Cannot book appointments in the past" :=
  ⟨by decide,
    ((book_past_rejection eastLateEnv sampleRequest [bookedAppointment] 1 monday doctorOne rfl
      rfl (by decide) (by decide) (by decide) (by decide) (by decide)).1 (by decide)).1,
    ((book_past_rejection eastLateEnv sampleRequest [bookedAppointment] 1 monday doctorOne rfl
      rfl (by decide) (by decide) (by decide) (by decide) (by decide)).1 (by decide)).2.2,
    by decide,
    ((book_past_rejection boundaryEnv sampleRequest [] 1 monday doctorOne rfl
      rfl (by decide) (by decide) (by decide) (by decide) (by decide)).2 (by decide)).2
      (by decide)⟩

/-- C6 as stated fails at the boundary: a request whose slot start equals `now` is answered
201 and its appointment is stored; when the clock has moved on by the time of `save()`, the
answer is 500 "Error booking appointment", not the 400 of a past slot. -/
theorem book_past_boundary_counterexample :
    bookingStart boundaryEnv.tz monday sampleRequest.timeSlot = boundaryEnv.now ∧
    (book boundaryEnv sampleRequest []).reply =
      ⟨201, true, some "Appointment booked successfully", []⟩ ∧
    (book boundaryEnv sampleRequest []).store = [bookedAppointment] ∧
    bookingStart boundaryLaterEnv.tz monday sampleRequest.timeSlot = boundaryLaterEnv.now ∧
    (book boundaryLaterEnv sampleRequest []).reply =
      failure 500 "Error booking appointment" := by
  decide

/-! ## Evaluations of the handlers on request sequences -/

/-- C3. On a server in UTC, after patient 2 has booked the slot "09:00-09:15" of doctor 1 for
16 June 2025 (answer 201, appointment stored as scheduled), the availability handler called
for doctor 1 and 16 June 2025 finds no appointment and still lists that slot, with all 24
slots available. -/
theorem availability_after_book :
    (book sampleEnv sampleRequest []).reply =
      ⟨201, true, some "Appointment booked successfully", []⟩ ∧
    (book sampleEnv sampleRequest []).store = [bookedAppointment] ∧
    bookedAppointment.status = Status.scheduled ∧
    existingAppointments [bookedAppointment] 1 monday = [] ∧
    "09:00-09:15" ∈ (availability sampleEnv ⟨some 1, DateText.instant monday⟩
      (book sampleEnv sampleRequest []).store).availableSlots.map (·.timeSlot) ∧
    (availability sampleEnv ⟨some 1, DateText.instant monday⟩
      (book sampleEnv sampleRequest []).store).availableSlots.map (·.timeSlot) =
      allTimeSlots := by
  decide

/-- C4. Patient 2 books the slot "09:00-09:15" of doctor 1 for 16 June 2025 and cancels it;
the same booking by patient 3 then passes the handler's own checks (no active appointment in
the slot) but its `save()` is rejected by the unique index, so the answer is 400 "This time
slot was just booked by another patient. Please choose a different time." and nothing is
stored. -/
theorem rebook_after_cancel :
    (book sampleEnv sampleRequest []).store = [bookedAppointment] ∧
    (cancel sampleEnv patientCancel [bookedAppointment]).reply =
      ⟨200, true, some "Appointment cancelled successfully", []⟩ ∧
    (cancel sampleEnv patientCancel [bookedAppointment]).store = [cancelledAppointment] ∧
    existingAppointmentsCount [cancelledAppointment] 1
      (bookingStart sampleEnv.tz monday secondRequest.timeSlot) secondRequest.timeSlot = 0 ∧
    (book sampleEnv secondRequest [cancelledAppointment]).reply = failure 400 raceMessage ∧
    (book sampleEnv secondRequest [cancelledAppointment]).appointment = none ∧
    (book sampleEnv secondRequest [cancelledAppointment]).store = [cancelledAppointment] := by
  decide

/-- C2. Requests served one after the other: patient 2 books doctor 1 at "09:00-09:15" on
16 June 2025, cancels, books doctor 4 at the same time, and doctor 1 then sets the status of
the cancelled appointment back to `scheduled`. The collection reached holds two active
appointments of patient 2 for that date and time slot. -/
theorem patient_double_booking :
    SeqReachable [{ cancelledAppointment with status := Status.scheduled },
      otherDoctorAppointment] ∧
    ([{ cancelledAppointment with status := Status.scheduled },
      otherDoctorAppointment].filter fun a =>
        a.patient == 2 && a.date == monday + 32400000 && a.timeSlot == "09:00-09:15" &&
          a.status.isActive).length = 2 := by
  refine ⟨?_, by decide⟩
  have h1 : SeqReachable [bookedAppointment] := by
    have h := SeqReachable.step SeqReachable.empty (SeqStep.book sampleEnv sampleRequest [])
    have e : (book sampleEnv sampleRequest []).store = [bookedAppointment] := by decide
    rwa [e] at h
  have h2 : SeqReachable [cancelledAppointment] := by
    have h := SeqReachable.step h1 (SeqStep.cancel sampleEnv patientCancel [bookedAppointment])
    have e : (cancel sampleEnv patientCancel [bookedAppointment]).store =
        [cancelledAppointment] := by decide
    rwa [e] at h
  have h3 : SeqReachable [cancelledAppointment, otherDoctorAppointment] := by
    have h := SeqReachable.step h2
      (SeqStep.book sampleEnv otherDoctorRequest [cancelledAppointment])
    have e : (book sampleEnv otherDoctorRequest [cancelledAppointment]).store =
        [cancelledAppointment, otherDoctorAppointment] := by decide
    rwa [e] at h
  have h := SeqReachable.step h3
    (SeqStep.update reactivate [cancelledAppointment, otherDoctorAppointment])
  have e : (update reactivate [cancelledAppointment, otherDoctorAppointment]).store =
      [{ cancelledAppointment with status := Status.scheduled }, otherDoctorAppointment] := by
    decide
  rwa [e] at h

/-! ## The unique index and the doctor invariant -/

theorem sameKey_iff (a b : Appointment) : sameKey a b = true ↔ keyOf a = keyOf b := by
  simp [sameKey, keyOf, and_assoc]

theorem indexInv_symm :
    Symmetric fun a b : Appointment => a.id ≠ b.id ∧ keyOf a ≠ keyOf b :=
  fun _ _ h => ⟨fun e => h.1 e.symm, fun e => h.2 e.symm⟩

theorem indexInv_insertDoc (tz validateNow : Int) (s t : Store) (a : Appointment)
    (hinv : IndexInv s) (hfresh : ∀ b ∈ s, b.id ≠ a.id)
    (h : insertDoc tz validateNow s a = .ok t) : IndexInv t ∧ t = s ++ [a] := by
  unfold insertDoc at h
  split at h
  · cases h
  · split at h
    · cases h
    · split at h
      · cases h
      · rename_i hany
        injection h with h
        subst h
        refine ⟨?_, rfl⟩
        unfold IndexInv
        rw [List.pairwise_append]
        refine ⟨hinv, List.pairwise_singleton _ _, ?_⟩
        intro b hb c hc
        rw [List.mem_singleton] at hc
        subst hc
        refine ⟨hfresh b hb, ?_⟩
        intro hk
        apply hany
        rw [List.any_eq_true]
        exact ⟨b, hb, (sameKey_iff b c).mpr hk⟩

theorem indexInv_updateDoc (s t : Store) (old new : Appointment)
    (hinv : IndexInv s) (hold : old ∈ s) (h : updateDoc s old new = .ok t)
    (hid : new.id = old.id) : IndexInv t := by
  unfold updateDoc at h
  split at h
  · cases h
  · split at h
    · cases h
    · rename_i hdup
      injection h with h
      subst h
      unfold IndexInv at hinv ⊢
      rw [List.pairwise_map]
      have hall := hinv.forall indexInv_symm
      have hnew : ∀ b ∈ s, b.id ≠ old.id → keyOf new ≠ keyOf b := by
        intro b hb hbid hk
        by_cases hsame : sameKey old new = true
        · have hne : old ≠ b := fun e => hbid (by rw [e])
          exact (hall hold hb hne).2 (((sameKey_iff old new).mp hsame).trans hk)
        · apply hdup
          simp only [hsame, Bool.not_false, Bool.true_and]
          rw [List.any_eq_true]
          exact ⟨b, hb, (sameKey_iff b new).mpr hk.symm⟩
      refine hinv.imp_of_mem ?_
      intro a b ha hb hab
      by_cases h1 : a.id = old.id
      · have h2 : ¬ b.id = old.id := fun e => hab.1 (h1.trans e.symm)
        simp only [h1, h2, if_true, if_false]
        exact ⟨fun e => h2 (e.symm.trans hid), hnew b hb h2⟩
      · by_cases h2 : b.id = old.id
        · simp only [h1, h2, if_true, if_false]
          exact ⟨fun e => h1 (e.trans hid), fun e => hnew a ha h1 e.symm⟩
        · simp only [h1, h2, if_false]
          exact hab

theorem indexInv_afterBooked (env : Env) (doctorId : Nat) (a : Appointment) (s1 : Store)
    (hinv : IndexInv s1) (ha : a ∈ s1) : IndexInv (afterBooked env doctorId a s1).store := by
  unfold afterBooked
  simp only
  split
  · exact hinv
  · split
    · split
      · rename_i s2 hs2
        exact indexInv_updateDoc s1 s2 a _ hinv ha hs2 rfl
      · exact hinv
    · exact hinv
    · exact hinv

theorem indexInv_bookChecked (env : Env) (req : BookRequest) (doctorId : Nat) (date : Int)
    (doctor : User) (sCount sFind s : Store) (hinv : IndexInv s) :
    IndexInv (bookChecked env req doctorId date doctor sCount sFind s).store := by
  unfold bookChecked
  simp only
  split
  · exact hinv
  · split
    · exact hinv
    · split
      · exact hinv
      · split
        · exact hinv
        · split
          · rename_i s1 hs1
            have hfresh : ∀ b ∈ s, b.id ≠ (newAppointment (freshId s) req.user doctorId
                (bookingStart env.tz date req.timeSlot) req.timeSlot req.reason).id :=
              fun b hb => Nat.ne_of_lt (id_lt_freshId s b hb)
            obtain ⟨h1, h2⟩ := indexInv_insertDoc _ _ s s1 _ hinv hfresh hs1
            apply indexInv_afterBooked env doctorId _ s1 h1
            rw [h2]
            simp
          · split
            · exact hinv
            · exact hinv

theorem indexInv_bookWith (env : Env) (req : BookRequest) (sCount sFind s : Store)
    (hinv : IndexInv s) : IndexInv (bookWith env req sCount sFind s).store := by
  unfold bookWith
  split
  · split
    · exact hinv
    · split
      · exact hinv
      · exact hinv
  · split
    · exact hinv
    · split
      · exact hinv
      · exact indexInv_bookChecked env req _ _ _ sCount sFind s hinv
  · exact hinv

theorem indexInv_cancel (env : Env) (req : CancelRequest) (s : Store) (hinv : IndexInv s) :
    IndexInv (cancel env req s).store := by
  unfold cancel
  split
  · exact hinv
  · split
    · exact hinv
    · split
      · exact hinv
      · rename_i appointment hfind
        simp only
        split
        · exact hinv
        · exact hinv
        · split
          · exact hinv
          · split
            · exact hinv
            · split
              · exact hinv
              · rename_i s1 hs1
                have h1 := indexInv_updateDoc s s1 appointment _ hinv
                  (List.mem_of_find?_eq_some hfind) hs1 rfl
                split
                · exact h1
                · exact h1

theorem indexInv_update (req : UpdateRequest) (s : Store) (hinv : IndexInv s) :
    IndexInv (update req s).store := by
  unfold update
  split
  · exact hinv
  · split
    · exact hinv
    · split
      · exact hinv
      · rename_i appointment hfind
        split
        · exact hinv
        · rename_i s1 hs1
          exact indexInv_updateDoc s s1 appointment _ hinv
            (List.mem_of_find?_eq_some hfind) hs1 rfl

theorem indexInv_of_reachable (s : Store) (h : Reachable s) : IndexInv s := by
  induction h with
  | empty => exact List.Pairwise.nil
  | step _ hstep ih =>
    cases hstep with
    | book env req sCount sFind => exact indexInv_bookWith env req sCount sFind _ ih
    | cancel env req => exact indexInv_cancel env req _ ih
    | update req => exact indexInv_update req _ ih

theorem count_le_one_of_indexInv (s : Store) (hinv : IndexInv s) (doctor : Nat) (date : Int)
    (timeSlot : String) : existingAppointmentsCount s doctor date timeSlot ≤ 1 := by
  unfold existingAppointmentsCount
  have hsub := List.filter_sublist (l := s) (p := fun a => a.doctor == doctor &&
    a.date == date && a.timeSlot == timeSlot && a.status.isActive)
  have hp := List.Pairwise.sublist hsub hinv
  match hl : s.filter (fun a => a.doctor == doctor && a.date == date &&
      a.timeSlot == timeSlot && a.status.isActive) with
  | [] => rw [hl]; simp
  | [_] => rw [hl]; simp
  | x :: y :: rest =>
    exfalso
    rw [hl] at hp
    have hx : x ∈ s.filter (fun a => a.doctor == doctor && a.date == date &&
        a.timeSlot == timeSlot && a.status.isActive) := by rw [hl]; simp
    have hy : y ∈ s.filter (fun a => a.doctor == doctor && a.date == date &&
        a.timeSlot == timeSlot && a.status.isActive) := by rw [hl]; simp
    have hxy := (List.pairwise_cons.mp hp).1 y (by simp)
    rw [List.mem_filter] at hx hy
    simp only [Bool.and_eq_true, beq_iff_eq] at hx hy
    apply hxy.2
    simp [keyOf, hx.2.1.1.1, hx.2.1.1.2, hx.2.1.2, hy.2.1.1.1, hy.2.1.1.2, hy.2.1.2]

/-- C1. In every collection reachable from the empty one by book, cancel and clinical-update
requests, where the store enforces the unique index on `(doctor, date, timeSlot)` and a
booking may have read the collection before other requests were served, every triple
`(doctor, date, timeSlot)` of stored values has at most one appointment whose status is
`scheduled` or `confirmed`. -/
theorem doctor_no_double_booking (s : Store) (h : Reachable s) (doctor : Nat) (date : Int)
    (timeSlot : String) :
    (s.filter fun a => a.doctor == doctor && a.date == date && a.timeSlot == timeSlot &&
      (a.status == Status.scheduled || a.status == Status.confirmed)).length ≤ 1 := by
  have hc := count_le_one_of_indexInv s (indexInv_of_reachable s h) doctor date timeSlot
  unfold existingAppointmentsCount at hc
  have hf : (fun a : Appointment => a.doctor == doctor && a.date == date &&
      a.timeSlot == timeSlot && (a.status == Status.scheduled || a.status == Status.confirmed))
      = fun a => a.doctor == doctor && a.date == date && a.timeSlot == timeSlot &&
        a.status.isActive := by
    funext a
    cases a.status <;> rfl
  rw [hf]
  exact hc

theorem doctor_no_double_booking_witness :
    Reachable (bookWith sampleEnv secondRequest [] []
      (bookWith sampleEnv sampleRequest [] [] []).store).store ∧
    ((bookWith sampleEnv secondRequest [] []
      (bookWith sampleEnv sampleRequest [] [] []).store).store.filter fun a =>
        a.doctor == 1 && a.date == monday + 32400000 && a.timeSlot == "09:00-09:15" &&
          (a.status == Status.scheduled || a.status == Status.confirmed)).length ≤ 1 :=
  ⟨Reachable.step (Reachable.step Reachable.empty (Step.book sampleEnv sampleRequest [] [] []))
      (Step.book sampleEnv secondRequest [] [] _),
    doctor_no_double_booking _
      (Reachable.step
        (Reachable.step Reachable.empty (Step.book sampleEnv sampleRequest [] [] []))
        (Step.book sampleEnv secondRequest [] [] _))
      1 (monday + 32400000) "09:00-09:15"⟩

/-! ## Availability: weekends and past dates -/

theorem weekend_not_weekday (d : String) (h : d = "saturday" ∨ d = "sunday") :
    weekdays.contains d = false := by
  rcases h with h | h <;> subst h <;> decide

/-- C12. On a server seven hours west of UTC, the availability handler asked on 10 June
2025 about the existing active doctor 1 and Saturday 21 June 2025 takes the weekday on its own
clock, where the UTC midnight of that date is still Friday: it answers 200 without a message
and returns all 24 slots, where a Saturday is to be answered with an empty list and the
message that the doctor is not available. -/
theorem availability_weekend_west :
    nextSaturday = utcDate 2025 6 21 ∧
    dayOfWeek 0 nextSaturday = "saturday" ∧
    westEnv.tz = -420 ∧
    findDoctor westEnv.users 1 = some doctorOne ∧
    ¬ nextSaturday < setHours westEnv.tz westEnv.now 0 0 ∧
    dayOfWeek westEnv.tz nextSaturday = "friday" ∧
    (availability westEnv ⟨some 1, DateText.instant nextSaturday⟩ []).reply =
      ⟨200, true, none, []⟩ ∧
    (availability westEnv ⟨some 1, DateText.instant nextSaturday⟩ []).availableSlots.map
      (·.timeSlot) = allTimeSlots ∧
    (availability westEnv ⟨some 1, DateText.instant nextSaturday⟩ []).availableSlots.length =
      24 := by
  decide

/-- C14. On a server seven hours west of UTC whose clock shows noon of Monday 16 June 2025,
the availability handler asked about the existing active doctor 1 and 16 June 2025, the
current day, compares the UTC midnight of that date with the local midnight of the server and
answers 400 "Cannot check availability for past dates". A date text that passes the ISO 8601
validator and parses to Invalid Date is answered 200 "Dr. Asha Rao is not available on
invalid dates", on any day. -/
theorem availability_today_west :
    westNoonEnv.tz = -420 ∧
    westNoonEnv.now = monday + 68400000 ∧
    monday = utcDate 2025 6 16 ∧
    localDay westNoonEnv.tz westNoonEnv.now = localDay 0 monday ∧
    localDay 0 westNoonEnv.now = localDay 0 monday ∧
    findDoctor westNoonEnv.users 1 = some doctorOne ∧
    (availability westNoonEnv ⟨some 1, DateText.instant monday⟩ []).reply =
      failure 400 "Cannot check availability for past dates" ∧
    availabilityErrors ⟨some 1, DateText.invalidDate⟩ = [] ∧
    (availability sampleEnv ⟨some 1, DateText.invalidDate⟩ []).reply =
      ⟨200, true, some "Dr. Asha Rao is not available on invalid dates", []⟩ := by
  decide

/-! ## Booking: weekends -/

theorem dayOfWeek_setHours (tz t : Int) (h m : Nat)
    (hin : h * 3600000 + m * 60000 < 86400000) :
    dayOfWeek tz (setHours tz t h m) = dayOfWeek tz t := by
  have hq : toLocal tz (setHours tz t h m) / msPerDay = toLocal tz t / msPerDay := by
    unfold setHours toLocal msPerDay
    simp only
    omega
  unfold dayOfWeek getDay
  rw [hq]

/-- The weekday check of `book` in terms of the weekday the handler computes. -/
theorem book_weekend_local (env : Env) (req : BookRequest) (s : Store)
    (doctorId : Nat) (date : Int) (doctor : User)
    (hid : req.doctorId = some doctorId) (hdate : req.date = DateText.instant date)
    (herr : bookErrors req = [])
    (hdoc : findDoctor env.users doctorId = some doctor)
    (hfuture : ¬ bookingStart env.tz date req.timeSlot < env.now)
    (hin : (slotStart req.timeSlot).1 * 3600000 + (slotStart req.timeSlot).2 * 60000 <
      86400000)
    (hday : dayOfWeek env.tz date = "saturday" ∨ dayOfWeek env.tz date = "sunday") :
    (book env req s).reply =
      failure 400 ("Dr. " ++ doctor.fullName ++ " is not available on " ++
        dayOfWeek env.tz date ++ "s") ∧
    (book env req s).appointment = none ∧
    (book env req s).store = s := by
  have hd : dayOfWeek env.tz (bookingStart env.tz date req.timeSlot) = dayOfWeek env.tz date :=
    dayOfWeek_setHours env.tz date _ _ hin
  have h2 : weekdays.contains (dayOfWeek env.tz (bookingStart env.tz date req.timeSlot)) =
      false := by
    rw [hd]
    exact weekend_not_weekday _ hday
  unfold book
  rw [bookWith_eq_bookChecked env req s s s doctorId date doctor hid hdate herr hdoc]
  unfold bookChecked
  simp only [if_neg hfuture, h2, Bool.not_false, if_true]
  rw [hd]
  simp

/-- C13, as amended. On a server at or east of UTC, for a validated booking request for an
existing active doctor whose date is a calendar date falling on a Saturday or Sunday, whose
slot start time is before 24:00 (as it is for every catalog slot) and whose slot start is not
in the past, `book` answers 400 with the message "Dr. <doctor name> is not available on
<weekday>s" and stores nothing. -/
theorem book_weekend (env : Env) (req : BookRequest) (s : Store)
    (doctorId : Nat) (date : Int) (doctor : User)
    (hid : req.doctorId = some doctorId) (hdate : req.date = DateText.instant date)
    (herr : bookErrors req = [])
    (hdoc : findDoctor env.users doctorId = some doctor)
    (hcal : date % msPerDay = 0) (hz0 : 0 ≤ env.tz) (hz1 : env.tz < 1440)
    (hfuture : ¬ specSlotStart env.tz date req.timeSlot < env.now)
    (hin : (slotStart req.timeSlot).1 * 3600000 + (slotStart req.timeSlot).2 * 60000 <
      86400000)
    (hday : dayOfWeek 0 date = "saturday" ∨ dayOfWeek 0 date = "sunday") :
    (book env req s).reply =
      failure 400 ("Dr. " ++ doctor.fullName ++ " is not available on " ++
        dayOfWeek 0 date ++ "s") ∧
    (book env req s).appointment = none ∧
    (book env req s).store = s := by
  have hb := bookingStart_calendar env.tz date req.timeSlot hcal hz0 hz1
  have hd := dayOfWeek_calendar env.tz date hcal hz0 hz1
  have h := book_weekend_local env req s doctorId date doctor hid hdate herr hdoc
    (by rw [hb]; exact hfuture) hin (by rw [hd]; exact hday)
  rw [hd] at h
  exact h

theorem book_weekend_witness :
    dayOfWeek 0 saturday = "saturday" ∧
    eastEnv.tz = 330 ∧
    (book eastEnv saturdayRequest [bookedAppointment]).reply =
      failure 400 ("Dr. " ++ doctorOne.fullName ++ " is not available on " ++
        dayOfWeek 0 saturday ++ "s") ∧
    (book eastEnv saturdayRequest [bookedAppointment]).appointment = none ∧
    (book eastEnv saturdayRequest [bookedAppointment]).store = [bookedAppointment] :=
  ⟨by decide, by decide,
    book_weekend eastEnv saturdayRequest [bookedAppointment] 1 saturday doctorOne rfl rfl
      (by decide) (by decide) (by decide) (by decide) (by decide) (by decide) (by decide)
      (Or.inl (by decide))⟩

/-- C13 as stated fails: the request for Saturday 14 June 2025 with the validated slot label
"48:00-48:15" names an existing active doctor and a future slot start, yet the answer is 500
"Error booking appointment", not the 400 of a non-operating day. On a server seven hours west
of UTC the request for the first slot of Saturday 21 June 2025 is answered 201 and the
appointment is stored. -/
theorem book_weekend_counterexample :
    bookErrors rolledRequest = [] ∧
    findDoctor sampleEnv.users 1 = some doctorOne ∧
    dayOfWeek sampleEnv.tz saturday = "saturday" ∧
    ¬ bookingStart sampleEnv.tz saturday rolledRequest.timeSlot < sampleEnv.now ∧
    dayOfWeek sampleEnv.tz (bookingStart sampleEnv.tz saturday rolledRequest.timeSlot) =
      "monday" ∧
    (book sampleEnv rolledRequest []).reply = failure 500 "Error booking appointment" ∧
    (book sampleEnv rolledRequest []).store = [] ∧
    bookErrors nextSaturdayRequest = [] ∧
    dayOfWeek 0 nextSaturday = "saturday" ∧
    westEnv.tz = -420 ∧
    westEnv.now < specSlotStart westEnv.tz nextSaturday nextSaturdayRequest.timeSlot ∧
    (book westEnv nextSaturdayRequest []).reply =
      ⟨201, true, some "Appointment booked successfully", []⟩ ∧
    (book westEnv nextSaturdayRequest []).store.length = 1 := by
  decide

/-! ## Booking: the notification step -/

theorem findById_of_findDoctor (users : List User) (doctorId : Nat) (doctor : User)
    (h : findDoctor users doctorId = some doctor) : (findById users doctorId).isSome = true := by
  unfold findDoctor at h
  unfold findById
  rw [List.find?_isSome]
  have hm := List.mem_of_find?_eq_some h
  have hp := List.find?_some h
  simp only [Bool.and_eq_true, beq_iff_eq] at hp
  exact ⟨doctor, hm, by simp [hp.1.1]⟩

theorem insertDoc_ok (tz validateNow : Int) (s t : Store) (a : Appointment)
    (h : insertDoc tz validateNow s a = .ok t) : t = s ++ [a] ∧ schemaValid a = true := by
  unfold insertDoc at h
  split at h
  · cases h
  · split at h
    · cases h
    · rename_i hv
      split at h
      · cases h
      · injection h with h
        exact ⟨h.symm, by simpa using hv⟩

theorem bookWith_persisted (env : Env) (req : BookRequest) (sCount sFind s s1 : Store)
    (doctorId : Nat) (date : Int) (doctor : User)
    (hid : req.doctorId = some doctorId) (hdate : req.date = DateText.instant date)
    (herr : bookErrors req = [])
    (hdoc : findDoctor env.users doctorId = some doctor)
    (hfuture : ¬ bookingStart env.tz date req.timeSlot < env.now)
    (hday : weekdays.contains (dayOfWeek env.tz (bookingStart env.tz date req.timeSlot)) = true)
    (hfree : existingAppointmentsCount sCount doctorId
      (bookingStart env.tz date req.timeSlot) req.timeSlot = 0)
    (hnone : conflictingAppointment sFind req.user (bookingStart env.tz date req.timeSlot)
      req.timeSlot = none)
    (hsave : insertDoc env.tz env.validateNow s
      (newAppointment (freshId s) req.user doctorId (bookingStart env.tz date req.timeSlot)
        req.timeSlot req.reason) = .ok s1) :
    bookWith env req sCount sFind s =
      afterBooked env doctorId
        (newAppointment (freshId s) req.user doctorId (bookingStart env.tz date req.timeSlot)
          req.timeSlot req.reason) s1 := by
  rw [bookWith_eq_bookChecked env req sCount sFind s doctorId date doctor hid hdate herr hdoc]
  unfold bookChecked
  simp only [if_neg hfuture, hday, Bool.not_true, Bool.false_eq_true, if_false, ge_iff_le,
    hfree, hnone, Option.isSome_none, hsave]
  simp

theorem afterBooked_answer (env : Env) (doctorId : Nat) (a : Appointment) (s1 : Store)
    (patient : User) (hp : findById env.users a.patient = some patient)
    (hd : (findById env.users a.doctor).isSome = true) (hv : schemaValid a = true)
    (he : a.emailSent = false) :
    (afterBooked env doctorId a s1).reply.status = 201 ∧
    (afterBooked env doctorId a s1).reply.success = true ∧
    ((afterBooked env doctorId a s1).warning = none ↔
      confirmationOutcome env (some patient) = EmailOutcome.sent) ∧
    ((afterBooked env doctorId a s1).appointment.map (·.emailSent) =
      some (decide (confirmationOutcome env (some patient) = EmailOutcome.sent))) := by
  have hnot : (env.socket && ((findById env.users a.patient).isNone ||
      (findById env.users a.doctor).isNone)) = false := by
    rw [hp]
    cases hdoc : findById env.users a.doctor with
    | none => rw [hdoc] at hd; cases hd
    | some d => simp
  unfold afterBooked
  simp only [hnot, Bool.false_eq_true, if_false]
  rw [hp]
  cases hout : confirmationOutcome env (some patient) with
  | sent =>
    simp only [updateDoc_mark s1 a hv]
    simp
  | failed e => simp [he]
  | threw m => simp [he]

/-- C11. For a booking by a patient whose user document exists, once the handler's checks
have passed and `save()` has stored the appointment, whatever the confirmation email step
yields (sent, reported failure, thrown exception) and whether or not the socket layer is
attached, `book` answers 201 with `success = true`, the collection holds the new appointment
with status `scheduled`, and the answer carries a `warning` exactly when the email step did
not report success. -/
theorem book_survives_notification (env : Env) (req : BookRequest) (s s1 : Store)
    (doctorId : Nat) (date : Int) (doctor patient : User)
    (hid : req.doctorId = some doctorId) (hdate : req.date = DateText.instant date)
    (herr : bookErrors req = [])
    (hdoc : findDoctor env.users doctorId = some doctor)
    (hpat : findById env.users req.user = some patient)
    (hfuture : ¬ bookingStart env.tz date req.timeSlot < env.now)
    (hday : weekdays.contains (dayOfWeek env.tz (bookingStart env.tz date req.timeSlot)) = true)
    (hfree : existingAppointmentsCount s doctorId
      (bookingStart env.tz date req.timeSlot) req.timeSlot = 0)
    (hnone : conflictingAppointment s req.user (bookingStart env.tz date req.timeSlot)
      req.timeSlot = none)
    (hsave : insertDoc env.tz env.validateNow s
      (newAppointment (freshId s) req.user doctorId (bookingStart env.tz date req.timeSlot)
        req.timeSlot req.reason) = .ok s1) :
    (book env req s).reply.status = 201 ∧
    (book env req s).reply.success = true ∧
    (∃ a ∈ (book env req s).store, a.id = freshId s ∧ a.status = Status.scheduled ∧
      a.patient = req.user ∧ a.doctor = doctorId ∧ a.timeSlot = req.timeSlot) ∧
    ((book env req s).warning = none ↔
      confirmationOutcome env (some patient) = EmailOutcome.sent) := by
  obtain ⟨hs1, hv⟩ := insertDoc_ok _ _ _ _ _ hsave
  have hb : book env req s = afterBooked env doctorId
      (newAppointment (freshId s) req.user doctorId (bookingStart env.tz date req.timeSlot)
        req.timeSlot req.reason) s1 := by
    unfold book
    exact bookWith_persisted env req s s s s1 doctorId date doctor hid hdate herr hdoc hfuture
      hday hfree hnone hsave
  have hans := afterBooked_answer env doctorId _ s1 patient hpat
    (findById_of_findDoctor env.users doctorId doctor hdoc) hv rfl
  rw [hb]
  refine ⟨hans.1, hans.2.1, ?_, hans.2.2.1⟩
  rcases afterBooked_store env doctorId _ s1 hv with h | h
  · rw [h, hs1]
    exact ⟨_, List.mem_append_right _ (List.mem_singleton.mpr rfl), rfl, rfl, rfl, rfl, rfl⟩
  · rw [h, hs1]
    refine ⟨_, List.mem_map.mpr ⟨_, List.mem_append_right _ (List.mem_singleton.mpr rfl), rfl⟩,
      ?_⟩
    simp [newAppointment]

theorem book_survives_notification_witness :
    confirmationOutcome mailDownEnv (some patientTwo) ≠ EmailOutcome.sent ∧
    (book mailDownEnv sampleRequest []).reply.status = 201 ∧
    (book mailDownEnv sampleRequest []).reply.success = true ∧
    (∃ a ∈ (book mailDownEnv sampleRequest []).store, a.id = freshId [] ∧
      a.status = Status.scheduled ∧ a.patient = sampleRequest.user ∧ a.doctor = 1 ∧
      a.timeSlot = sampleRequest.timeSlot) ∧
    ((book mailDownEnv sampleRequest []).warning = none ↔
      confirmationOutcome mailDownEnv (some patientTwo) = EmailOutcome.sent) :=
  ⟨by decide,
    book_survives_notification mailDownEnv sampleRequest []
      [{ bookedAppointment with emailSent := false }] 1 monday doctorOne patientTwo rfl rfl
      (by decide) (by decide) (by decide) (by decide) (by decide) (by decide) (by decide) rfl⟩

/-! ## Cancellation -/

theorem cancel_forbidden (env : Env) (req : CancelRequest) (s : Store) (appointmentId : Nat)
    (appointment : Appointment)
    (hid : req.appointmentId = some appointmentId) (herr : cancelErrors req = [])
    (hfind : (s.find? fun a => a.id == appointmentId) = some appointment)
    (hcan : canCancel req appointment (findById env.users appointment.patient)
      (findById env.users appointment.doctor) = some false) :
    cancel env req s =
      ⟨failure 403 "You are not authorized to cancel this appointment", none, [], s⟩ := by
  unfold cancel
  simp only [hid, herr, hfind, hcan, ne_eq, not_true_eq_false, if_false]

theorem cancel_allowed (env : Env) (req : CancelRequest) (s : Store) (appointmentId : Nat)
    (appointment : Appointment)
    (hid : req.appointmentId = some appointmentId) (herr : cancelErrors req = [])
    (hfind : (s.find? fun a => a.id == appointmentId) = some appointment)
    (hcan : canCancel req appointment (findById env.users appointment.patient)
      (findById env.users appointment.doctor) = some true) :
    cancel env req s =
      if appointment.status = Status.cancelled then
        ⟨failure 400 "Appointment is already cancelled", none, [], s⟩
      else if appointment.status = Status.completed then
        ⟨failure 400 "Cannot cancel a completed appointment", none, [], s⟩
      else
        match updateDoc s appointment (cancelled req appointment) with
        | .error _ => ⟨failure 500 "Error cancelling appointment", none, [], s⟩
        | .ok s1 =>
          if env.socket && ((findById env.users appointment.patient).isNone ||
              (findById env.users appointment.doctor).isNone) then
            ⟨failure 500 "Error cancelling appointment", none, [], s1⟩
          else
            ⟨⟨200, true, some "Appointment cancelled successfully", []⟩,
              some (cancelled req appointment),
              (if env.socket then
                if req.userRole = Role.patient then
                  [Notification.emit (.doctor appointment.doctor) "appointment-cancelled"]
                else
                  [Notification.emit (.patient appointment.patient) "appointment-cancelled"]
              else []) ++
                [Notification.mail (findById env.users appointment.patient) "cancellation"],
              s1⟩ := by
  unfold cancel
  simp only [hid, herr, hfind, hcan, ne_eq, not_true_eq_false, if_false]

theorem cancel_success (env : Env) (req : CancelRequest) (s : Store) (appointmentId : Nat)
    (appointment : Appointment)
    (hid : req.appointmentId = some appointmentId)
    (hfind : (s.find? fun a => a.id == appointmentId) = some appointment)
    (hok : (cancel env req s).reply.status = 200) :
    ∃ s1, updateDoc s appointment (cancelled req appointment) = .ok s1 ∧
      canCancel req appointment (findById env.users appointment.patient)
        (findById env.users appointment.doctor) = some true ∧
      appointment.status ≠ Status.cancelled ∧ appointment.status ≠ Status.completed ∧
      cancel env req s =
        ⟨⟨200, true, some "Appointment cancelled successfully", []⟩,
          some (cancelled req appointment),
          (if env.socket then
            if req.userRole = Role.patient then
              [Notification.emit (.doctor appointment.doctor) "appointment-cancelled"]
            else
              [Notification.emit (.patient appointment.patient) "appointment-cancelled"]
          else []) ++
            [Notification.mail (findById env.users appointment.patient) "cancellation"],
          s1⟩ := by
  by_cases herr : cancelErrors req = []
  swap
  · exfalso
    unfold cancel at hok
    simp [hid, herr, validationFailed] at hok
  cases hcan : canCancel req appointment (findById env.users appointment.patient)
      (findById env.users appointment.doctor) with
  | none =>
    exfalso
    unfold cancel at hok
    simp [hid, herr, hfind, hcan, failure] at hok
  | some b =>
    cases b with
    | false =>
      exfalso
      rw [cancel_forbidden env req s appointmentId appointment hid herr hfind hcan] at hok
      simp [failure] at hok
    | true =>
      rw [cancel_allowed env req s appointmentId appointment hid herr hfind hcan] at hok ⊢
      by_cases h1 : appointment.status = Status.cancelled
      · simp [h1, failure] at hok
      by_cases h2 : appointment.status = Status.completed
      · simp [h2, failure] at hok
      simp only [if_neg h1, if_neg h2] at hok ⊢
      cases hu : updateDoc s appointment (cancelled req appointment) with
      | error e =>
        rw [hu] at hok
        simp [failure] at hok
      | ok s1 =>
        rw [hu] at hok
        simp only at hok ⊢
        by_cases hs : (env.socket && ((findById env.users appointment.patient).isNone ||
            (findById env.users appointment.doctor).isNone)) = true
        · simp [hs, failure] at hok
        · exact ⟨s1, by simp, by simp, h1, h2, by simp [hs]⟩

theorem canCancel_of_docs (req : CancelRequest) (a : Appointment) (p d : User) :
    canCancel req a (some p) (some d) =
      some (decide ((req.userRole = Role.patient ∧ a.patient = req.userId) ∨
        (req.userRole = Role.doctor ∧ a.doctor = req.userId))) := by
  unfold canCancel
  cases req.userRole <;> simp [Nat.beq_eq_true_eq, beq_eq_decide]

theorem cancel_allowed_status (env : Env) (req : CancelRequest) (s : Store)
    (appointmentId : Nat) (appointment : Appointment)
    (hid : req.appointmentId = some appointmentId) (herr : cancelErrors req = [])
    (hfind : (s.find? fun a => a.id == appointmentId) = some appointment)
    (hcan : canCancel req appointment (findById env.users appointment.patient)
      (findById env.users appointment.doctor) = some true) :
    (cancel env req s).reply.status ≠ 403 := by
  rw [cancel_allowed env req s appointmentId appointment hid herr hfind hcan]
  split
  · simp [failure]
  · split
    · simp [failure]
    · split
      · simp [failure]
      · split <;> simp [failure]

/-- C15. For a validated cancel request on an existing appointment whose patient and doctor
both have a user document, `cancel` answers 403 if and only if the requester is neither the
appointment's patient (a user of role `patient` whose id is the appointment's `patient`) nor
its doctor (a user of role `doctor` whose id is the appointment's `doctor`); the 403 answer
is "You are not authorized to cancel this appointment" and leaves the collection unchanged. -/
theorem cancel_authorization (env : Env) (req : CancelRequest) (s : Store)
    (appointmentId : Nat) (appointment : Appointment) (patientDoc doctorDoc : User)
    (hid : req.appointmentId = some appointmentId) (herr : cancelErrors req = [])
    (hfind : (s.find? fun a => a.id == appointmentId) = some appointment)
    (hp : findById env.users appointment.patient = some patientDoc)
    (hd : findById env.users appointment.doctor = some doctorDoc) :
    ((cancel env req s).reply.status = 403 ↔
      ¬ (req.userRole = Role.patient ∧ appointment.patient = req.userId) ∧
      ¬ (req.userRole = Role.doctor ∧ appointment.doctor = req.userId)) ∧
    ((cancel env req s).reply.status = 403 →
      (cancel env req s).reply =
        failure 403 "You are not authorized to cancel this appointment" ∧
      (cancel env req s).appointment = none ∧
      (cancel env req s).store = s) := by
  have hc := canCancel_of_docs req appointment patientDoc doctorDoc
  rw [← hp, ← hd] at hc
  by_cases hwho : (req.userRole = Role.patient ∧ appointment.patient = req.userId) ∨
      (req.userRole = Role.doctor ∧ appointment.doctor = req.userId)
  · have hcan : canCancel req appointment (findById env.users appointment.patient)
        (findById env.users appointment.doctor) = some true := by
      rw [hc]; simp [hwho]
    have hne := cancel_allowed_status env req s appointmentId appointment hid herr hfind hcan
    refine ⟨⟨fun h => absurd h hne, ?_⟩, fun h => absurd h hne⟩
    rintro ⟨h1, h2⟩
    rcases hwho with h | h
    · exact absurd h h1
    · exact absurd h h2
  · have hcan : canCancel req appointment (findById env.users appointment.patient)
        (findById env.users appointment.doctor) = some false := by
      rw [hc]; simp [hwho]
    rw [cancel_forbidden env req s appointmentId appointment hid herr hfind hcan]
    refine ⟨⟨fun _ => ?_, fun _ => rfl⟩, fun _ => ⟨rfl, rfl, rfl⟩⟩
    exact ⟨fun h => hwho (Or.inl h), fun h => hwho (Or.inr h)⟩

theorem cancel_authorization_witness :
    (¬ (strangerCancel.userRole = Role.patient ∧
        bookedAppointment.patient = strangerCancel.userId) ∧
      ¬ (strangerCancel.userRole = Role.doctor ∧
        bookedAppointment.doctor = strangerCancel.userId)) ∧
    (cancel sampleEnv strangerCancel [bookedAppointment]).reply.status = 403 ∧
    (cancel sampleEnv strangerCancel [bookedAppointment]).store = [bookedAppointment] ∧
    (cancel sampleEnv doctorCancel [bookedAppointment]).reply.status ≠ 403 :=
  ⟨by decide,
    (cancel_authorization sampleEnv strangerCancel [bookedAppointment] 1 bookedAppointment
      patientTwo doctorOne rfl (by decide) (by decide) (by decide) (by decide)).1.mpr
      (by decide),
    ((cancel_authorization sampleEnv strangerCancel [bookedAppointment] 1 bookedAppointment
      patientTwo doctorOne rfl (by decide) (by decide) (by decide) (by decide)).2
      (by decide)).2.2,
    fun h => absurd
      ((cancel_authorization sampleEnv doctorCancel [bookedAppointment] 1 bookedAppointment
        patientTwo doctorOne rfl (by decide) (by decide) (by decide) (by decide)).1.mp h)
      (by decide)⟩

/-- C16. For a validated and authorized cancel request, an appointment whose status is
`cancelled` gets the answer 400 "Appointment is already cancelled" and one whose status is
`completed` the answer 400 "Cannot cancel a completed appointment"; in both cases the
collection, hence the appointment's status and notes, is unchanged. -/
theorem cancel_terminal_guard (env : Env) (req : CancelRequest) (s : Store)
    (appointmentId : Nat) (appointment : Appointment)
    (hid : req.appointmentId = some appointmentId) (herr : cancelErrors req = [])
    (hfind : (s.find? fun a => a.id == appointmentId) = some appointment)
    (hcan : canCancel req appointment (findById env.users appointment.patient)
      (findById env.users appointment.doctor) = some true) :
    (appointment.status = Status.cancelled →
      (cancel env req s).reply = failure 400 "Appointment is already cancelled" ∧
      (cancel env req s).store = s) ∧
    (appointment.status = Status.completed →
      (cancel env req s).reply = failure 400 "Cannot cancel a completed appointment" ∧
      (cancel env req s).store = s) := by
  rw [cancel_allowed env req s appointmentId appointment hid herr hfind hcan]
  constructor
  · intro h
    simp [h]
  · intro h
    simp [h]

theorem cancel_terminal_guard_witness :
    cancelledAppointment.status = Status.cancelled ∧
    (cancel sampleEnv patientCancel [cancelledAppointment]).reply =
      failure 400 "Appointment is already cancelled" ∧
    (cancel sampleEnv patientCancel [cancelledAppointment]).store = [cancelledAppointment] ∧
    completedAppointment.status = Status.completed ∧
    (cancel sampleEnv doctorCancel [completedAppointment]).reply =
      failure 400 "Cannot cancel a completed appointment" ∧
    (cancel sampleEnv doctorCancel [completedAppointment]).store = [completedAppointment] :=
  ⟨rfl,
    ((cancel_terminal_guard sampleEnv patientCancel [cancelledAppointment] 1
      cancelledAppointment rfl (by decide) (by decide) (by decide)).1 rfl).1,
    ((cancel_terminal_guard sampleEnv patientCancel [cancelledAppointment] 1
      cancelledAppointment rfl (by decide) (by decide) (by decide)).1 rfl).2,
    rfl,
    ((cancel_terminal_guard sampleEnv doctorCancel [completedAppointment] 1
      completedAppointment rfl (by decide) (by decide) (by decide)).2 rfl).1,
    ((cancel_terminal_guard sampleEnv doctorCancel [completedAppointment] 1
      completedAppointment rfl (by decide) (by decide) (by decide)).2 rfl).2⟩

theorem updateDoc_ok (s t : Store) (old new : Appointment)
    (h : updateDoc s old new = .ok t) :
    t = s.map fun b => if b.id = old.id then new else b := by
  unfold updateDoc at h
  split at h
  · cases h
  · split at h
    · cases h
    · injection h with h
      exact h.symm

theorem mem_updateDoc (s t : Store) (old new : Appointment)
    (h : updateDoc s old new = .ok t) (hold : old ∈ s) : new ∈ t := by
  rw [updateDoc_ok s t old new h]
  exact List.mem_map.mpr ⟨old, hold, by simp⟩

/-- C17, as amended. After a successful cancel with a non-empty reason the notes of the
appointment are exactly "Cancelled by <role>: <reason>", naming the cancelling role and the
reason, whatever they held before; with no reason, or an empty one, the notes are unchanged.
The appointment answered is the one stored. -/
theorem cancel_notes (env : Env) (req : CancelRequest) (s : Store)
    (appointmentId : Nat) (appointment : Appointment)
    (hid : req.appointmentId = some appointmentId)
    (hfind : (s.find? fun a => a.id == appointmentId) = some appointment)
    (hok : (cancel env req s).reply.status = 200) :
    ∃ a : Appointment, (cancel env req s).appointment = some a ∧
      a ∈ (cancel env req s).store ∧ a.id = appointment.id ∧
      (∀ r, req.reason = some r → r ≠ "" →
        a.notes = "Cancelled by " ++ req.userRole.toString ++ ": " ++ r) ∧
      (req.reason = none ∨ req.reason = some "" → a.notes = appointment.notes) := by
  obtain ⟨s1, hu, -, -, -, hc⟩ := cancel_success env req s appointmentId appointment hid hfind hok
  rw [hc]
  refine ⟨cancelled req appointment, rfl,
    mem_updateDoc s s1 appointment _ hu (List.mem_of_find?_eq_some hfind), rfl, ?_, ?_⟩
  · intro r hr hne
    simp [cancelled, hr, hne]
  · intro h
    rcases h with h | h <;> simp [cancelled, h]

theorem cancel_notes_witness :
    (cancel sampleEnv patientCancel [notedAppointment]).reply.status = 200 ∧
    ∃ a : Appointment, (cancel sampleEnv patientCancel [notedAppointment]).appointment =
        some a ∧
      a ∈ (cancel sampleEnv patientCancel [notedAppointment]).store ∧
      a.id = notedAppointment.id ∧
      (∀ r, patientCancel.reason = some r → r ≠ "" →
        a.notes = "Cancelled by " ++ patientCancel.userRole.toString ++ ": " ++ r) ∧
      (patientCancel.reason = none ∨ patientCancel.reason = some "" →
        a.notes = notedAppointment.notes) :=
  ⟨by decide,
    cancel_notes sampleEnv patientCancel [notedAppointment] 1 notedAppointment rfl (by decide)
      (by decide)⟩

/-- C17 as stated fails: patient 2 cancels an appointment whose notes are "Bring previous
reports" with the reason "Schedule conflict"; the cancel succeeds and the stored notes are
"Cancelled by patient: Schedule conflict", in which the prior text does not occur. -/
theorem cancel_notes_counterexample :
    notedAppointment.notes = "Bring previous reports" ∧
    (cancel sampleEnv patientCancel [notedAppointment]).reply =
      ⟨200, true, some "Appointment cancelled successfully", []⟩ ∧
    (cancel sampleEnv patientCancel [notedAppointment]).store =
      [{ notedAppointment with
          status := Status.cancelled
          notes := "Cancelled by patient: Schedule conflict" }] ∧
    ¬ ("Bring previous reports".data <:+:
      "Cancelled by patient: Schedule conflict".data) := by
  decide

theorem cancel_guard_paths (env : Env) (req : CancelRequest) (s : Store)
    (appointmentId : Nat) (appointment : Appointment)
    (hid : req.appointmentId = some appointmentId) (herr : cancelErrors req = [])
    (hfind : (s.find? fun a => a.id == appointmentId) = some appointment)
    (hcan : canCancel req appointment (findById env.users appointment.patient)
      (findById env.users appointment.doctor) = some true) :
    (appointment.status = Status.cancelled →
      cancel env req s = ⟨failure 400 "Appointment is already cancelled", none, [], s⟩) ∧
    (appointment.status = Status.completed →
      cancel env req s =
        ⟨failure 400 "Cannot cancel a completed appointment", none, [], s⟩) := by
  rw [cancel_allowed env req s appointmentId appointment hid herr hfind hcan]
  constructor
  · intro h
    simp [h]
  · intro h
    simp [h]

theorem cancel_terminal_fails (env : Env) (req : CancelRequest) (s : Store)
    (appointmentId : Nat) (appointment : Appointment)
    (hid : req.appointmentId = some appointmentId)
    (hfind : (s.find? fun a => a.id == appointmentId) = some appointment)
    (hst : appointment.status = Status.cancelled ∨ appointment.status = Status.completed) :
    (cancel env req s).reply.success = false ∧ (cancel env req s).store = s := by
  by_cases herr : cancelErrors req = []
  swap
  · unfold cancel
    simp [hid, herr, validationFailed]
  cases hcan : canCancel req appointment (findById env.users appointment.patient)
      (findById env.users appointment.doctor) with
  | none =>
    unfold cancel
    simp [hid, herr, hfind, hcan, failure]
  | some b =>
    cases b with
    | false =>
      rw [cancel_forbidden env req s appointmentId appointment hid herr hfind hcan]
      exact ⟨rfl, rfl⟩
    | true =>
      have hg := cancel_guard_paths env req s appointmentId appointment hid herr hfind hcan
      rcases hst with h | h
      · rw [(hg.1 h)]
        exact ⟨rfl, rfl⟩
      · rw [(hg.2 h)]
        exact ⟨rfl, rfl⟩

/-- C18, as amended. A cancel request succeeds, or changes the collection at all, only when
the status of the appointment it names is `scheduled`, `confirmed` or `no-show`; for an
appointment whose status is `completed` or `cancelled` the cancel never succeeds and the
collection, hence the status, is unchanged. -/
theorem cancel_source_states (env : Env) (req : CancelRequest) (s : Store)
    (appointmentId : Nat) (appointment : Appointment)
    (hid : req.appointmentId = some appointmentId)
    (hfind : (s.find? fun a => a.id == appointmentId) = some appointment) :
    ((cancel env req s).reply.status = 200 ∨ (cancel env req s).store ≠ s →
      appointment.status = Status.scheduled ∨ appointment.status = Status.confirmed ∨
        appointment.status = Status.noShow) ∧
    (appointment.status = Status.completed ∨ appointment.status = Status.cancelled →
      (cancel env req s).reply.success = false ∧
      (cancel env req s).reply.status ≠ 200 ∧
      (cancel env req s).store = s) := by
  have hterm : appointment.status = Status.cancelled ∨ appointment.status = Status.completed →
      (cancel env req s).reply.success = false ∧ (cancel env req s).reply.status ≠ 200 ∧
        (cancel env req s).store = s := by
    intro hst
    obtain ⟨h1, h2⟩ := cancel_terminal_fails env req s appointmentId appointment hid hfind hst
    refine ⟨h1, ?_, h2⟩
    intro h200
    obtain ⟨_, _, _, _, _, hc⟩ :=
      cancel_success env req s appointmentId appointment hid hfind h200
    rw [hc] at h1
    cases h1
  constructor
  · intro h
    cases hs : appointment.status with
    | scheduled => exact Or.inl rfl
    | confirmed => exact Or.inr (Or.inl rfl)
    | noShow => exact Or.inr (Or.inr rfl)
    | cancelled =>
      obtain ⟨-, h2, h3⟩ := hterm (Or.inl hs)
      rcases h with h | h
      · exact absurd h h2
      · exact absurd h3 h
    | completed =>
      obtain ⟨-, h2, h3⟩ := hterm (Or.inr hs)
      rcases h with h | h
      · exact absurd h h2
      · exact absurd h3 h
  · intro h
    exact hterm h.symm

theorem cancel_source_states_witness :
    (completedAppointment.status = Status.completed ∨
      completedAppointment.status = Status.cancelled) ∧
    (cancel sampleEnv doctorCancel [completedAppointment]).reply.success = false ∧
    (cancel sampleEnv doctorCancel [completedAppointment]).reply.status ≠ 200 ∧
    (cancel sampleEnv doctorCancel [completedAppointment]).store = [completedAppointment] :=
  ⟨Or.inl rfl,
    (cancel_source_states sampleEnv doctorCancel [completedAppointment] 1 completedAppointment
      rfl (by decide)).2 (Or.inl rfl)⟩

/-- C18 as stated fails: patient 2 cancels an appointment whose status is `no-show`; the
cancel succeeds and the stored status becomes `cancelled`. -/
theorem cancel_source_states_counterexample :
    noShowAppointment.status = Status.noShow ∧
    (cancel sampleEnv quietCancel [noShowAppointment]).reply =
      ⟨200, true, some "Appointment cancelled successfully", []⟩ ∧
    (cancel sampleEnv quietCancel [noShowAppointment]).store =
      [{ noShowAppointment with status := Status.cancelled }] := by
  decide

/-- C19, as amended. After a successful cancel, every socket event produced is an
"appointment-cancelled" event sent to the room of the appointment's doctor when a patient
cancelled and to the room of the appointment's patient when a doctor cancelled, never to the
party who cancelled; the cancellation email is handed to the email service for the
appointment's patient, whoever cancelled. -/
theorem cancel_notifications (env : Env) (req : CancelRequest) (s : Store)
    (appointmentId : Nat) (appointment : Appointment)
    (hid : req.appointmentId = some appointmentId)
    (hfind : (s.find? fun a => a.id == appointmentId) = some appointment)
    (hok : (cancel env req s).reply.status = 200) :
    (∀ room event, Notification.emit room event ∈ (cancel env req s).sent →
      event = "appointment-cancelled" ∧
      ((req.userRole = Role.patient ∧ appointment.patient = req.userId ∧
          room = Room.doctor appointment.doctor) ∨
        (req.userRole = Role.doctor ∧ appointment.doctor = req.userId ∧
          room = Room.patient appointment.patient))) ∧
    (∀ recipient kind, Notification.mail recipient kind ∈ (cancel env req s).sent →
      recipient = findById env.users appointment.patient ∧ kind = "cancellation") ∧
    Notification.mail (findById env.users appointment.patient) "cancellation" ∈
      (cancel env req s).sent := by
  obtain ⟨s1, -, hcan, -, -, hc⟩ :=
    cancel_success env req s appointmentId appointment hid hfind hok
  have hrole : (req.userRole = Role.patient ∧ appointment.patient = req.userId) ∨
      (req.userRole = Role.doctor ∧ appointment.doctor = req.userId) := by
    unfold canCancel at hcan
    cases hr : req.userRole with
    | patient =>
      rw [hr] at hcan
      cases hpd : findById env.users appointment.patient with
      | none => rw [hpd] at hcan; cases hcan
      | some p =>
        rw [hpd] at hcan
        simp only [Option.some.injEq, beq_iff_eq] at hcan
        exact Or.inl ⟨rfl, hcan⟩
    | doctor =>
      rw [hr] at hcan
      cases hdd : findById env.users appointment.doctor with
      | none => rw [hdd] at hcan; cases hcan
      | some d =>
        rw [hdd] at hcan
        simp only [Option.some.injEq, beq_iff_eq] at hcan
        exact Or.inr ⟨rfl, hcan⟩
    | unset =>
      rw [hr] at hcan
      simp at hcan
  rw [hc]
  refine ⟨?_, ?_, ?_⟩
  · intro room event hmem
    simp only [List.mem_append, List.mem_singleton] at hmem
    rcases hmem with hmem | hmem
    · rcases hrole with ⟨hr, hu⟩ | ⟨hr, hu⟩
      · by_cases hsock : env.socket = true
        · simp only [hsock, if_true, hr, List.mem_singleton] at hmem
          injection hmem with h1 h2
          exact ⟨h2, Or.inl ⟨hr, hu, h1⟩⟩
        · simp only [hsock, if_false] at hmem
          cases hmem
      · by_cases hsock : env.socket = true
        · have hnp : ¬ req.userRole = Role.patient := by rw [hr]; decide
          simp only [hsock, if_true, hnp, if_false, List.mem_singleton] at hmem
          injection hmem with h1 h2
          exact ⟨h2, Or.inr ⟨hr, hu, h1⟩⟩
        · simp only [hsock, if_false] at hmem
          cases hmem
    · cases hmem
  · intro recipient kind hmem
    simp only [List.mem_append, List.mem_singleton] at hmem
    rcases hmem with hmem | hmem
    · by_cases hsock : env.socket = true
      · by_cases hp : req.userRole = Role.patient
        · simp only [hsock, if_true, hp, List.mem_singleton] at hmem
          cases hmem
        · simp only [hsock, if_true, hp, if_false, List.mem_singleton] at hmem
          cases hmem
      · simp only [hsock, if_false] at hmem
        cases hmem
    · injection hmem with h1 h2
      exact ⟨h1, h2⟩
  · simp

theorem cancel_notifications_witness :
    (cancel sampleEnv doctorCancel [bookedAppointment]).reply.status = 200 ∧
    (∀ room event, Notification.emit room event ∈
        (cancel sampleEnv doctorCancel [bookedAppointment]).sent →
      event = "appointment-cancelled" ∧
      ((doctorCancel.userRole = Role.patient ∧
          bookedAppointment.patient = doctorCancel.userId ∧
          room = Room.doctor bookedAppointment.doctor) ∨
        (doctorCancel.userRole = Role.doctor ∧
          bookedAppointment.doctor = doctorCancel.userId ∧
          room = Room.patient bookedAppointment.patient))) ∧
    (∀ recipient kind, Notification.mail recipient kind ∈
        (cancel sampleEnv doctorCancel [bookedAppointment]).sent →
      recipient = findById sampleEnv.users bookedAppointment.patient ∧
        kind = "cancellation") ∧
    Notification.mail (findById sampleEnv.users bookedAppointment.patient) "cancellation" ∈
      (cancel sampleEnv doctorCancel [bookedAppointment]).sent :=
  ⟨by decide,
    cancel_notifications sampleEnv doctorCancel [bookedAppointment] 1 bookedAppointment rfl
      (by decide) (by decide)⟩

/-- C19 as stated fails: when patient 2 cancels their own appointment, the notifications
produced are the socket event for doctor 1 and the cancellation email, and that email is
addressed to patient 2, the party who cancelled. -/
theorem cancel_notifications_counterexample :
    patientCancel.userRole = Role.patient ∧
    patientTwo.id = patientCancel.userId ∧
    (cancel sampleEnv patientCancel [bookedAppointment]).reply =
      ⟨200, true, some "Appointment cancelled successfully", []⟩ ∧
    (cancel sampleEnv patientCancel [bookedAppointment]).sent =
      [Notification.emit (Room.doctor 1) "appointment-cancelled",
        Notification.mail (some patientTwo) "cancellation"] := by
  decide

/-! ## Clinical update: the status -/

theorem update_invalid (req : UpdateRequest) (s : Store) (herr : updateErrors req ≠ []) :
    update req s = ⟨validationFailed (updateErrors req), none, [], s⟩ := by
  unfold update
  cases req.appointmentId with
  | none => rfl
  | some appointmentId => simp only [herr, ne_eq, not_false_eq_true, if_true]

theorem update_saved (req : UpdateRequest) (s s1 : Store) (appointmentId : Nat)
    (appointment : Appointment)
    (hid : req.appointmentId = some appointmentId) (herr : updateErrors req = [])
    (hfind : (s.find? fun a => a.id == appointmentId && a.doctor == req.doctorId) =
      some appointment)
    (hsave : updateDoc s appointment (applyUpdates req.body appointment) = .ok s1) :
    update req s =
      ⟨⟨200, true, some "Appointment updated successfully", []⟩,
        some (applyUpdates req.body appointment), [], s1⟩ := by
  unfold update
  simp only [hid, herr, hfind, hsave, ne_eq, not_true_eq_false, if_false]

theorem ofString_allowed (t : String)
    (ht : t ∈ ["scheduled", "confirmed", "completed", "no-show"]) :
    ∃ st, Status.ofString t = some st ∧ st ≠ Status.cancelled := by
  simp only [List.mem_cons, List.mem_singleton, List.not_mem_nil, or_false] at ht
  rcases ht with h | h | h | h <;> subst h
  · exact ⟨Status.scheduled, by decide, by decide⟩
  · exact ⟨Status.confirmed, by decide, by decide⟩
  · exact ⟨Status.completed, by decide, by decide⟩
  · exact ⟨Status.noShow, by decide, by decide⟩

theorem updateErrors_statusOnly (req : UpdateRequest) (appointmentId : Nat) (t : String)
    (hid : req.appointmentId = some appointmentId) (hbody : req.body = statusOnly t)
    (ht : t ∈ ["scheduled", "confirmed", "completed", "no-show"]) :
    updateErrors req = [] := by
  unfold updateErrors
  rw [hbody, hid]
  simp only [List.mem_cons, List.mem_singleton, List.not_mem_nil, or_false] at ht
  simp [statusOnly, tooLong]
  tauto

theorem updateDoc_statusOnly (s : Store) (a : Appointment) (t : String)
    (hv : schemaValid a = true) :
    updateDoc s a (applyUpdates (statusOnly t) a) =
      .ok (s.map fun b => if b.id = a.id then applyUpdates (statusOnly t) a else b) := by
  have hv2 : schemaValid (applyUpdates (statusOnly t) a) = true := hv
  have hk : sameKey a (applyUpdates (statusOnly t) a) = true := by
    simp [sameKey, applyUpdates, statusOnly]
  unfold updateDoc
  simp [hv2, hk]

/-- C20, as amended. For an update request by the owning doctor that supplies a status:
if the status is not one of "scheduled", "confirmed", "completed", "no-show" the request is
answered 400 "Validation failed" with the error "Invalid status" and the collection is
unchanged, so no update sets the status `cancelled`; otherwise the current status is not
consulted: whenever the request passes validation and the save succeeds, the answer is 200
and the stored appointment has the supplied status, and a request that supplies nothing but
such a status succeeds on every stored valid appointment, also on a `cancelled` or
`completed` one. -/
theorem update_status (req : UpdateRequest) (s : Store) (appointmentId : Nat)
    (appointment : Appointment) (t : String)
    (hid : req.appointmentId = some appointmentId)
    (hfind : (s.find? fun a => a.id == appointmentId && a.doctor == req.doctorId) =
      some appointment)
    (hst : req.body.status = some t) :
    (t ∉ ["scheduled", "confirmed", "completed", "no-show"] →
      (update req s).reply = validationFailed (updateErrors req) ∧
      "Invalid status" ∈ (update req s).reply.errors ∧
      (update req s).store = s) ∧
    (t ∈ ["scheduled", "confirmed", "completed", "no-show"] →
      ∃ st, Status.ofString t = some st ∧ st ≠ Status.cancelled ∧
        (∀ s1, updateErrors req = [] →
          updateDoc s appointment (applyUpdates req.body appointment) = .ok s1 →
          (update req s).reply.status = 200 ∧
          (update req s).appointment = some (applyUpdates req.body appointment) ∧
          (applyUpdates req.body appointment).status = st ∧
          applyUpdates req.body appointment ∈ (update req s).store) ∧
        (req.body = statusOnly t → schemaValid appointment = true →
          (update req s).reply.status = 200 ∧
          (update req s).appointment = some { appointment with status := st } ∧
          { appointment with status := st } ∈ (update req s).store)) := by
  have hmem := List.mem_of_find?_eq_some hfind
  constructor
  · intro ht
    have hin : "Invalid status" ∈ updateErrors req := by
      unfold updateErrors
      rw [hst]
      simp only [List.mem_cons, List.mem_singleton, List.not_mem_nil, or_false, not_or] at ht
      simp
      exact Or.inl ht
    have hne : updateErrors req ≠ [] := List.ne_nil_of_mem hin
    rw [update_invalid req s hne]
    exact ⟨rfl, hin, rfl⟩
  · intro ht
    obtain ⟨st, hof, hnc⟩ := ofString_allowed t ht
    have hstatus : (applyUpdates req.body appointment).status = st := by
      simp [applyUpdates, hst, hof]
    refine ⟨st, hof, hnc, ?_, ?_⟩
    · intro s1 herr hsave
      rw [update_saved req s s1 appointmentId appointment hid herr hfind hsave]
      exact ⟨rfl, rfl, hstatus, mem_updateDoc s s1 appointment _ hsave hmem⟩
    · intro hbody hv
      have herr := updateErrors_statusOnly req appointmentId t hid hbody ht
      have hsave := updateDoc_statusOnly s appointment t hv
      rw [← hbody] at hsave
      have happ : applyUpdates req.body appointment = { appointment with status := st } := by
        rw [hbody]
        simp [applyUpdates, statusOnly, hof]
      rw [update_saved req s _ appointmentId appointment hid herr hfind hsave, ← happ]
      exact ⟨rfl, rfl, mem_updateDoc s _ appointment _ hsave hmem⟩

theorem update_status_witness :
    ("cancelled" ∉ ["scheduled", "confirmed", "completed", "no-show"] ∧
      (update cancelByUpdate [bookedAppointment]).reply =
        validationFailed (updateErrors cancelByUpdate) ∧
      "Invalid status" ∈ (update cancelByUpdate [bookedAppointment]).reply.errors ∧
      (update cancelByUpdate [bookedAppointment]).store = [bookedAppointment]) ∧
    ("scheduled" ∈ ["scheduled", "confirmed", "completed", "no-show"] ∧
      ∃ st, Status.ofString "scheduled" = some st ∧ st ≠ Status.cancelled ∧
        (∀ s1, updateErrors reactivate = [] →
          updateDoc [completedAppointment] completedAppointment
            (applyUpdates reactivate.body completedAppointment) = .ok s1 →
          (update reactivate [completedAppointment]).reply.status = 200 ∧
          (update reactivate [completedAppointment]).appointment =
            some (applyUpdates reactivate.body completedAppointment) ∧
          (applyUpdates reactivate.body completedAppointment).status = st ∧
          applyUpdates reactivate.body completedAppointment ∈
            (update reactivate [completedAppointment]).store) ∧
        (reactivate.body = statusOnly "scheduled" → schemaValid completedAppointment = true →
          (update reactivate [completedAppointment]).reply.status = 200 ∧
          (update reactivate [completedAppointment]).appointment =
            some { completedAppointment with status := st } ∧
          { completedAppointment with status := st } ∈
            (update reactivate [completedAppointment]).store)) :=
  ⟨⟨by decide,
      (update_status cancelByUpdate [bookedAppointment] 1 bookedAppointment "cancelled" rfl
        (by decide) rfl).1 (by decide)⟩,
    by decide,
    (update_status reactivate [completedAppointment] 1 completedAppointment "scheduled" rfl
      (by decide) rfl).2 (by decide)⟩

/-- C20 as stated fails: doctor 1, who owns the cancelled appointment 1, sends
`{ status: 'scheduled' }`; the update is answered 200 and the stored status changes from
`cancelled` to `scheduled`. -/
theorem update_status_counterexample :
    cancelledAppointment.status = Status.cancelled ∧
    cancelledAppointment.doctor = reactivate.doctorId ∧
    (update reactivate [cancelledAppointment]).reply =
      ⟨200, true, some "Appointment updated successfully", []⟩ ∧
    (update reactivate [cancelledAppointment]).store =
      [{ cancelledAppointment with status := Status.scheduled }] := by
  decide

/-! ## The slot catalog -/

/-- C24. The list `allTimeSlots` of the availability handler is the list of 24 labels of the
specification, in that order: twelve consecutive 15-minute intervals from 09:00 followed by
twelve from 14:00; it has no duplicates and is equal, as a sequence, to the `timeSlot` enum of
the Appointment schema. -/
theorem slot_catalog :
    allTimeSlots = specSlotCatalog ∧
    allTimeSlots = shiftLabels 9 ++ shiftLabels 14 ∧
    allTimeSlots.length = 24 ∧
    allTimeSlots.getLast? = some (clockLabel (16 * 60 + 45) ++ "-" ++ clockLabel (17 * 60)) ∧
    allTimeSlots.Nodup ∧
    allTimeSlots = timeSlotEnum := by
  decide

/-! ## The stored date -/

/-- C25. On a server in UTC, the booking of "09:00-09:15" for 16 June 2025 stores the date
2025-06-16T09:00Z and the booking of "09:15-09:30" for the same day stores 2025-06-16T09:15Z:
the stored date is the slot start, not midnight of the requested day, and it depends on the
slot. -/
theorem stored_date_carries_slot_start :
    (book sampleEnv sampleRequest []).reply.status = 201 ∧
    (book sampleEnv sampleRequest []).store.map (·.date) = [monday + 9 * 3600000] ∧
    (book sampleEnv nextSlotRequest []).reply.status = 201 ∧
    (book sampleEnv nextSlotRequest []).store.map (·.date) =
      [monday + 9 * 3600000 + 15 * 60000] ∧
    sampleRequest.date = DateText.instant monday ∧
    nextSlotRequest.date = DateText.instant monday ∧
    monday % msPerDay = 0 ∧
    (monday + 9 * 3600000) % msPerDay ≠ 0 := by
  decide

/-! ## Clinical update: ownership and the fields written -/

/-- C21, as amended. For a validated update request from a doctor who is not the doctor of
the stored appointment that the request names, `update` answers 404 "Appointment not found or
you are not authorized to update it", not 403, and leaves the collection, hence every stored
appointment, unchanged. -/
theorem update_not_owner (req : UpdateRequest) (s : Store) (appointmentId : Nat)
    (appointment : Appointment)
    (hid : req.appointmentId = some appointmentId) (herr : updateErrors req = [])
    (hmem : appointment ∈ s)
    (hother : ∀ a ∈ s, a.id = appointmentId → a.doctor ≠ req.doctorId) :
    (update req s).reply =
      failure 404 "Appointment not found or you are not authorized to update it" ∧
    (update req s).reply.status ≠ 403 ∧
    (update req s).store = s ∧
    appointment ∈ (update req s).store := by
  have hnone : (s.find? fun a => a.id == appointmentId && a.doctor == req.doctorId) = none := by
    rw [List.find?_eq_none]
    intro a ha hp
    simp only [Bool.and_eq_true, beq_iff_eq] at hp
    exact hother a ha hp.1 hp.2
  have hu : update req s =
      ⟨failure 404 "Appointment not found or you are not authorized to update it", none, [],
        s⟩ := by
    unfold update
    simp only [hid, herr, hnone, ne_eq, not_true_eq_false, if_false]
  rw [hu]
  exact ⟨rfl, by simp [failure], rfl, hmem⟩

theorem update_not_owner_witness :
    (∀ a ∈ [bookedAppointment], a.id = 1 → a.doctor ≠ foreignUpdate.doctorId) ∧
    (update foreignUpdate [bookedAppointment]).reply =
      failure 404 "Appointment not found or you are not authorized to update it" ∧
    (update foreignUpdate [bookedAppointment]).reply.status ≠ 403 ∧
    (update foreignUpdate [bookedAppointment]).store = [bookedAppointment] ∧
    bookedAppointment ∈ (update foreignUpdate [bookedAppointment]).store :=
  ⟨by decide,
    update_not_owner foreignUpdate [bookedAppointment] 1 bookedAppointment rfl (by decide)
      (by decide) (by decide)⟩

/-- C21 as stated fails: doctor 4, an existing doctor who is not the doctor of appointment 1,
sends a valid update for it; the answer is 404, not the 403 of `Forbidden`. -/
theorem update_not_owner_counterexample :
    bookedAppointment.doctor ≠ foreignUpdate.doctorId ∧
    findDoctor sampleUsers foreignUpdate.doctorId = some doctorFour ∧
    (update foreignUpdate [bookedAppointment]).reply =
      failure 404 "Appointment not found or you are not authorized to update it" ∧
    (update foreignUpdate [bookedAppointment]).reply.status ≠ 403 := by
  decide

/-- C27. Doctor 1 sends, for the appointment of patient 2 that they own, a body with the keys
`patient`, `timeSlot` and `reason`; the update is answered 200 and the stored appointment now
belongs to patient 3, at "10:00-10:15", with the new reason. -/
theorem update_rewrites_booking_fields :
    bookedAppointment.patient = 2 ∧ bookedAppointment.timeSlot = "09:00-09:15" ∧
    bookedAppointment.reason = "Annual checkup visit" ∧
    updateErrors reassignUpdate = [] ∧
    (update reassignUpdate [bookedAppointment]).reply =
      ⟨200, true, some "Appointment updated successfully", []⟩ ∧
    (update reassignUpdate [bookedAppointment]).store =
      [{ bookedAppointment with
          patient := 3
          timeSlot := "10:00-10:15"
          reason := "Rewritten by the doctor" }] := by
  decide

/-! ## The dates offered by the frontend -/

/-- C28. In a browser in UTC on Monday 16 June 2025, `getNext30Days` returns 26 days, among
them Saturday 21 June 2025 with `dayOfWeek = "saturday"`; only the four Sundays are left out.
A booking for that Saturday is answered 400 by the backend. -/
theorem saturday_is_offered :
    dayOfWeek 0 monday = "monday" ∧
    (getNext30Days 0 monday).length = 26 ∧
    (⟨nextSaturday, "saturday", false, false⟩ : DayOption) ∈ getNext30Days 0 monday ∧
    ((getNext30Days 0 monday).filter fun d => d.dayOfWeek == "saturday").length = 4 ∧
    ((getNext30Days 0 monday).filter fun d => d.dayOfWeek == "sunday").length = 0 ∧
    (book sampleEnv nextSaturdayRequest []).reply =
      failure 400 "Dr. Asha Rao is not available on saturdays" := by
  decide

/-! ## Clinical update: the fields of a successful update -/

theorem update_success (req : UpdateRequest) (s : Store) (appointmentId : Nat)
    (appointment : Appointment)
    (hid : req.appointmentId = some appointmentId)
    (hfind : (s.find? fun a => a.id == appointmentId && a.doctor == req.doctorId) =
      some appointment)
    (hok : (update req s).reply.status = 200) :
    updateErrors req = [] ∧
    ∃ s1, updateDoc s appointment (applyUpdates req.body appointment) = .ok s1 ∧
      update req s =
        ⟨⟨200, true, some "Appointment updated successfully", []⟩,
          some (applyUpdates req.body appointment), [], s1⟩ := by
  by_cases herr : updateErrors req = []
  swap
  · exfalso
    rw [update_invalid req s herr] at hok
    simp [validationFailed] at hok
  refine ⟨herr, ?_⟩
  cases hu : updateDoc s appointment (applyUpdates req.body appointment) with
  | error e =>
    exfalso
    unfold update at hok
    simp [hid, herr, hfind, hu, failure] at hok
  | ok s1 =>
    exact ⟨s1, rfl, update_saved req s s1 appointmentId appointment hid herr hfind hu⟩

theorem status_of_valid (req : UpdateRequest) (t : String) (herr : updateErrors req = [])
    (hst : req.body.status = some t) :
    t ∈ ["scheduled", "confirmed", "completed", "no-show"] := by
  by_contra hn
  have hin : "Invalid status" ∈ updateErrors req := by
    unfold updateErrors
    rw [hst]
    simp only [List.mem_cons, List.mem_singleton, List.not_mem_nil, or_false, not_or] at hn
    simp
    exact Or.inl hn
  rw [herr] at hin
  cases hin

theorem toString_ofString (t : String)
    (ht : t ∈ ["scheduled", "confirmed", "completed", "no-show"]) (d : Status) :
    ((Status.ofString t).getD d).toString = t := by
  simp only [List.mem_cons, List.mem_singleton, List.not_mem_nil, or_false] at ht
  rcases ht with h | h | h | h <;> subst h <;> rfl

/-- C22. After a successful clinical update, each of `status`, `notes`, `diagnosis` and
`prescription` that the request body contains has the supplied value in the stored
appointment, and each of them that the body does not contain keeps its previous value. -/
theorem update_partial (req : UpdateRequest) (s : Store) (appointmentId : Nat)
    (appointment : Appointment)
    (hid : req.appointmentId = some appointmentId)
    (hfind : (s.find? fun a => a.id == appointmentId && a.doctor == req.doctorId) =
      some appointment)
    (hok : (update req s).reply.status = 200) :
    ∃ a : Appointment, (update req s).appointment = some a ∧ a ∈ (update req s).store ∧
      a.id = appointment.id ∧
      (∀ t, req.body.status = some t → a.status.toString = t) ∧
      (req.body.status = none → a.status = appointment.status) ∧
      (∀ t, req.body.notes = some t → a.notes = t) ∧
      (req.body.notes = none → a.notes = appointment.notes) ∧
      (∀ t, req.body.diagnosis = some t → a.diagnosis = t) ∧
      (req.body.diagnosis = none → a.diagnosis = appointment.diagnosis) ∧
      (∀ t, req.body.prescription = some t → a.prescription = t) ∧
      (req.body.prescription = none → a.prescription = appointment.prescription) := by
  obtain ⟨herr, s1, hu, he⟩ := update_success req s appointmentId appointment hid hfind hok
  rw [he]
  refine ⟨applyUpdates req.body appointment, rfl,
    mem_updateDoc s s1 appointment _ hu (List.mem_of_find?_eq_some hfind), rfl, ?_, ?_, ?_, ?_,
    ?_, ?_, ?_, ?_⟩
  · intro t ht
    have hval := status_of_valid req t herr ht
    simp only [applyUpdates, ht]
    exact toString_ofString t hval _
  · intro h
    simp [applyUpdates, h]
  · intro t h
    simp [applyUpdates, h]
  · intro h
    simp [applyUpdates, h]
  · intro t h
    simp [applyUpdates, h]
  · intro h
    simp [applyUpdates, h]
  · intro t h
    simp [applyUpdates, h]
  · intro h
    simp [applyUpdates, h]

theorem update_partial_witness :
    (update clinicalUpdate [notedAppointment]).reply.status = 200 ∧
    ∃ a : Appointment, (update clinicalUpdate [notedAppointment]).appointment = some a ∧
      a ∈ (update clinicalUpdate [notedAppointment]).store ∧
      a.id = notedAppointment.id ∧
      (∀ t, clinicalUpdate.body.status = some t → a.status.toString = t) ∧
      (clinicalUpdate.body.status = none → a.status = notedAppointment.status) ∧
      (∀ t, clinicalUpdate.body.notes = some t → a.notes = t) ∧
      (clinicalUpdate.body.notes = none → a.notes = notedAppointment.notes) ∧
      (∀ t, clinicalUpdate.body.diagnosis = some t → a.diagnosis = t) ∧
      (clinicalUpdate.body.diagnosis = none → a.diagnosis = notedAppointment.diagnosis) ∧
      (∀ t, clinicalUpdate.body.prescription = some t → a.prescription = t) ∧
      (clinicalUpdate.body.prescription = none →
        a.prescription = notedAppointment.prescription) :=
  ⟨by decide,
    update_partial clinicalUpdate [notedAppointment] 1 notedAppointment rfl (by decide)
      (by decide)⟩

/-! ## Booking: the `emailSent` flag -/

theorem afterBooked_store_outcome (env : Env) (doctorId : Nat) (a : Appointment) (s1 : Store)
    (patient : User) (hp : findById env.users a.patient = some patient)
    (hd : (findById env.users a.doctor).isSome = true) (hv : schemaValid a = true) :
    (afterBooked env doctorId a s1).store =
      if confirmationOutcome env (some patient) = EmailOutcome.sent then
        s1.map fun b => if b.id = a.id then { a with emailSent := true } else b
      else s1 := by
  have hnot : (env.socket && ((findById env.users a.patient).isNone ||
      (findById env.users a.doctor).isNone)) = false := by
    rw [hp]
    cases hdoc : findById env.users a.doctor with
    | none => rw [hdoc] at hd; cases hd
    | some d => simp
  unfold afterBooked
  simp only [hnot, Bool.false_eq_true, if_false]
  rw [hp]
  cases hout : confirmationOutcome env (some patient) with
  | sent =>
    simp only [updateDoc_mark s1 a hv]
    simp
  | failed e => simp
  | threw m => simp

theorem afterBooked_summary (env : Env) (doctorId : Nat) (a : Appointment) (s1 : Store)
    (patient : User) (hp : findById env.users a.patient = some patient)
    (hd : (findById env.users a.doctor).isSome = true) (hv : schemaValid a = true)
    (he : a.emailSent = false) :
    (afterBooked env doctorId a s1).appointment =
      some ⟨a.id, findById env.users a.doctor, a.date, a.timeSlot, a.reason, a.status,
        decide (confirmationOutcome env (some patient) = EmailOutcome.sent)⟩ := by
  have hnot : (env.socket && ((findById env.users a.patient).isNone ||
      (findById env.users a.doctor).isNone)) = false := by
    rw [hp]
    cases hdoc : findById env.users a.doctor with
    | none => rw [hdoc] at hd; cases hd
    | some d => simp
  unfold afterBooked
  simp only [hnot, Bool.false_eq_true, if_false]
  rw [hp]
  cases hout : confirmationOutcome env (some patient) with
  | sent =>
    simp only [updateDoc_mark s1 a hv]
    simp
  | failed e => simp [he]
  | threw m => simp [he]

/-- C29. For a booking by a patient whose user document exists, once the handler's checks
have passed and `save()` has stored the appointment: the collection is the previous one
followed by the new appointment, whose `emailSent` flag is true if and only if the
confirmation email step reported success; the `emailSent` of the answer has the same value;
and the answer carries a `warning` if and only if the email step did not report success. -/
theorem book_email_flag (env : Env) (req : BookRequest) (s s1 : Store)
    (doctorId : Nat) (date : Int) (doctor patient : User)
    (hid : req.doctorId = some doctorId) (hdate : req.date = DateText.instant date)
    (herr : bookErrors req = [])
    (hdoc : findDoctor env.users doctorId = some doctor)
    (hpat : findById env.users req.user = some patient)
    (hfuture : ¬ bookingStart env.tz date req.timeSlot < env.now)
    (hday : weekdays.contains (dayOfWeek env.tz (bookingStart env.tz date req.timeSlot)) = true)
    (hfree : existingAppointmentsCount s doctorId
      (bookingStart env.tz date req.timeSlot) req.timeSlot = 0)
    (hnone : conflictingAppointment s req.user (bookingStart env.tz date req.timeSlot)
      req.timeSlot = none)
    (hsave : insertDoc env.tz env.validateNow s
      (newAppointment (freshId s) req.user doctorId (bookingStart env.tz date req.timeSlot)
        req.timeSlot req.reason) = .ok s1) :
    (∃ x : Appointment, (book env req s).store = s ++ [x] ∧ x.id = freshId s ∧
      (x.emailSent = true ↔ confirmationOutcome env (some patient) = EmailOutcome.sent)) ∧
    (∃ r : BookSummary, (book env req s).appointment = some r ∧ r.id = freshId s ∧
      (r.emailSent = true ↔ confirmationOutcome env (some patient) = EmailOutcome.sent)) ∧
    ((book env req s).warning.isSome = true ↔
      confirmationOutcome env (some patient) ≠ EmailOutcome.sent) := by
  obtain ⟨hs1, hv⟩ := insertDoc_ok _ _ _ _ _ hsave
  have hb : book env req s = afterBooked env doctorId
      (newAppointment (freshId s) req.user doctorId (bookingStart env.tz date req.timeSlot)
        req.timeSlot req.reason) s1 := by
    unfold book
    exact bookWith_persisted env req s s s s1 doctorId date doctor hid hdate herr hdoc hfuture
      hday hfree hnone hsave
  have hdsome := findById_of_findDoctor env.users doctorId doctor hdoc
  have hans := afterBooked_answer env doctorId _ s1 patient hpat hdsome hv rfl
  have hstore := afterBooked_store_outcome env doctorId _ s1 patient hpat hdsome hv
  have hfresh : ∀ b ∈ s, b.id ≠ freshId s := fun b hb => Nat.ne_of_lt (id_lt_freshId s b hb)
  rw [hb]
  refine ⟨?_, ?_, ?_⟩
  · rw [hstore, hs1]
    by_cases hout : confirmationOutcome env (some patient) = EmailOutcome.sent
    · rw [if_pos hout, map_mark_append s _ _ hfresh]
      exact ⟨_, rfl, rfl, by simp [hout]⟩
    · rw [if_neg hout]
      exact ⟨_, rfl, rfl, by simp [hout, newAppointment]⟩
  · rw [afterBooked_summary env doctorId _ s1 patient hpat hdsome hv rfl]
    exact ⟨_, rfl, rfl, by simp⟩
  · have h3 := hans.2.2.1
    constructor
    · intro hw hout
      rw [h3.mpr hout] at hw
      cases hw
    · intro hout
      cases hwarn : (afterBooked env doctorId
          (newAppointment (freshId s) req.user doctorId
            (bookingStart env.tz date req.timeSlot) req.timeSlot req.reason) s1).warning with
      | none => exact absurd (h3.mp hwarn) hout
      | some w => rfl

theorem book_email_flag_witness :
    confirmationOutcome mailDownEnv (some (⟨3, Role.patient, true, "Quinn Two",
      "quinn@mail.test"⟩ : User)) ≠ EmailOutcome.sent ∧
    (∃ x : Appointment, (book mailDownEnv nextSlotRequest [bookedAppointment]).store =
        [bookedAppointment] ++ [x] ∧ x.id = freshId [bookedAppointment] ∧
      (x.emailSent = true ↔ confirmationOutcome mailDownEnv
        (some (⟨3, Role.patient, true, "Quinn Two", "quinn@mail.test"⟩ : User)) =
          EmailOutcome.sent)) ∧
    (∃ r : BookSummary, (book mailDownEnv nextSlotRequest [bookedAppointment]).appointment =
        some r ∧ r.id = freshId [bookedAppointment] ∧
      (r.emailSent = true ↔ confirmationOutcome mailDownEnv
        (some (⟨3, Role.patient, true, "Quinn Two", "quinn@mail.test"⟩ : User)) =
          EmailOutcome.sent)) ∧
    ((book mailDownEnv nextSlotRequest [bookedAppointment]).warning.isSome = true ↔
      confirmationOutcome mailDownEnv
        (some (⟨3, Role.patient, true, "Quinn Two", "quinn@mail.test"⟩ : User)) ≠
          EmailOutcome.sent) :=
  ⟨by decide,
    book_email_flag mailDownEnv nextSlotRequest [bookedAppointment]
      [bookedAppointment,
        newAppointment 2 3 1 (monday + 33300000) "09:15-09:30" "Second opinion visit"]
      1 monday doctorOne ⟨3, Role.patient, true, "Quinn Two", "quinn@mail.test"⟩ rfl rfl
      (by decide) (by decide) (by decide) (by decide) (by decide) (by decide) (by decide)
      (by rfl)⟩

/-! ## Cancellation: the notification step -/

theorem schemaValid_cancelled (req : CancelRequest) (a : Appointment)
    (hv : schemaValid a = true) (hlen : utf16Length (cancelled req a).notes ≤ 1000) :
    schemaValid (cancelled req a) = true := by
  unfold schemaValid at hv ⊢
  simp only [Bool.and_eq_true, decide_eq_true_eq] at hv ⊢
  obtain ⟨⟨⟨⟨⟨h1, h2⟩, h3⟩, _⟩, h5⟩, h6⟩ := hv
  exact ⟨⟨⟨⟨⟨h1, h2⟩, h3⟩, hlen⟩, h5⟩, h6⟩

/-- C26, as amended. For a validated and authorized cancel of a `scheduled` or `confirmed`
appointment that is valid for the schema, whose cancellation note fits the 1000 code units of
the notes field and whose patient and doctor have a user document: whether or not the socket
layer is attached and whatever the email service yields, `cancel` answers 200 "Appointment
cancelled successfully" and every stored appointment with that id is the cancelled one, with
status `cancelled`. -/
theorem cancel_survives_notification (env : Env) (req : CancelRequest) (s : Store)
    (appointmentId : Nat) (appointment : Appointment) (patientDoc doctorDoc : User)
    (hid : req.appointmentId = some appointmentId) (herr : cancelErrors req = [])
    (hfind : (s.find? fun a => a.id == appointmentId) = some appointment)
    (hcan : canCancel req appointment (findById env.users appointment.patient)
      (findById env.users appointment.doctor) = some true)
    (hst : appointment.status = Status.scheduled ∨ appointment.status = Status.confirmed)
    (hv : schemaValid appointment = true)
    (hlen : utf16Length (cancelled req appointment).notes ≤ 1000)
    (hp : findById env.users appointment.patient = some patientDoc)
    (hd : findById env.users appointment.doctor = some doctorDoc) :
    (cancel env req s).reply = ⟨200, true, some "Appointment cancelled successfully", []⟩ ∧
    (cancel env req s).appointment = some (cancelled req appointment) ∧
    (cancelled req appointment).status = Status.cancelled ∧
    cancelled req appointment ∈ (cancel env req s).store ∧
    (∀ a ∈ (cancel env req s).store, a.id = appointment.id →
      a = cancelled req appointment) := by
  have h1 : ¬ appointment.status = Status.cancelled := by
    rcases hst with h | h <;> rw [h] <;> decide
  have h2 : ¬ appointment.status = Status.completed := by
    rcases hst with h | h <;> rw [h] <;> decide
  have hk : sameKey appointment (cancelled req appointment) = true := by
    simp [sameKey, cancelled]
  have hu : updateDoc s appointment (cancelled req appointment) =
      .ok (s.map fun b => if b.id = appointment.id then cancelled req appointment else b) := by
    unfold updateDoc
    simp [schemaValid_cancelled req appointment hv hlen, hk]
  have hmem := List.mem_of_find?_eq_some hfind
  have hc := cancel_allowed env req s appointmentId appointment hid herr hfind hcan
  simp only [if_neg h1, if_neg h2, hu, hp, hd, Option.isNone_some, Bool.or_self,
    Bool.and_false, Bool.false_eq_true, if_false] at hc
  rw [hc]
  refine ⟨rfl, rfl, rfl, List.mem_map.mpr ⟨appointment, hmem, by simp⟩, ?_⟩
  intro a ha haid
  obtain ⟨b, -, hb⟩ := List.mem_map.mp ha
  by_cases hbid : b.id = appointment.id
  · rw [if_pos hbid] at hb
    exact hb.symm
  · rw [if_neg hbid] at hb
    rw [← hb] at haid
    exact absurd haid hbid

theorem cancel_survives_notification_witness :
    (confirmedAppointment.status = Status.scheduled ∨
      confirmedAppointment.status = Status.confirmed) ∧
    (cancel mailThrowsEnv doctorCancel [confirmedAppointment]).reply =
      ⟨200, true, some "Appointment cancelled successfully", []⟩ ∧
    (cancel mailThrowsEnv doctorCancel [confirmedAppointment]).appointment =
      some (cancelled doctorCancel confirmedAppointment) ∧
    (cancelled doctorCancel confirmedAppointment).status = Status.cancelled ∧
    cancelled doctorCancel confirmedAppointment ∈
      (cancel mailThrowsEnv doctorCancel [confirmedAppointment]).store ∧
    (∀ a ∈ (cancel mailThrowsEnv doctorCancel [confirmedAppointment]).store,
      a.id = confirmedAppointment.id → a = cancelled doctorCancel confirmedAppointment) :=
  ⟨Or.inr rfl,
    cancel_survives_notification mailThrowsEnv doctorCancel [confirmedAppointment] 1
      confirmedAppointment patientTwo doctorOne rfl (by decide) (by decide) (by decide)
      (Or.inr rfl) (by decide) (by decide) (by decide) (by decide)⟩

set_option maxRecDepth 100000 in
/-- C26 as stated fails: patient 2 cancels the scheduled appointment 1 with a reason of 500
emoji, which the validator counts as 500 characters. The note "Cancelled by patient: ..." takes
1022 UTF-16 code units, more than the 1000 of the `notes` path, so `save()` fails: the answer
is 500 "Error cancelling appointment" and the stored appointment is still scheduled. -/
theorem cancel_survives_notification_counterexample :
    cancelErrors emojiCancel = [] ∧
    ([bookedAppointment].find? fun a => a.id == 1) = some bookedAppointment ∧
    canCancel emojiCancel bookedAppointment (findById sampleEnv.users 2)
      (findById sampleEnv.users 1) = some true ∧
    bookedAppointment.status = Status.scheduled ∧
    schemaValid bookedAppointment = true ∧
    utf16Length (cancelled emojiCancel bookedAppointment).notes = 1022 ∧
    (cancel sampleEnv emojiCancel [bookedAppointment]).reply =
      failure 500 "Error cancelling appointment" ∧
    (cancel sampleEnv emojiCancel [bookedAppointment]).store = [bookedAppointment] := by
  decide

/-! ## Only catalog slots are stored -/

theorem schemaValid_slot (a : Appointment) (hv : schemaValid a = true) :
    a.timeSlot ∈ allTimeSlots := by
  unfold schemaValid at hv
  simp only [Bool.and_eq_true] at hv
  have h := hv.1.1.1.1.1
  have he : allTimeSlots = timeSlotEnum := by decide
  rw [he]
  simpa using h

theorem valid_updateDoc (s t : Store) (old new : Appointment)
    (h : updateDoc s old new = .ok t) (hinv : ∀ a ∈ s, schemaValid a = true) :
    ∀ a ∈ t, schemaValid a = true := by
  have ht := updateDoc_ok s t old new h
  unfold updateDoc at h
  split at h
  · cases h
  · rename_i hv
    intro a ha
    rw [ht] at ha
    obtain ⟨b, hb, hab⟩ := List.mem_map.mp ha
    by_cases hbid : b.id = old.id
    · rw [if_pos hbid] at hab
      rw [← hab]
      simpa using hv
    · rw [if_neg hbid] at hab
      rw [← hab]
      exact hinv b hb

theorem valid_afterBooked (env : Env) (doctorId : Nat) (a : Appointment) (s1 : Store)
    (hinv : ∀ b ∈ s1, schemaValid b = true) :
    ∀ b ∈ (afterBooked env doctorId a s1).store, schemaValid b = true := by
  unfold afterBooked
  simp only
  split
  · exact hinv
  · split
    · split
      · rename_i s2 hs2
        exact valid_updateDoc s1 s2 a _ hs2 hinv
      · exact hinv
    · exact hinv
    · exact hinv

theorem valid_bookChecked (env : Env) (req : BookRequest) (doctorId : Nat) (date : Int)
    (doctor : User) (sCount sFind s : Store) (hinv : ∀ b ∈ s, schemaValid b = true) :
    ∀ b ∈ (bookChecked env req doctorId date doctor sCount sFind s).store,
      schemaValid b = true := by
  unfold bookChecked
  simp only
  split
  · exact hinv
  · split
    · exact hinv
    · split
      · exact hinv
      · split
        · exact hinv
        · split
          · rename_i s1 hs1
            obtain ⟨h1, h2⟩ := insertDoc_ok _ _ s s1 _ hs1
            apply valid_afterBooked
            intro b hb
            rw [h1] at hb
            rcases List.mem_append.mp hb with hb | hb
            · exact hinv b hb
            · rw [List.mem_singleton.mp hb]
              exact h2
          · split
            · exact hinv
            · exact hinv

theorem valid_bookWith (env : Env) (req : BookRequest) (sCount sFind s : Store)
    (hinv : ∀ b ∈ s, schemaValid b = true) :
    ∀ b ∈ (bookWith env req sCount sFind s).store, schemaValid b = true := by
  unfold bookWith
  split
  · split
    · exact hinv
    · split
      · exact hinv
      · exact hinv
  · split
    · exact hinv
    · split
      · exact hinv
      · exact valid_bookChecked env req _ _ _ sCount sFind s hinv
  · exact hinv

theorem valid_cancel (env : Env) (req : CancelRequest) (s : Store)
    (hinv : ∀ b ∈ s, schemaValid b = true) :
    ∀ b ∈ (cancel env req s).store, schemaValid b = true := by
  unfold cancel
  split
  · exact hinv
  · split
    · exact hinv
    · split
      · exact hinv
      · rename_i appointment hfind
        simp only
        split
        · exact hinv
        · exact hinv
        · split
          · exact hinv
          · split
            · exact hinv
            · split
              · exact hinv
              · rename_i s1 hs1
                have h1 := valid_updateDoc s s1 appointment _ hs1 hinv
                split
                · exact h1
                · exact h1

theorem valid_update (req : UpdateRequest) (s : Store)
    (hinv : ∀ b ∈ s, schemaValid b = true) :
    ∀ b ∈ (update req s).store, schemaValid b = true := by
  unfold update
  split
  · exact hinv
  · split
    · exact hinv
    · split
      · exact hinv
      · rename_i appointment hfind
        split
        · exact hinv
        · rename_i s1 hs1
          exact valid_updateDoc s s1 appointment _ hs1 hinv

theorem valid_of_reachable (s : Store) (h : Reachable s) : ∀ b ∈ s, schemaValid b = true := by
  induction h with
  | empty => intro b hb; cases hb
  | step _ hstep ih =>
    cases hstep with
    | book env req sCount sFind => exact valid_bookWith env req sCount sFind _ ih
    | cancel env req => exact valid_cancel env req _ ih
    | update req => exact valid_update req _ ih

theorem bookChecked_off_catalog (env : Env) (req : BookRequest) (doctorId : Nat) (date : Int)
    (doctor : User) (sCount sFind s : Store) (hoff : req.timeSlot ∉ allTimeSlots) :
    (bookChecked env req doctorId date doctor sCount sFind s).store = s ∧
    (bookChecked env req doctorId date doctor sCount sFind s).appointment = none ∧
    (bookChecked env req doctorId date doctor sCount sFind s).reply.success = false := by
  unfold bookChecked
  simp only
  split
  · exact ⟨rfl, rfl, rfl⟩
  · split
    · exact ⟨rfl, rfl, rfl⟩
    · split
      · exact ⟨rfl, rfl, rfl⟩
      · split
        · exact ⟨rfl, rfl, rfl⟩
        · split
          · rename_i s1 hs1
            exfalso
            obtain ⟨-, h2⟩ := insertDoc_ok _ _ s s1 _ hs1
            exact hoff (schemaValid_slot _ h2)
          · split
            · exact ⟨rfl, rfl, rfl⟩
            · exact ⟨rfl, rfl, rfl⟩

/-- C30. In every collection reachable by book, cancel and clinical-update requests, the time
slot of every stored appointment is one of the 24 catalog labels; and a booking request whose
time slot is not a catalog label (such as "08:00-08:15", which has the required format) is
answered with a failure and stores nothing. -/
theorem only_catalog_slots (s : Store) (h : Reachable s) :
    (∀ a ∈ s, a.timeSlot ∈ allTimeSlots) ∧
    (∀ (env : Env) (req : BookRequest) (sCount sFind : Store),
      req.timeSlot ∉ allTimeSlots →
        (bookWith env req sCount sFind s).store = s ∧
        (bookWith env req sCount sFind s).appointment = none ∧
        (bookWith env req sCount sFind s).reply.success = false) := by
  constructor
  · intro a ha
    exact schemaValid_slot a (valid_of_reachable s h a ha)
  · intro env req sCount sFind hoff
    unfold bookWith
    split
    · split
      · exact ⟨rfl, rfl, rfl⟩
      · split
        · exact ⟨rfl, rfl, rfl⟩
        · exact ⟨rfl, rfl, rfl⟩
    · split
      · exact ⟨rfl, rfl, rfl⟩
      · split
        · exact ⟨rfl, rfl, rfl⟩
        · exact bookChecked_off_catalog env req _ _ _ sCount sFind s hoff
    · exact ⟨rfl, rfl, rfl⟩

theorem only_catalog_slots_witness :
    Reachable (bookWith sampleEnv sampleRequest [] [] []).store ∧
    matchesTimeSlotFormat offCatalogRequest.timeSlot = true ∧
    offCatalogRequest.timeSlot ∉ allTimeSlots ∧
    (∀ a ∈ (bookWith sampleEnv sampleRequest [] [] []).store, a.timeSlot ∈ allTimeSlots) ∧
    (bookWith sampleEnv offCatalogRequest [] []
        (bookWith sampleEnv sampleRequest [] [] []).store).store =
      (bookWith sampleEnv sampleRequest [] [] []).store ∧
    (bookWith sampleEnv offCatalogRequest [] []
      (bookWith sampleEnv sampleRequest [] [] []).store).appointment = none ∧
    (bookWith sampleEnv offCatalogRequest [] []
      (bookWith sampleEnv sampleRequest [] [] []).store).reply.success = false :=
  ⟨Reachable.step Reachable.empty (Step.book sampleEnv sampleRequest [] [] []),
    by decide, by decide,
    (only_catalog_slots _
      (Reachable.step Reachable.empty (Step.book sampleEnv sampleRequest [] [] []))).1,
    (only_catalog_slots _
      (Reachable.step Reachable.empty (Step.book sampleEnv sampleRequest [] [] []))).2
      sampleEnv offCatalogRequest [] [] (by decide)⟩

/-! ## Status codes of the error kinds -/

theorem closedMessage_ne (name day L : String) (hL : L.data.take 2 ≠ ['D', 'r']) :
    L ≠ closedMessage name day := by
  intro h
  apply hL
  rw [h]
  simp [closedMessage, String.data_append]

theorem availability_reply_shape (env : Env) (req : AvailabilityRequest) (s : Store) :
    (availability env req s).reply ∈ availabilityReplies ∨
    (∃ name day, (availability env req s).reply =
      ⟨200, true, some (closedMessage name day), []⟩) ∨
    (∃ e, (availability env req s).reply = validationFailed e) := by
  unfold availability
  split
  · split
    · exact Or.inl (by simp [availabilityReplies])
    · exact Or.inr (Or.inl ⟨_, _, rfl⟩)
  · split
    · exact Or.inl (by simp [availabilityReplies])
    · simp only
      split
      · exact Or.inl (by simp [availabilityReplies])
      · split
        · exact Or.inr (Or.inl ⟨_, _, rfl⟩)
        · exact Or.inl (by simp [availabilityReplies])
  · exact Or.inr (Or.inr ⟨_, rfl⟩)

theorem afterBooked_reply_shape (env : Env) (doctorId : Nat) (a : Appointment) (s1 : Store) :
    (afterBooked env doctorId a s1).reply ∈ bookReplies := by
  unfold afterBooked
  simp only
  split
  · simp [bookReplies]
  · split
    · split <;> simp [bookReplies]
    · simp [bookReplies]
    · simp [bookReplies]

theorem book_reply_shape (env : Env) (req : BookRequest) (sCount sFind s : Store) :
    (bookWith env req sCount sFind s).reply ∈ bookReplies ∨
    (∃ name day, (bookWith env req sCount sFind s).reply =
      failure 400 (closedMessage name day)) ∨
    (∃ e, (bookWith env req sCount sFind s).reply = validationFailed e) := by
  unfold bookWith
  split
  · split
    · exact Or.inr (Or.inr ⟨_, rfl⟩)
    · split
      · exact Or.inl (by simp [bookReplies])
      · exact Or.inr (Or.inl ⟨_, _, rfl⟩)
  · split
    · exact Or.inr (Or.inr ⟨_, rfl⟩)
    · split
      · exact Or.inl (by simp [bookReplies])
      · unfold bookChecked
        simp only
        split
        · exact Or.inl (by simp [bookReplies])
        · split
          · exact Or.inr (Or.inl ⟨_, _, rfl⟩)
          · split
            · exact Or.inl (by simp [bookReplies])
            · split
              · exact Or.inl (by simp [bookReplies])
              · split
                · exact Or.inl (afterBooked_reply_shape _ _ _ _)
                · split
                  · exact Or.inl (by simp [bookReplies])
                  · exact Or.inl (by simp [bookReplies])
  · exact Or.inr (Or.inr ⟨_, rfl⟩)

theorem cancel_reply_shape (env : Env) (req : CancelRequest) (s : Store) :
    (cancel env req s).reply ∈ cancelReplies ∨
    (∃ e, (cancel env req s).reply = validationFailed e) := by
  unfold cancel
  split
  · exact Or.inr ⟨_, rfl⟩
  · split
    · exact Or.inr ⟨_, rfl⟩
    · split
      · exact Or.inl (by simp [cancelReplies])
      · simp only
        split
        · exact Or.inl (by simp [cancelReplies])
        · exact Or.inl (by simp [cancelReplies])
        · split
          · exact Or.inl (by simp [cancelReplies])
          · split
            · exact Or.inl (by simp [cancelReplies])
            · split
              · exact Or.inl (by simp [cancelReplies])
              · split
                · exact Or.inl (by simp [cancelReplies])
                · exact Or.inl (by simp [cancelReplies])

theorem update_reply_shape (req : UpdateRequest) (s : Store) :
    (update req s).reply ∈ updateReplies ∨
    (∃ e, (update req s).reply = validationFailed e) := by
  unfold update
  split
  · exact Or.inr ⟨_, rfl⟩
  · split
    · exact Or.inr ⟨_, rfl⟩
    · split
      · exact Or.inl (by simp [updateReplies])
      · split
        · exact Or.inl (by simp [updateReplies])
        · exact Or.inl (by simp [updateReplies])

theorem bookReplies_codes :
    ∀ r ∈ bookReplies,
      (r.message = some "Doctor not found" → r.status = 404) ∧
      (r.message = some "Cannot book appointments in the past" → r.status = 400) ∧
      (r.message = some "This time slot is fully booked" → r.status = 400) ∧
      (r.message = some "You already have an appointment at this time" → r.status = 400) ∧
      (r.message = some raceMessage → r.status = 400) := by
  decide

theorem bookReplies_closed (r : Reply) (hr : r ∈ bookReplies) (name day : String)
    (hm : r.message = some (closedMessage name day)) : r.status = 400 := by
  simp only [bookReplies, List.mem_cons, List.mem_singleton, List.not_mem_nil, or_false] at hr
  rcases hr with h | h | h | h | h | h | h | h <;> subst h
  · exact absurd (Option.some.inj hm) (closedMessage_ne name day _ (by decide))
  · rfl
  · rfl
  · rfl
  · rfl
  · exact absurd (Option.some.inj hm) (closedMessage_ne name day _ (by decide))
  · exact absurd (Option.some.inj hm) (closedMessage_ne name day _ (by decide))
  · exact absurd (Option.some.inj hm) (closedMessage_ne name day _ (by decide))

theorem cancelReplies_codes :
    ∀ r ∈ cancelReplies,
      (r.message = some "Appointment not found" → r.status = 404) ∧
      (r.message = some "You are not authorized to cancel this appointment" →
        r.status = 403) ∧
      (r.message = some "Appointment is already cancelled" → r.status = 400) ∧
      (r.message = some "Cannot cancel a completed appointment" → r.status = 400) := by
  decide

theorem updateReplies_codes :
    ∀ r ∈ updateReplies,
      (r.message = some "Appointment not found or you are not authorized to update it" →
        r.status = 404) := by
  decide

theorem availabilityReplies_codes :
    ∀ r ∈ availabilityReplies,
      (r.message = some "Doctor not found" → r.status = 404) ∧
      (r.message = some "Cannot check availability for past dates" → r.status = 400) := by
  decide

/-- C23, as amended. Across the availability, book, cancel and update handlers an answer
with a NotFound message has status 404, the Forbidden answer has status 403, and the answers
with an InvalidRequest message (past date, non-operating weekday, already cancelled, completed)
and those with a Conflict message (slot fully booked, patient already booked, slot just
booked by someone else) all have status 400: NotFound, Forbidden and InvalidRequest have
pairwise distinct codes, while Conflict shares the code of InvalidRequest. -/
theorem status_codes (env : Env) (areq : AvailabilityRequest) (breq : BookRequest)
    (creq : CancelRequest) (ureq : UpdateRequest) (sCount sFind s : Store) :
    (((availability env areq s).reply.message = some "Doctor not found" →
        (availability env areq s).reply.status = 404) ∧
      ((bookWith env breq sCount sFind s).reply.message = some "Doctor not found" →
        (bookWith env breq sCount sFind s).reply.status = 404) ∧
      ((cancel env creq s).reply.message = some "Appointment not found" →
        (cancel env creq s).reply.status = 404) ∧
      ((update ureq s).reply.message =
          some "Appointment not found or you are not authorized to update it" →
        (update ureq s).reply.status = 404)) ∧
    ((cancel env creq s).reply.message =
        some "You are not authorized to cancel this appointment" →
      (cancel env creq s).reply.status = 403) ∧
    (((availability env areq s).reply.message =
          some "Cannot check availability for past dates" →
        (availability env areq s).reply.status = 400) ∧
      ((bookWith env breq sCount sFind s).reply.message =
          some "Cannot book appointments in the past" →
        (bookWith env breq sCount sFind s).reply.status = 400) ∧
      (∀ name day, (bookWith env breq sCount sFind s).reply.message =
          some (closedMessage name day) →
        (bookWith env breq sCount sFind s).reply.status = 400) ∧
      ((cancel env creq s).reply.message = some "Appointment is already cancelled" →
        (cancel env creq s).reply.status = 400) ∧
      ((cancel env creq s).reply.message = some "Cannot cancel a completed appointment" →
        (cancel env creq s).reply.status = 400)) ∧
    (((bookWith env breq sCount sFind s).reply.message =
          some "This time slot is fully booked" →
        (bookWith env breq sCount sFind s).reply.status = 400) ∧
      ((bookWith env breq sCount sFind s).reply.message =
          some "You already have an appointment at this time" →
        (bookWith env breq sCount sFind s).reply.status = 400) ∧
      ((bookWith env breq sCount sFind s).reply.message = some raceMessage →
        (bookWith env breq sCount sFind s).reply.status = 400)) := by
  have ha : ((availability env areq s).reply.message = some "Doctor not found" →
        (availability env areq s).reply.status = 404) ∧
      ((availability env areq s).reply.message =
          some "Cannot check availability for past dates" →
        (availability env areq s).reply.status = 400) := by
    rcases availability_reply_shape env areq s with h | ⟨name, day, h⟩ | ⟨e, h⟩
    · exact availabilityReplies_codes _ h
    · rw [h]
      refine ⟨fun hm => ?_, fun hm => ?_⟩
      · exact absurd (Option.some.inj hm).symm (closedMessage_ne name day _ (by decide))
      · exact absurd (Option.some.inj hm).symm (closedMessage_ne name day _ (by decide))
    · rw [h]
      simp [validationFailed]
  have hb : ((bookWith env breq sCount sFind s).reply.message = some "Doctor not found" →
        (bookWith env breq sCount sFind s).reply.status = 404) ∧
      ((bookWith env breq sCount sFind s).reply.message =
          some "Cannot book appointments in the past" →
        (bookWith env breq sCount sFind s).reply.status = 400) ∧
      ((bookWith env breq sCount sFind s).reply.message =
          some "This time slot is fully booked" →
        (bookWith env breq sCount sFind s).reply.status = 400) ∧
      ((bookWith env breq sCount sFind s).reply.message =
          some "You already have an appointment at this time" →
        (bookWith env breq sCount sFind s).reply.status = 400) ∧
      ((bookWith env breq sCount sFind s).reply.message = some raceMessage →
        (bookWith env breq sCount sFind s).reply.status = 400) := by
    rcases book_reply_shape env breq sCount sFind s with h | ⟨name, day, h⟩ | ⟨e, h⟩
    · exact bookReplies_codes _ h
    · rw [h]
      refine ⟨fun hm => ?_, fun _ => rfl, fun _ => rfl, fun _ => rfl, fun _ => rfl⟩
      exact absurd (Option.some.inj hm).symm (closedMessage_ne name day _ (by decide))
    · rw [h]
      simp [validationFailed, raceMessage]
  have hbc : ∀ name day, (bookWith env breq sCount sFind s).reply.message =
        some (closedMessage name day) →
      (bookWith env breq sCount sFind s).reply.status = 400 := by
    intro name day hm
    rcases book_reply_shape env breq sCount sFind s with h | ⟨name2, day2, h⟩ | ⟨e, h⟩
    · exact bookReplies_closed _ h name day hm
    · rw [h]
      rfl
    · rw [h]
      rfl
  have hc : ((cancel env creq s).reply.message = some "Appointment not found" →
        (cancel env creq s).reply.status = 404) ∧
      ((cancel env creq s).reply.message =
          some "You are not authorized to cancel this appointment" →
        (cancel env creq s).reply.status = 403) ∧
      ((cancel env creq s).reply.message = some "Appointment is already cancelled" →
        (cancel env creq s).reply.status = 400) ∧
      ((cancel env creq s).reply.message = some "Cannot cancel a completed appointment" →
        (cancel env creq s).reply.status = 400) := by
    rcases cancel_reply_shape env creq s with h | ⟨e, h⟩
    · exact cancelReplies_codes _ h
    · rw [h]
      simp [validationFailed]
  have hu : (update ureq s).reply.message =
        some "Appointment not found or you are not authorized to update it" →
      (update ureq s).reply.status = 404 := by
    rcases update_reply_shape ureq s with h | ⟨e, h⟩
    · exact updateReplies_codes _ h
    · rw [h]
      simp [validationFailed]
  exact ⟨⟨ha.1, hb.1, hc.1, hu⟩, hc.2.1, ⟨ha.2, hb.2.1, hbc, hc.2.2.1, hc.2.2.2⟩,
    hb.2.2.1, hb.2.2.2.1, hb.2.2.2.2⟩

theorem status_codes_witness :
    (bookWith sampleEnv secondRequest [bookedAppointment] [bookedAppointment]
      [bookedAppointment]).reply.message = some "This time slot is fully booked" ∧
    (bookWith sampleEnv secondRequest [bookedAppointment] [bookedAppointment]
      [bookedAppointment]).reply.status = 400 ∧
    (cancel sampleEnv strangerCancel [bookedAppointment]).reply.message =
      some "You are not authorized to cancel this appointment" ∧
    (cancel sampleEnv strangerCancel [bookedAppointment]).reply.status = 403 :=
  ⟨by decide,
    (status_codes sampleEnv ⟨some 1, DateText.instant monday⟩ secondRequest strangerCancel reactivate
      [bookedAppointment] [bookedAppointment] [bookedAppointment]).2.2.2.1 (by decide),
    by decide,
    (status_codes sampleEnv ⟨some 1, DateText.instant monday⟩ secondRequest strangerCancel reactivate
      [bookedAppointment] [bookedAppointment] [bookedAppointment]).2.1 (by decide)⟩

/-- C23 as stated fails: the Conflict answer "This time slot is fully booked" and the
InvalidRequest answer "Cannot book appointments in the past" carry the same status code 400,
and so does the Conflict answer to a booking rejected by the unique index. -/
theorem status_codes_counterexample :
    (book sampleEnv secondRequest [bookedAppointment]).reply =
      failure 400 "This time slot is fully booked" ∧
    (book lateEnv sampleRequest []).reply =
      failure 400 "Cannot book appointments in the past" ∧
    (bookWith sampleEnv secondRequest [] [] [bookedAppointment]).reply =
      failure 400 raceMessage ∧
    (book sampleEnv secondRequest [bookedAppointment]).reply.status =
      (book lateEnv sampleRequest []).reply.status ∧
    (bookWith sampleEnv secondRequest [] [] [bookedAppointment]).reply.status =
      (book lateEnv sampleRequest []).reply.status := by
  decide

end AiMicroscopy
